import Mathlib

/-!
# hipTensor contraction layer: embedding and verified properties

Shallow embedding of

* `library/src/contraction/hiptensor_contraction.cpp`
  (`hiptensorInitContractionDescriptor`, `hiptensorInitContractionFind`,
  `hiptensorContractionGetWorkspaceSize`, `hiptensorInitContractionPlan`,
  `hiptensorContraction`),
* `library/src/contraction/device/device_contraction_bilinear_complex.hpp`,
* `library/src/contraction/device/device_contraction_scale_complex.hpp`,
* the enumerations of `include/hiptensor/ht_types.hpp`.

Pointers are `Option`s (`none` is `nullptr`), output parameters are returned
next to the status, and device work is recorded in an explicit event trace.
-/

namespace HipTensor

/-! ## Enumerations (`ht_types.hpp`) -/

/-- Status codes, `hiptensorStatus_t`. -/
inductive hiptensorStatus_t
  | HIPTENSOR_STATUS_SUCCESS
  | HIPTENSOR_STATUS_NOT_INITIALIZED
  | HIPTENSOR_STATUS_ALLOC_FAILED
  | HIPTENSOR_STATUS_INVALID_VALUE
  | HIPTENSOR_STATUS_ARCH_MISMATCH
  | HIPTENSOR_STATUS_MAPPING_ERROR
  | HIPTENSOR_STATUS_EXECUTION_FAILED
  | HIPTENSOR_STATUS_INTERNAL_ERROR
  | HIPTENSOR_STATUS_NOT_SUPPORTED
  | HIPTENSOR_STATUS_LICENSE_ERROR
  | HIPTENSOR_STATUS_CK_ERROR
  | HIPTENSOR_STATUS_ROCM_ERROR
  | HIPTENSOR_STATUS_INSUFFICIENT_WORKSPACE
  | HIPTENSOR_STATUS_INSUFFICIENT_DRIVER
  | HIPTENSOR_STATUS_IO_ERROR
  deriving DecidableEq, Repr

/-- Workspace preference, `hiptensorWorksizePreference_t`. -/
inductive hiptensorWorksizePreference_t
  | HIPTENSOR_WORKSPACE_MIN
  | HIPTENSOR_WORKSPACE_RECOMMENDED
  | HIPTENSOR_WORKSPACE_MAX
  deriving DecidableEq, Repr

/-- Compute type, `hiptensorComputeType_t`. -/
inductive hiptensorComputeType_t
  | HIPTENSOR_COMPUTE_16F
  | HIPTENSOR_COMPUTE_16BF
  | HIPTENSOR_COMPUTE_TF32
  | HIPTENSOR_COMPUTE_32F
  | HIPTENSOR_COMPUTE_64F
  | HIPTENSOR_COMPUTE_8U
  | HIPTENSOR_COMPUTE_8I
  | HIPTENSOR_COMPUTE_32U
  | HIPTENSOR_COMPUTE_32I
  deriving DecidableEq, Repr

open hiptensorStatus_t hiptensorWorksizePreference_t

/-! ## Data model used by `hiptensor_contraction.cpp` -/

/-- A `void*`: `none` is `nullptr`, `some a` is the address `a`. -/
abbrev VoidPtr := Option Nat

/-- Tensor descriptor as `hiptensor_contraction.cpp` uses it
(`mType`, `mLengths`, `mStrides`; `mType` is a `hipDataType` value). -/
structure hiptensorTensorDescriptor_t where
  mType : Int
  mLengths : List Nat
  mStrides : List Nat
  deriving DecidableEq, Repr

/-- Contraction descriptor: operation id, compute type, the operand
descriptors (A, B, C, D at indices 0..3) and their alignments. -/
structure hiptensorContractionDescriptor_t where
  mContractionOpId : Int
  mComputeType : hiptensorComputeType_t
  mTensorDesc : List hiptensorTensorDescriptor_t
  mAlignmentRequirements : List Nat
  deriving DecidableEq, Repr

/-- Element `i` of `desc->mTensorDesc`. -/
def hiptensorContractionDescriptor_t.tensorDesc
    (desc : hiptensorContractionDescriptor_t) (i : Nat) : hiptensorTensorDescriptor_t :=
  desc.mTensorDesc.getD i ⟨0, [], []⟩

/-- Conversion of one `std::size_t` to `ck::index_t` (a 32-bit `int`). -/
def toIndex (x : Nat) : Int :=
  if x % 2 ^ 32 < 2 ^ 31 then (x % 2 ^ 32 : Nat) else ((x % 2 ^ 32 : Nat) : Int) - 2 ^ 32

/-- The lambda `toCKVec`: a `std::vector<ck::index_t>` built from a vector of `size_t`. -/
def toCKVec (inputVec : List Nat) : List Int :=
  inputVec.map toIndex

/-- The arguments one call of `ContractionSolution::initArgs` receives. -/
structure InitArgsCall where
  alpha : VoidPtr
  A : VoidPtr
  B : VoidPtr
  beta : VoidPtr
  D : VoidPtr
  E : VoidPtr
  a_ms_ks_lengths : List Int
  a_ms_ks_strides : List Int
  b_ns_ks_lengths : List Int
  b_ns_ks_strides : List Int
  ds_ms_ns_lengths : List (List Int)
  ds_ms_ns_strides : List (List Int)
  e_ms_ns_lengths : List Int
  e_ms_ns_strides : List Int
  workspacePtr : VoidPtr
  deriving DecidableEq, Repr

/-- The shape part of an `initArgs` call: every length and stride vector. -/
def InitArgsCall.shape (c : InitArgsCall) :
    List Int × List Int × List Int × List Int × List (List Int) × List (List Int)
      × List Int × List Int :=
  (c.a_ms_ks_lengths, c.a_ms_ks_strides, c.b_ns_ks_lengths, c.b_ns_ks_strides,
    c.ds_ms_ns_lengths, c.ds_ms_ns_strides, c.e_ms_ns_lengths, c.e_ms_ns_strides)

/-- The `hipDataType` value `HIP_R_32F` of the HIP runtime. -/
def HIP_R_32F : Int := 0

/-- The value `hipDataType(-1)` used for an absent C operand. -/
def NONE_TYPE : Int := -1

/-- The value `(int32_t)hiptensor::ContractionOpId_t::SCALE`
(`HIPTENSOR_CONTRACTION_SCALE = 0` in `ht_types.hpp`). -/
def ContractionOpId_t.SCALE : Int := 0

/-- The value `(int32_t)hiptensor::ContractionOpId_t::BILINEAR`
(`HIPTENSOR_CONTRACTION_BILINEAR = 1` in `ht_types.hpp`). -/
def ContractionOpId_t.BILINEAR : Int := 1

/-- Modelled from the spec: the class `hiptensor::ContractionSolution`
(`contraction_solution.hpp`) is not among the sources. The spec gives a solution
an argument constructor with a support check and a workspace-size query:
`initArgs` is the boolean `initArgs(...)` returns, and `workspaceSize` is the
value `workspaceSize()` reports once `initArgs` has been called with these
arguments. The spec's data model also gives it an id (`uid`, its catalog key),
a supported signature (`typeA`, `typeB`, `typeC` or none, `typeD`) and an
operation kind (`opId`). -/
structure ContractionSolution where
  initArgs : InitArgsCall → Bool
  workspaceSize : InitArgsCall → Nat
  uid : Nat
  typeA : Int
  typeB : Int
  typeC : Int
  typeD : Int
  opId : Int

/-- The selection request `hiptensorContractionFind_t`: algorithm tag and candidates. -/
structure hiptensorContractionFind_t where
  mSelectionAlgorithm : Int
  mCandidates : List ContractionSolution

/-- The plan `hiptensorContractionPlan_t`; `mSolution = none` is a null solution pointer. -/
structure hiptensorContractionPlan_t where
  mContractionDesc : hiptensorContractionDescriptor_t
  mSolution : Option ContractionSolution

/-- The library handle, reduced to the id of the device it is bound to
(`realHandle->getDevice().getDeviceId()`). -/
structure hiptensorHandle_t where
  deviceId : Int
  deriving DecidableEq, Repr

/-- The default-constructed `hiptensor::HipDevice`: the current device. -/
structure HipDevice where
  getDeviceId : Int
  supportsF64 : Bool
  deriving DecidableEq, Repr

/-! ## `hiptensorContractionGetWorkspaceSize` -/

/-- The uninitialised locals of `hiptensorContractionGetWorkspaceSize`
(`float alpha, beta; void *A_d, *B_d, *C_d;`): the addresses of `alpha` and
`beta` and the indeterminate values of the three pointers. -/
structure ProbeLocals where
  alphaAddr : Nat
  betaAddr : Nat
  A_d : VoidPtr
  B_d : VoidPtr
  C_d : VoidPtr
  deriving DecidableEq, Repr

/-- The `initArgs` call made for every candidate by the workspace query. -/
def probeCall (desc : hiptensorContractionDescriptor_t) (l : ProbeLocals) : InitArgsCall :=
  { alpha := some l.alphaAddr
    A := l.A_d
    B := l.B_d
    beta := some l.betaAddr
    D := l.C_d
    E := l.C_d
    a_ms_ks_lengths := toCKVec (desc.tensorDesc 0).mLengths
    a_ms_ks_strides := toCKVec (desc.tensorDesc 0).mStrides
    b_ns_ks_lengths := toCKVec (desc.tensorDesc 1).mLengths
    b_ns_ks_strides := toCKVec (desc.tensorDesc 1).mStrides
    ds_ms_ns_lengths := [toCKVec (desc.tensorDesc 2).mLengths]
    ds_ms_ns_strides := [toCKVec (desc.tensorDesc 2).mStrides]
    e_ms_ns_lengths := toCKVec (desc.tensorDesc 3).mLengths
    e_ms_ns_strides := toCKVec (desc.tensorDesc 3).mStrides
    workspacePtr := none }

/-- One iteration of the candidate loop: the new value of `*workspaceSize`. -/
def workspaceStep (pref : hiptensorWorksizePreference_t) (call : InitArgsCall)
    (ws : Nat) (solution : ContractionSolution) : Nat :=
  if solution.initArgs call then
    if ws = 0 then
      solution.workspaceSize call
    else
      if pref = HIPTENSOR_WORKSPACE_MIN then
        min ws (solution.workspaceSize call)
      else
        max ws (solution.workspaceSize call)
  else
    ws

/-- The loop `for(auto* candidate : find->mCandidates)` started from `ws`. -/
def workspaceLoop (pref : hiptensorWorksizePreference_t) (call : InitArgsCall)
    (ws : Nat) (candidates : List ContractionSolution) : Nat :=
  candidates.foldl (workspaceStep pref call) ws

/-- Function `hiptensorContractionGetWorkspaceSize`. The output parameter
`workspaceSize` is `none` for a null pointer and `some v` for a pointer to a
`uint64_t` holding `v`; the second component is the pointee after the call. -/
def hiptensorContractionGetWorkspaceSize (locals : ProbeLocals)
    (handle : Option hiptensorHandle_t) (desc : Option hiptensorContractionDescriptor_t)
    (find : Option hiptensorContractionFind_t) (pref : hiptensorWorksizePreference_t)
    (workspaceSize : Option Nat) : hiptensorStatus_t × Option Nat :=
  match handle, desc, find, workspaceSize with
  | some _, some d, some f, some _ =>
    (HIPTENSOR_STATUS_SUCCESS, some (workspaceLoop pref (probeCall d locals) 0 f.mCandidates))
  | _, _, _, _ => (HIPTENSOR_STATUS_NOT_INITIALIZED, workspaceSize)

/-! ## `hiptensorContraction` -/

/-- Device work observable from `hiptensorContraction`: the solution's argument
object being built from the operand pointers (`initArgs`), and the solution
being invoked on a stream (`(*cSolution)(StreamConfig{stream, false})`). -/
inductive Event
  | initArgs (call : InitArgsCall)
  | invoke (stream : Nat)
  deriving DecidableEq, Repr

/-- The `initArgs` call made by `hiptensorContraction` for a plan. -/
def contractionCall (desc : hiptensorContractionDescriptor_t)
    (alpha A B beta C D workspace : VoidPtr) : InitArgsCall :=
  { alpha := alpha
    A := A
    B := B
    beta := beta
    D := C
    E := D
    a_ms_ks_lengths := toCKVec (desc.tensorDesc 0).mLengths
    a_ms_ks_strides := toCKVec (desc.tensorDesc 0).mStrides
    b_ns_ks_lengths := toCKVec (desc.tensorDesc 1).mLengths
    b_ns_ks_strides := toCKVec (desc.tensorDesc 1).mStrides
    ds_ms_ns_lengths := [toCKVec (desc.tensorDesc 2).mLengths]
    ds_ms_ns_strides := [toCKVec (desc.tensorDesc 2).mStrides]
    e_ms_ns_lengths := toCKVec (desc.tensorDesc 3).mLengths
    e_ms_ns_strides := toCKVec (desc.tensorDesc 3).mStrides
    workspacePtr := workspace }

/-- Function `hiptensorContraction`: the returned status and the trace of device
work, in program order. -/
def hiptensorContraction (currentDevice : HipDevice)
    (handle : Option hiptensorHandle_t) (plan : Option hiptensorContractionPlan_t)
    (alpha A B beta C D workspace : VoidPtr) (workspaceSize : Nat) (stream : Nat) :
    hiptensorStatus_t × List Event :=
  match handle, plan with
  | some realHandle, some p =>
    if alpha = none ∨ A = none ∨ B = none ∨ D = none then
      (HIPTENSOR_STATUS_INVALID_VALUE, [])
    else
      match p.mSolution with
      | none => (HIPTENSOR_STATUS_INTERNAL_ERROR, [])
      | some cSolution =>
        if currentDevice.getDeviceId ≠ realHandle.deviceId then
          (HIPTENSOR_STATUS_ARCH_MISMATCH, [])
        else
          let call := contractionCall p.mContractionDesc alpha A B beta C D workspace
          if cSolution.initArgs call then
            if cSolution.workspaceSize call > workspaceSize then
              (HIPTENSOR_STATUS_INSUFFICIENT_WORKSPACE, [Event.initArgs call])
            else
              (HIPTENSOR_STATUS_SUCCESS, [Event.initArgs call, Event.invoke stream])
          else
            (HIPTENSOR_STATUS_INTERNAL_ERROR, [Event.initArgs call])
  | _, _ => (HIPTENSOR_STATUS_NOT_INITIALIZED, [])

/-! ## `hiptensorInitContractionDescriptor` -/

set_option linter.unusedVariables false in
/-- Function `hiptensorInitContractionDescriptor`. The mode arrays are `none` for a
null pointer; the output parameter `desc` is `none` for a null pointer and the
second component is the pointee after the call. In the branch without C operand
the braces `{descD->mLengths.size(), 0}` list-initialise a `std::vector<std::size_t>`,
which holds the two listed elements. -/
def hiptensorInitContractionDescriptor (handle : Option hiptensorHandle_t)
    (desc : Option hiptensorContractionDescriptor_t)
    (descA : Option hiptensorTensorDescriptor_t) (modeA : Option (List Int))
    (alignmentRequirementA : Nat)
    (descB : Option hiptensorTensorDescriptor_t) (modeB : Option (List Int))
    (alignmentRequirementB : Nat)
    (descC : Option hiptensorTensorDescriptor_t) (modeC : Option (List Int))
    (alignmentRequirementC : Nat)
    (descD : Option hiptensorTensorDescriptor_t) (modeD : Option (List Int))
    (alignmentRequirementD : Nat) (typeCompute : hiptensorComputeType_t) :
    hiptensorStatus_t × Option hiptensorContractionDescriptor_t :=
  match handle, desc, descA, descB, descD with
  | some _, some _, some a, some b, some d =>
    match descC, modeC with
    | some c, some _ =>
      -- C-descriptor is not empty
      (HIPTENSOR_STATUS_SUCCESS,
        some { mContractionOpId := ContractionOpId_t.BILINEAR
               mComputeType := typeCompute
               mTensorDesc := [a, b, c, d]
               mAlignmentRequirements :=
                 [alignmentRequirementA, alignmentRequirementB, alignmentRequirementC,
                   alignmentRequirementD] })
    | _, _ =>
      -- C-descriptor is empty
      (HIPTENSOR_STATUS_SUCCESS,
        some { mContractionOpId := ContractionOpId_t.SCALE
               mComputeType := typeCompute
               mTensorDesc :=
                 [a, b, ⟨NONE_TYPE, [d.mLengths.length, 0], [d.mStrides.length, 0]⟩, d]
               mAlignmentRequirements :=
                 [alignmentRequirementA, alignmentRequirementB, 0, alignmentRequirementD] })
  | _, _, _, _, _ => (HIPTENSOR_STATUS_NOT_INITIALIZED, desc)

/-! ## Solution registry and `hiptensorInitContractionFind` -/

/-- Enumerator `HIPTENSOR_ALGO_DEFAULT_PATIENT` of `hiptensorAlgo_t`. -/
def HIPTENSOR_ALGO_DEFAULT_PATIENT : Int := -6

/-- Enumerator `HIPTENSOR_ALGO_GETT` of `hiptensorAlgo_t`. -/
def HIPTENSOR_ALGO_GETT : Int := -4

/-- Enumerator `HIPTENSOR_ALGO_TGETT` of `hiptensorAlgo_t`. -/
def HIPTENSOR_ALGO_TGETT : Int := -3

/-- Enumerator `HIPTENSOR_ALGO_TTGT` of `hiptensorAlgo_t`. -/
def HIPTENSOR_ALGO_TTGT : Int := -2

/-- Enumerator `HIPTENSOR_ALGO_DEFAULT` of `hiptensorAlgo_t`. -/
def HIPTENSOR_ALGO_DEFAULT : Int := -1

/-- Modelled from the spec: `hiptensor_contraction.cpp` uses the enumerator
`HIPTENSOR_ALGO_ACTOR_CRITIC`, which the `ht_types.hpp` among the sources does not
declare. The spec lists it as the third algorithm of a selection request; it is a
further enumerator of `hiptensorAlgo_t`, distinct from the declared ones. -/
def HIPTENSOR_ALGO_ACTOR_CRITIC : Int := -8

/-- Modelled from the spec: the class `ContractionSolutionRegistry::Query`
(`contraction_solution_registry.hpp`) is not among the sources. A query is the
ordered mapping of catalog key to solution that it matched: `mAllSolutions` lists
the mapped solutions in key order. -/
structure Query where
  mAllSolutions : List ContractionSolution

/-- Modelled from the spec: entering one solution into the ordered mapping. The
solution is placed at its key; a key already present keeps its solution. -/
def Query.addSolution : List ContractionSolution → ContractionSolution → List ContractionSolution
  | [], s => [s]
  | x :: rest, s =>
    if s.uid < x.uid then s :: x :: rest
    else if s.uid = x.uid then x :: rest
    else x :: Query.addSolution rest s

/-- Modelled from the spec: the query `Query{candidates}` holding a vector of solutions. -/
def Query.ofCandidates (candidates : List ContractionSolution) : Query :=
  ⟨candidates.foldl Query.addSolution []⟩

/-- Modelled from the spec: `query(typeA, typeB, typeC, typeD)` filters by the exact
signature. -/
def Query.query (q : Query) (typeA typeB typeC typeD : Int) : Query :=
  ⟨q.mAllSolutions.filter fun s =>
    decide (s.typeA = typeA ∧ s.typeB = typeB ∧ s.typeC = typeC ∧ s.typeD = typeD)⟩

/-- Modelled from the spec: `query(opId)` filters by the algebraic form. -/
def Query.queryOp (q : Query) (opId : Int) : Query :=
  ⟨q.mAllSolutions.filter fun s => decide (s.opId = opId)⟩

/-- Modelled from the spec: `lhs || rhs` is the union of the two matched sets, with
no solution id twice. -/
def Query.or (lhs rhs : Query) : Query :=
  ⟨rhs.mAllSolutions.foldl Query.addSolution lhs.mAllSolutions⟩

/-- Modelled from the spec: `solutions()` is the ordered mapping actually matched. -/
def Query.solutions (q : Query) : List ContractionSolution :=
  q.mAllSolutions

/-- Modelled from the spec: `solutionCount()` is the size of `solutions()`. -/
def Query.solutionCount (q : Query) : Nat :=
  q.solutions.length

/-- Modelled from the spec: the process-wide `ContractionSolutionRegistry`
(`contraction_solution_registry.hpp`, not among the sources), given by the solutions
registered at start-up. -/
structure ContractionSolutionRegistry where
  mSolutions : List ContractionSolution

/-- Modelled from the spec: `allSolutions()` is the query of every known solution. -/
def ContractionSolutionRegistry.allSolutions (registry : ContractionSolutionRegistry) : Query :=
  Query.ofCandidates registry.mSolutions

/-- The query `hiptensorInitContractionFind` builds: every known solution, restricted
to the two float signatures when the device does not support F64. -/
def findQuery (registry : ContractionSolutionRegistry) (currentDevice : HipDevice) : Query :=
  let query := registry.allSolutions
  if !currentDevice.supportsF64 then
    (query.query HIP_R_32F HIP_R_32F HIP_R_32F HIP_R_32F).or
      (query.query HIP_R_32F HIP_R_32F NONE_TYPE HIP_R_32F)
  else
    query

/-- Function `hiptensorInitContractionFind`. The output parameter `find` is `none`
for a null pointer; the second component is the pointee after the call. -/
def hiptensorInitContractionFind (registry : ContractionSolutionRegistry)
    (currentDevice : HipDevice) (handle : Option hiptensorHandle_t)
    (find : Option hiptensorContractionFind_t) (algo : Int) :
    hiptensorStatus_t × Option hiptensorContractionFind_t :=
  match handle, find with
  | some realHandle, some f =>
    if currentDevice.getDeviceId ≠ realHandle.deviceId then
      (HIPTENSOR_STATUS_ARCH_MISMATCH, some f)
    else if algo = HIPTENSOR_ALGO_DEFAULT ∨ algo = HIPTENSOR_ALGO_DEFAULT_PATIENT
        ∨ algo = HIPTENSOR_ALGO_ACTOR_CRITIC then
      -- Update the stored selection algorithm
      let f1 : hiptensorContractionFind_t := { f with mSelectionAlgorithm := algo }
      let query := findQuery registry currentDevice
      if query.solutionCount = 0 then
        (HIPTENSOR_STATUS_INTERNAL_ERROR, some f1)
      else
        (HIPTENSOR_STATUS_SUCCESS, some { f1 with mCandidates := query.solutions })
    else
      (HIPTENSOR_STATUS_INVALID_VALUE, some f)
  | _, _ => (HIPTENSOR_STATUS_NOT_INITIALIZED, find)

/-! ## `hiptensorInitContractionPlan` -/

/-- The shape arguments and workspace size handed to a selection model. -/
structure SelectionArgs where
  ADataType : Int
  a_ms_ks_lengths : List Int
  a_ms_ks_strides : List Int
  BDataType : Int
  b_ns_ks_lengths : List Int
  b_ns_ks_strides : List Int
  DDataType : Int
  d_ms_ns_lengths : List Int
  d_ms_ns_strides : List Int
  EDataType : Int
  e_ms_ns_lengths : List Int
  e_ms_ns_strides : List Int
  workspaceSize : Nat
  deriving DecidableEq, Repr

/-- The selection models `hiptensor::bruteForceModel` and
`hiptensor::actorCriticModel` (`contraction_selection.hpp`, not among the sources),
taken as parameters: each returns its status and the value it leaves in `winner`
(`none` is the null pointer). -/
structure SelectionModels where
  bruteForceModel : List ContractionSolution → SelectionArgs →
    hiptensorStatus_t × Option ContractionSolution
  actorCriticModel : List ContractionSolution → SelectionArgs →
    hiptensorStatus_t × Option ContractionSolution

/-- The arguments `hiptensorInitContractionPlan` passes to the selection model. -/
def selectionArgs (desc : hiptensorContractionDescriptor_t) (workspaceSize : Nat) :
    SelectionArgs :=
  { ADataType := (desc.tensorDesc 0).mType
    a_ms_ks_lengths := toCKVec (desc.tensorDesc 0).mLengths
    a_ms_ks_strides := toCKVec (desc.tensorDesc 0).mStrides
    BDataType := (desc.tensorDesc 1).mType
    b_ns_ks_lengths := toCKVec (desc.tensorDesc 1).mLengths
    b_ns_ks_strides := toCKVec (desc.tensorDesc 1).mStrides
    DDataType := (desc.tensorDesc 2).mType
    d_ms_ns_lengths := toCKVec (desc.tensorDesc 2).mLengths
    d_ms_ns_strides := toCKVec (desc.tensorDesc 2).mStrides
    EDataType := (desc.tensorDesc 3).mType
    e_ms_ns_lengths := toCKVec (desc.tensorDesc 3).mLengths
    e_ms_ns_strides := toCKVec (desc.tensorDesc 3).mStrides
    workspaceSize := workspaceSize }

/-- The candidates handed to the selection model: the solutions of
`Query{candidates}.query(desc->mContractionOpId)`. -/
def planCandidates (desc : hiptensorContractionDescriptor_t)
    (find : hiptensorContractionFind_t) : List ContractionSolution :=
  ((Query.ofCandidates find.mCandidates).queryOp desc.mContractionOpId).solutions

/-- Function `hiptensorInitContractionPlan`. The output parameter `plan` is `none`
for a null pointer; the second component is the pointee after the call. -/
def hiptensorInitContractionPlan (models : SelectionModels) (currentDevice : HipDevice)
    (handle : Option hiptensorHandle_t) (plan : Option hiptensorContractionPlan_t)
    (desc : Option hiptensorContractionDescriptor_t)
    (find : Option hiptensorContractionFind_t) (workspaceSize : Nat) :
    hiptensorStatus_t × Option hiptensorContractionPlan_t :=
  match handle, plan, desc, find with
  | some realHandle, some p, some d, some f =>
    if currentDevice.getDeviceId ≠ realHandle.deviceId then
      (HIPTENSOR_STATUS_ARCH_MISMATCH, some p)
    else
      let solutionMap := planCandidates d f
      let candidates := solutionMap
      -- Launch selection algorithm
      let r : hiptensorStatus_t × Option ContractionSolution :=
        if f.mSelectionAlgorithm = HIPTENSOR_ALGO_DEFAULT
            ∨ f.mSelectionAlgorithm = HIPTENSOR_ALGO_DEFAULT_PATIENT then
          models.bruteForceModel candidates (selectionArgs d workspaceSize)
        else if f.mSelectionAlgorithm = HIPTENSOR_ALGO_ACTOR_CRITIC then
          models.actorCriticModel solutionMap (selectionArgs d workspaceSize)
        else
          (HIPTENSOR_STATUS_INTERNAL_ERROR, none)
      if r.1 ≠ HIPTENSOR_STATUS_SUCCESS then
        (r.1, some p)
      else
        -- Assign the contraction descriptor
        (HIPTENSOR_STATUS_SUCCESS, some { mContractionDesc := d, mSolution := r.2 })
  | _, _, _, _ => (HIPTENSOR_STATUS_NOT_INITIALIZED, plan)

/-- A solution whose support and workspace size do not depend on the call: a float
bilinear solution keyed by its workspace size. -/
def constSolution (supported : Bool) (size : Nat) : ContractionSolution :=
  { initArgs := fun _ => supported
    workspaceSize := fun _ => size
    uid := size
    typeA := HIP_R_32F
    typeB := HIP_R_32F
    typeC := HIP_R_32F
    typeD := HIP_R_32F
    opId := ContractionOpId_t.BILINEAR }

/-- A rank-4 float descriptor with the extents of the repository's samples. -/
def sampleTensorDesc : hiptensorTensorDescriptor_t :=
  ⟨0, [5, 6, 3, 4], [72, 12, 4, 1]⟩

/-- A bilinear contraction descriptor over `sampleTensorDesc`. -/
def sampleDesc : hiptensorContractionDescriptor_t :=
  ⟨1, hiptensorComputeType_t.HIPTENSOR_COMPUTE_32F,
    [sampleTensorDesc, sampleTensorDesc, sampleTensorDesc, sampleTensorDesc], [4, 4, 4, 4]⟩

/-- Locals of a sample workspace query. -/
def sampleLocals : ProbeLocals :=
  ⟨4096, 4100, none, none, none⟩

/-! ## Complex decomposition (`device_contraction_*_complex.hpp`) -/

/-- The eight device buffers a complex `Argument` owns (its `DeviceArray` members). -/
inductive PlaneId
  | A_real
  | A_imag
  | B_real
  | B_imag
  | D_real
  | D_imag
  | E_real
  | E_imag
  deriving DecidableEq, Repr

/-- A `DeviceArray<DataT>` (`std::unique_ptr<DataT, DeviceDeleter>`): `none` is the
null pointer, `some xs` an allocation holding the scalars `xs`. -/
abbrev DeviceArray (R : Type) := Option (List R)

/-- An interleaved (array-of-structures) complex buffer passed through a `void*`:
`none` is `nullptr`, each element is the pair `(x, y)` of real and imaginary part. -/
abbrev ComplexGrid (R : Type) := Option (List (R × R))

/-- The members `mA_real` .. `mE_imag` of a complex `Argument`. -/
structure Planes (R : Type) where
  mA_real : DeviceArray R
  mA_imag : DeviceArray R
  mB_real : DeviceArray R
  mB_imag : DeviceArray R
  mD_real : DeviceArray R
  mD_imag : DeviceArray R
  mE_real : DeviceArray R
  mE_imag : DeviceArray R
  deriving DecidableEq, Repr

/-- The buffer a plane name stands for. -/
def Planes.get {R : Type} (m : Planes R) : PlaneId → DeviceArray R
  | PlaneId.A_real => m.mA_real
  | PlaneId.A_imag => m.mA_imag
  | PlaneId.B_real => m.mB_real
  | PlaneId.B_imag => m.mB_imag
  | PlaneId.D_real => m.mD_real
  | PlaneId.D_imag => m.mD_imag
  | PlaneId.E_real => m.mE_real
  | PlaneId.E_imag => m.mE_imag

/-- Overwrite the contents of one plane. -/
def Planes.set {R : Type} (m : Planes R) (id : PlaneId) (v : DeviceArray R) : Planes R :=
  match id with
  | PlaneId.A_real => { m with mA_real := v }
  | PlaneId.A_imag => { m with mA_imag := v }
  | PlaneId.B_real => { m with mB_real := v }
  | PlaneId.B_imag => { m with mB_imag := v }
  | PlaneId.D_real => { m with mD_real := v }
  | PlaneId.D_imag => { m with mD_imag := v }
  | PlaneId.E_real => { m with mE_real := v }
  | PlaneId.E_imag => { m with mE_imag := v }

/-- The raw pointer `member.get()`: null when the member holds no allocation,
otherwise the address of the member's allocation, identified by the member. -/
def Planes.ptr {R : Type} (m : Planes R) (id : PlaneId) : Option PlaneId :=
  if (m.get id).isSome then some id else none

/-- All eight members after `reset(nullptr)`. -/
def Planes.null {R : Type} : Planes R :=
  ⟨none, none, none, none, none, none, none, none⟩

/-- The length and stride vectors of one contraction. -/
structure DecompShape where
  a_ms_ks_lengths : List Int
  a_ms_ks_strides : List Int
  b_ns_ks_lengths : List Int
  b_ns_ks_strides : List Int
  ds_ms_ns_lengths : List (List Int)
  ds_ms_ns_strides : List (List Int)
  e_ms_ns_lengths : List Int
  e_ms_ns_strides : List Int
  deriving DecidableEq, Repr

/-- The element-wise operation `Bilinear{alpha_, beta_}`: `y = alpha_ * x0 + beta_ * x1`. -/
structure Bilinear (R : Type) where
  alpha_ : R
  beta_ : R
  deriving DecidableEq, Repr

/-- The element-wise operation `Scale{scale_}`: `y = scale_ * x`. -/
structure Scale (R : Type) where
  scale_ : R
  deriving DecidableEq, Repr

/-- The CDE operation carried by a real sub-argument. -/
inductive CDEElementwiseOperation (R : Type)
  | bilinear (op : Bilinear R)
  | scale (op : Scale R)
  deriving DecidableEq, Repr

/-- The argument object of the real operation (`DecompOp::Argument`): operand
pointers, shape and CDE operation. -/
structure DecompArg (R : Type) where
  p_a : Option PlaneId
  p_b : Option PlaneId
  p_ds : List (Option PlaneId)
  p_e : Option PlaneId
  shape : DecompShape
  cde_element_op : CDEElementwiseOperation R
  deriving DecidableEq, Repr

/-- The real device operation of the kernel catalog (`DecompOp`), an external
collaborator taken as a parameter: `contract` is `C = a_op(A) * b_op(B)` for a
shape, `IsSupportedArgument` its support check and `elapsed` the time its
`Invoker::Run` returns. -/
structure DecompOp (R : Type) where
  contract : DecompShape → List R → List R → List R
  IsSupportedArgument : DecompArg R → Bool
  elapsed : DecompArg R → Nat

/-- One run of the real operation on the device buffers:
`E = cde_op(a_op(A) * b_op(B), D)`, written through `p_e`. Reading or writing
through a null pointer is a fault (`none`). -/
def DecompOp.Run {R : Type} [CommRing R] (op : DecompOp R) (arg : DecompArg R)
    (mem : Planes R) : Option (Planes R × Nat) :=
  match arg.p_a.bind mem.get, arg.p_b.bind mem.get, arg.p_e with
  | some a, some b, some e =>
    if (mem.get e).isNone then none
    else
      match arg.cde_element_op with
      | CDEElementwiseOperation.scale s =>
        some (mem.set e (some ((op.contract arg.shape a b).map (fun x => s.scale_ * x))),
          op.elapsed arg)
      | CDEElementwiseOperation.bilinear bl =>
        match (arg.p_ds.headD none).bind mem.get with
        | some d =>
          some (mem.set e (some (List.zipWith (fun x0 x1 => bl.alpha_ * x0 + bl.beta_ * x1)
            (op.contract arg.shape a b) d)), op.elapsed arg)
        | none => none
  | _, _, _ => none

/-- Modelled from the spec: `elementSpaceFromLengthsAndStrides`
(`contraction_pack_util.hpp`) is not among the sources. The addressable span of
a tensor: one more than the offset of its last element. -/
def elementSpaceFromLengthsAndStrides (lengths strides : List Int) : Int :=
  1 + ((List.zipWith (fun l s => (l - 1) * s) lengths strides).sum)

/-- Modelled from the spec: `allocDevice` (`contraction_pack_util.hpp`) is not
among the sources. A fresh buffer of `elementCount` scalars; the spec has the
scratch buffers zero-initialised. -/
def allocDevice {R : Type} [CommRing R] (elementCount : Nat) : DeviceArray R :=
  some (List.replicate elementCount 0)

/-- Modelled from the spec: the kernel `hiptensor::unpack`
(`contraction_pack_util.hpp`) is not among the sources. The element-wise unpack
pass: `out_r[i] = in[i].x` and `out_i[i] = in[i].y` for `i < elementCount`. -/
def unpack {R : Type} [CommRing R] (input_grid : List (R × R)) (out_r out_i : List R)
    (elementCount : Nat) : List R × List R :=
  ((List.range elementCount).zipWith (fun i o => ((input_grid.get? i).map Prod.fst).getD o) out_r,
    (List.range elementCount).zipWith (fun i o => ((input_grid.get? i).map Prod.snd).getD o) out_i)

/-- The lambda `decompGrid`: when the input pointer is non-null, `out_r` and
`out_i` are replaced by fresh allocations of `elementCount` scalars and the
input is unpacked into them; the result is the new `(out_r, out_i)`. -/
def decompGrid {R : Type} [CommRing R] (out_r out_i : DeviceArray R)
    (input_grid : ComplexGrid R) (elementCount : Nat) : DeviceArray R × DeviceArray R :=
  match input_grid with
  | some grid =>
    let r := unpack grid ((allocDevice elementCount).getD []) ((allocDevice elementCount).getD [])
      elementCount
    (some r.1, some r.2)
  | none => (out_r, out_i)

/-- The `uint32_t elementCount` parameter of `decompGrid` for an `index_t` value. -/
def toElementCount (elements : Int) : Nat :=
  (elements % 2 ^ 32).toNat

/-! ### Bilinear form (`device_contraction_bilinear_complex.hpp`) -/

namespace BilinearComplex

/-- The complex bilinear `Argument`: the sub-arguments `mArgs` and the buffers. -/
structure Argument (R : Type) extends Planes R where
  mArgs : List (DecompArg R)
  deriving DecidableEq, Repr

/-- The lambda `allocArgs`: a real argument bound to the raw pointers of the
given members, with the captured lengths and strides. -/
def allocArgs {R : Type} (shape : DecompShape) (m : Planes R)
    (out_e in_a in_b in_d : PlaneId) (cde_element_op : Bilinear R) : DecompArg R :=
  { p_a := m.ptr in_a
    p_b := m.ptr in_b
    p_ds := [m.ptr in_d]
    p_e := m.ptr out_e
    shape := shape
    cde_element_op := CDEElementwiseOperation.bilinear cde_element_op }

/-- The constructor `Argument(p_a_grid, p_b_grid, p_ds_grid, p_e_grid, lengths and
strides, a_element_op, b_element_op, cde_element_op)`; `p_d_grid` is `p_ds_grid[0]`. -/
def Argument.ctor {R : Type} [CommRing R] (p_a_grid p_b_grid p_d_grid p_e_grid : ComplexGrid R)
    (shape : DecompShape) (cde_element_op : Bilinear R) : Argument R :=
  let elementsA := elementSpaceFromLengthsAndStrides shape.a_ms_ks_lengths shape.a_ms_ks_strides
  let elementsB := elementSpaceFromLengthsAndStrides shape.b_ns_ks_lengths shape.b_ns_ks_strides
  let elementsD := elementSpaceFromLengthsAndStrides (shape.ds_ms_ns_lengths.headD [])
    (shape.ds_ms_ns_strides.headD [])
  let elementsE := elementSpaceFromLengthsAndStrides shape.e_ms_ns_lengths shape.e_ms_ns_strides
  let m0 : Planes R := Planes.null
  -- decompGrid(mA_real, mA_imag, p_a_grid, elementsA)
  let dA := decompGrid m0.mA_real m0.mA_imag p_a_grid (toElementCount elementsA)
  let m1 : Planes R := { m0 with mA_real := dA.1, mA_imag := dA.2 }
  -- decompGrid(mA_real, mB_imag, p_b_grid, elementsB)
  let dB := decompGrid m1.mA_real m1.mB_imag p_b_grid (toElementCount elementsB)
  let m2 : Planes R := { m1 with mA_real := dB.1, mB_imag := dB.2 }
  -- decompGrid(mD_real, mD_imag, p_ds_grid[0], elementsD)
  let dD := decompGrid m2.mD_real m2.mD_imag p_d_grid (toElementCount elementsD)
  let m3 : Planes R := { m2 with mD_real := dD.1, mD_imag := dD.2 }
  -- decompGrid(mE_real, mE_imag, p_e_grid, elementsE)
  let dE := decompGrid m3.mE_real m3.mE_imag p_e_grid (toElementCount elementsE)
  let m4 : Planes R := { m3 with mE_real := dE.1, mE_imag := dE.2 }
  { toPlanes := m4
    mArgs :=
      [ allocArgs shape m4 PlaneId.E_real PlaneId.A_real PlaneId.B_real PlaneId.D_real
          cde_element_op,
        allocArgs shape m4 PlaneId.E_real PlaneId.A_imag PlaneId.B_imag PlaneId.E_real
          ⟨cde_element_op.alpha_ * -1, cde_element_op.beta_⟩,
        allocArgs shape m4 PlaneId.E_imag PlaneId.A_real PlaneId.B_imag PlaneId.D_imag
          cde_element_op,
        allocArgs shape m4 PlaneId.E_imag PlaneId.A_imag PlaneId.B_real PlaneId.E_imag
          cde_element_op ] }

/-- The sub-argument `mArgs[i]`; a missing entry is a null `unique_ptr`. -/
def Argument.arg {R : Type} (arg : Argument R) (i : Nat) : Option (DecompArg R) :=
  arg.mArgs.get? i

/-- The method `Invoker::Run(const Argument&, const StreamConfig&)`: the four
real runs in order; the result is the device buffers afterwards and the returned
time `r3`. -/
def Invoker.Run {R : Type} [CommRing R] (mInvoker : DecompOp R) (arg : Argument R) :
    Option (Planes R × Nat) :=
  (arg.arg 0).bind fun a0 =>
  (mInvoker.Run a0 arg.toPlanes).bind fun s0 =>
  (arg.arg 1).bind fun a1 =>
  (mInvoker.Run a1 s0.1).bind fun s1 =>
  (arg.arg 2).bind fun a2 =>
  (mInvoker.Run a2 s1.1).bind fun s2 =>
  (arg.arg 3).bind fun a3 =>
  (mInvoker.Run a3 s2.1).bind fun s3 =>
  some (s3.1, s3.2)

/-- The static `IsSupportedArgument(const Argument&)`. -/
def IsSupportedArgument {R : Type} (op : DecompOp R) (arg : Argument R) : Bool :=
  ((arg.arg 0).map op.IsSupportedArgument).getD false
    && ((arg.arg 1).map op.IsSupportedArgument).getD false
    && ((arg.arg 2).map op.IsSupportedArgument).getD false
    && ((arg.arg 3).map op.IsSupportedArgument).getD false

end BilinearComplex

/-! ### Scale form (`device_contraction_scale_complex.hpp`) -/

namespace ScaleComplex

/-- The complex scale `Argument`: `mScaleArgs`, `mBilinearArgs` and the buffers. -/
structure Argument (R : Type) extends Planes R where
  mScaleArgs : Option (DecompArg R)
  mBilinearArgs : List (DecompArg R)
  deriving DecidableEq, Repr

/-- The lambda `allocScaleArgs`: a real scale argument without D operand. -/
def allocScaleArgs {R : Type} (shape : DecompShape) (m : Planes R)
    (out_e in_a in_b : PlaneId) (cde_element_op : Scale R) : DecompArg R :=
  { p_a := m.ptr in_a
    p_b := m.ptr in_b
    p_ds := []
    p_e := m.ptr out_e
    shape := shape
    cde_element_op := CDEElementwiseOperation.scale cde_element_op }

/-- The lambda `allocBilinearArgs`: a real bilinear argument whose D operand has
the lengths and strides of E. -/
def allocBilinearArgs {R : Type} (shape : DecompShape) (m : Planes R)
    (out_e in_a in_b in_d : PlaneId) (cde_element_op : Bilinear R) : DecompArg R :=
  { p_a := m.ptr in_a
    p_b := m.ptr in_b
    p_ds := [m.ptr in_d]
    p_e := m.ptr out_e
    shape := { shape with ds_ms_ns_lengths := [shape.e_ms_ns_lengths]
                          ds_ms_ns_strides := [shape.e_ms_ns_strides] }
    cde_element_op := CDEElementwiseOperation.bilinear cde_element_op }

/-- The constructor `Argument(p_a_grid, p_b_grid, p_ds_grid, p_e_grid, lengths and
strides, a_element_op, b_element_op, cde_element_op)` of the scale form
(`p_ds_grid` is empty). -/
def Argument.ctor {R : Type} [CommRing R] (p_a_grid p_b_grid p_e_grid : ComplexGrid R)
    (shape : DecompShape) (cde_element_op : Scale R) : Argument R :=
  let elementsA := elementSpaceFromLengthsAndStrides shape.a_ms_ks_lengths shape.a_ms_ks_strides
  let elementsB := elementSpaceFromLengthsAndStrides shape.b_ns_ks_lengths shape.b_ns_ks_strides
  let elementsE := elementSpaceFromLengthsAndStrides shape.e_ms_ns_lengths shape.e_ms_ns_strides
  let m0 : Planes R := Planes.null
  -- decompGrid(mA_real, mA_imag, p_a_grid, elementsA)
  let dA := decompGrid m0.mA_real m0.mA_imag p_a_grid (toElementCount elementsA)
  let m1 : Planes R := { m0 with mA_real := dA.1, mA_imag := dA.2 }
  -- decompGrid(mA_real, mB_imag, p_b_grid, elementsB)
  let dB := decompGrid m1.mA_real m1.mB_imag p_b_grid (toElementCount elementsB)
  let m2 : Planes R := { m1 with mA_real := dB.1, mB_imag := dB.2 }
  -- decompGrid(mE_real, mE_imag, p_e_grid, elementsE)
  let dE := decompGrid m2.mE_real m2.mE_imag p_e_grid (toElementCount elementsE)
  let m3 : Planes R := { m2 with mE_real := dE.1, mE_imag := dE.2 }
  -- mD_real = allocDevice(elementsE); mD_imag = allocDevice(elementsE)
  let m4 : Planes R := { m3 with mD_real := allocDevice elementsE.toNat
                                 mD_imag := allocDevice elementsE.toNat }
  { toPlanes := m4
    mScaleArgs :=
      some (allocScaleArgs shape m4 PlaneId.E_real PlaneId.A_real PlaneId.B_real cde_element_op)
    mBilinearArgs :=
      [ allocBilinearArgs shape m4 PlaneId.E_real PlaneId.A_imag PlaneId.B_imag PlaneId.E_real
          ⟨cde_element_op.scale_ * -1, 1⟩,
        allocBilinearArgs shape m4 PlaneId.E_imag PlaneId.A_real PlaneId.B_imag PlaneId.D_imag
          ⟨cde_element_op.scale_, 1⟩,
        allocBilinearArgs shape m4 PlaneId.E_imag PlaneId.A_imag PlaneId.B_real PlaneId.E_imag
          ⟨cde_element_op.scale_, 1⟩ ] }

/-- The method `Invoker::Run(const Argument&, const StreamConfig&)`: the scale
run and the three bilinear runs in order; the result is the device buffers
afterwards and the returned time `r3`. -/
def Invoker.Run {R : Type} [CommRing R] (mInvoker : DecompOp R) (arg : Argument R) :
    Option (Planes R × Nat) :=
  arg.mScaleArgs.bind fun a0 =>
  (mInvoker.Run a0 arg.toPlanes).bind fun s0 =>
  (arg.mBilinearArgs.get? 0).bind fun a1 =>
  (mInvoker.Run a1 s0.1).bind fun s1 =>
  (arg.mBilinearArgs.get? 1).bind fun a2 =>
  (mInvoker.Run a2 s1.1).bind fun s2 =>
  (arg.mBilinearArgs.get? 2).bind fun a3 =>
  (mInvoker.Run a3 s2.1).bind fun s3 =>
  some (s3.1, s3.2)

/-- The static `IsSupportedArgument(const Argument&)`. -/
def IsSupportedArgument {R : Type} (op : DecompOp R) (arg : Argument R) : Bool :=
  (arg.mScaleArgs.map op.IsSupportedArgument).getD false
    && ((arg.mBilinearArgs.get? 0).map op.IsSupportedArgument).getD false
    && ((arg.mBilinearArgs.get? 1).map op.IsSupportedArgument).getD false
    && ((arg.mBilinearArgs.get? 2).map op.IsSupportedArgument).getD false

end ScaleComplex

/-! ### Sample inputs for evaluation -/

/-- A real kernel for shapes with `M = N = 1`: the single output element is the
dot product of the two operands; every argument is supported. -/
def dotOp : DecompOp Int :=
  ⟨fun _ a b => [(List.zipWith (fun x y => x * y) a b).sum], fun _ => true, fun _ => 1⟩

/-- Shape with A and B of lengths `[1, 1, 1, 2]` and D and E of lengths `[1, 1, 1, 1]`, packed. -/
def dotShape : DecompShape :=
  ⟨[1, 1, 1, 2], [2, 2, 2, 1], [1, 1, 1, 2], [2, 2, 2, 1], [[1, 1, 1, 1]], [[1, 1, 1, 1]],
    [1, 1, 1, 1], [1, 1, 1, 1]⟩

/-- The shape `dotShape` as the scale form receives it (no D operand). -/
def dotShapeScale : DecompShape :=
  { dotShape with ds_ms_ns_lengths := [], ds_ms_ns_strides := [] }

/-- Complex operand A of the sample contraction: `1 + 2i, 3 + 4i`. -/
def sampleA : ComplexGrid Int := some [(1, 2), (3, 4)]

/-- Complex operand B of the sample contraction: `5 + 6i, 7 + 8i`. -/
def sampleB : ComplexGrid Int := some [(5, 6), (7, 8)]

/-- Complex bias operand of the sample contraction: `9 + 10i`. -/
def sampleC : ComplexGrid Int := some [(9, 10)]

/-- The caller's output buffer before the call: `5 + 0i`. -/
def sampleE : ComplexGrid Int := some [(5, 0)]

/-- A real kernel like `dotOp` that supports only arguments whose B pointer is set. -/
def pickyOp : DecompOp Int :=
  { dotOp with IsSupportedArgument := fun arg => arg.p_b.isSome }

/-- The four real sub-arguments of a complex scale argument, in running order. -/
def ScaleComplex.Argument.subArgs {R : Type} (arg : ScaleComplex.Argument R) :
    List (DecompArg R) :=
  arg.mScaleArgs.toList ++ arg.mBilinearArgs

/-- A solution wrapping the complex bilinear operation over `pickyOp` on the sample
operands: its `initArgs` reports the support check of the complex argument. -/
def sampleComplexSolution : ContractionSolution :=
  { constSolution true 0 with
    initArgs := fun _ => BilinearComplex.IsSupportedArgument pickyOp
      (BilinearComplex.Argument.ctor sampleA sampleB sampleC sampleE dotShape ⟨2, 3⟩) }

/-- The solution's supported signature is `(typeA, typeB, typeC, typeD)`. -/
def ContractionSolution.hasSignature (s : ContractionSolution) (typeA typeB typeC typeD : Int) :
    Prop :=
  s.typeA = typeA ∧ s.typeB = typeB ∧ s.typeC = typeC ∧ s.typeD = typeD

/-- A catalog solution with the given key, element type, C type and operation,
supporting every call without workspace. -/
def catalogSolution (uid : Nat) (type typeC : Int) (opId : Int) : ContractionSolution :=
  { initArgs := fun _ => true
    workspaceSize := fun _ => 0
    uid := uid
    typeA := type
    typeB := type
    typeC := typeC
    typeD := type
    opId := opId }

/-- A registry of three solutions, registered in this order: a double bilinear one
(key 3, `HIP_R_64F = 1`), a float bilinear one (key 1) and a float scale one (key 2). -/
def sampleRegistry : ContractionSolutionRegistry :=
  ⟨[catalogSolution 3 1 1 ContractionOpId_t.BILINEAR,
    catalogSolution 1 HIP_R_32F HIP_R_32F ContractionOpId_t.BILINEAR,
    catalogSolution 2 HIP_R_32F NONE_TYPE ContractionOpId_t.SCALE]⟩

/-- Operand modes of the sample contraction. -/
def sampleMode : Option (List Int) := some [109, 110, 117, 118]

/-- The selection `hiptensorInitContractionPlan` launches for a descriptor and a find:
the status and the winner left by the model the algorithm tag routes to
(`INTERNAL_ERROR` and a null winner when the tag matches no model). -/
def runSelection (models : SelectionModels) (desc : hiptensorContractionDescriptor_t)
    (find : hiptensorContractionFind_t) (workspaceSize : Nat) :
    hiptensorStatus_t × Option ContractionSolution :=
  if find.mSelectionAlgorithm = HIPTENSOR_ALGO_DEFAULT
      ∨ find.mSelectionAlgorithm = HIPTENSOR_ALGO_DEFAULT_PATIENT then
    models.bruteForceModel (planCandidates desc find) (selectionArgs desc workspaceSize)
  else if find.mSelectionAlgorithm = HIPTENSOR_ALGO_ACTOR_CRITIC then
    models.actorCriticModel (planCandidates desc find) (selectionArgs desc workspaceSize)
  else
    (HIPTENSOR_STATUS_INTERNAL_ERROR, none)

/-! ## The argument tables over given buffers -/

/-- The complex bilinear argument over the buffers `m`: the four sub-arguments as
`BilinearComplex.Argument.ctor` binds them (`mArgs[0..3] = allocArgs(...)`). -/
def BilinearComplex.Argument.ofPlanes {R : Type} [CommRing R] (shape : DecompShape)
    (m : Planes R) (cde_element_op : Bilinear R) : BilinearComplex.Argument R :=
  { toPlanes := m
    mArgs :=
      [ BilinearComplex.allocArgs shape m PlaneId.E_real PlaneId.A_real PlaneId.B_real
          PlaneId.D_real cde_element_op,
        BilinearComplex.allocArgs shape m PlaneId.E_real PlaneId.A_imag PlaneId.B_imag
          PlaneId.E_real ⟨cde_element_op.alpha_ * -1, cde_element_op.beta_⟩,
        BilinearComplex.allocArgs shape m PlaneId.E_imag PlaneId.A_real PlaneId.B_imag
          PlaneId.D_imag cde_element_op,
        BilinearComplex.allocArgs shape m PlaneId.E_imag PlaneId.A_imag PlaneId.B_real
          PlaneId.E_imag cde_element_op ] }

/-- The complex scale argument over the buffers `m`: the scale sub-argument and the
three bilinear ones as `ScaleComplex.Argument.ctor` binds them. -/
def ScaleComplex.Argument.ofPlanes {R : Type} [CommRing R] (shape : DecompShape)
    (m : Planes R) (cde_element_op : Scale R) : ScaleComplex.Argument R :=
  { toPlanes := m
    mScaleArgs :=
      some (ScaleComplex.allocScaleArgs shape m PlaneId.E_real PlaneId.A_real PlaneId.B_real
        cde_element_op)
    mBilinearArgs :=
      [ ScaleComplex.allocBilinearArgs shape m PlaneId.E_real PlaneId.A_imag PlaneId.B_imag
          PlaneId.E_real ⟨cde_element_op.scale_ * -1, 1⟩,
        ScaleComplex.allocBilinearArgs shape m PlaneId.E_imag PlaneId.A_real PlaneId.B_imag
          PlaneId.D_imag ⟨cde_element_op.scale_, 1⟩,
        ScaleComplex.allocBilinearArgs shape m PlaneId.E_imag PlaneId.A_imag PlaneId.B_real
          PlaneId.E_imag ⟨cde_element_op.scale_, 1⟩ ] }

/-- The shape a bilinear sub-argument of the scale form carries: D has the lengths
and strides of E. -/
def ScaleComplex.bilinearShape (shape : DecompShape) : DecompShape :=
  { shape with ds_ms_ns_lengths := [shape.e_ms_ns_lengths]
               ds_ms_ns_strides := [shape.e_ms_ns_strides] }

/-! ## Tensor descriptor of `ht_types.hpp` -/

namespace HtTypes

/-- Data types, `hiptensorDataType_t`. -/
inductive hiptensorDataType_t
  | HIPTENSOR_R_16F
  | HIPTENSOR_R_16BF
  | HIPTENSOR_R_32F
  | HIPTENSOR_R_64F
  deriving DecidableEq, Repr

/-- The class `hiptensorTensorDescriptor_t` of `ht_types.hpp`: lengths, strides and
data type. -/
structure hiptensorTensorDescriptor_t where
  mLens : List Nat
  mStrides : List Nat
  ht_type : hiptensorDataType_t
  deriving DecidableEq, Repr

/-- Conversion of one element of the input vector to `std::size_t`. -/
def toSizeT (x : Int) : Nat :=
  (x % 2 ^ 64).toNat

/-- Modelled from the spec: `hiptensorCalculateStrides` is declared in `ht_types.hpp`
and defined outside the sources. The strides are the row-major derivation from the
lengths: the stride of a dimension is the product of the lengths after it, in
`std::size_t` arithmetic. -/
def hiptensorCalculateStrides : List Nat → List Nat
  | [] => []
  | _ :: rest => (rest.prod % 2 ^ 64) :: hiptensorCalculateStrides rest

/-- The constructor `hiptensorTensorDescriptor_t(const std::vector<X>& lens)`. The
member `ht_type` is not initialised; `ht_type` is its indeterminate value. -/
def hiptensorTensorDescriptor_t.ofLens (lens : List Int) (ht_type : hiptensorDataType_t) :
    hiptensorTensorDescriptor_t :=
  { mLens := lens.map toSizeT
    mStrides := hiptensorCalculateStrides (lens.map toSizeT)
    ht_type := ht_type }

/-- The constructor
`hiptensorTensorDescriptor_t(const std::vector<X>& lens, const std::vector<Y>& strides)`.
The member `ht_type` is not initialised; `ht_type` is its indeterminate value. -/
def hiptensorTensorDescriptor_t.ofLensStrides (lens strides : List Int)
    (ht_type : hiptensorDataType_t) : hiptensorTensorDescriptor_t :=
  { mLens := lens.map toSizeT
    mStrides := strides.map toSizeT
    ht_type := ht_type }

end HtTypes

/-! ## Further sample inputs -/

/-- Selection models that both report success with the first candidate they are
handed (a null winner for an empty list). -/
def firstCandidateModels : SelectionModels :=
  { bruteForceModel := fun candidates _ => (HIPTENSOR_STATUS_SUCCESS, candidates.head?)
    actorCriticModel := fun candidates _ => (HIPTENSOR_STATUS_SUCCESS, candidates.head?) }

/-- Buffers holding `A = (1+2i, 3+4i)`, `B = (5+6i, 7+8i)` split into their planes, a
D pair `9`, `0` and an E pair `5`, `0`. -/
def splitPlanes : Planes Int :=
  ⟨some [1, 3], some [2, 4], some [5, 7], some [6, 8], some [9], some [0], some [5], some [0]⟩

/-- A real kernel like `dotOp` whose runs report the times 10, 20, 30 and 40 for the
operand pairs (A_real, B_real), (A_imag, B_imag), (A_real, B_imag), (A_imag, B_real). -/
def timedOp : DecompOp Int :=
  { dotOp with
    elapsed := fun arg =>
      if arg.p_b = some PlaneId.B_real then
        (if arg.p_a = some PlaneId.A_real then 10 else 40)
      else
        (if arg.p_a = some PlaneId.A_imag then 20 else 30) }

/-! ## Device memory around a complex operation -/

/-- The caller's interleaved buffers `p_a_grid`, `p_b_grid`, `p_ds_grid[0]` and
`p_e_grid`. -/
inductive GridId
  | a_grid
  | b_grid
  | d_grid
  | e_grid
  deriving DecidableEq, Repr

/-- A device address as the real operation receives it (`const void*`, `void*`):
the start of one of the caller's interleaved buffers, or of the allocation a
member of the Argument holds. -/
inductive DevicePtr
  | grid (g : GridId)
  | member (id : PlaneId)
  deriving DecidableEq, Repr

/-- Device memory during a complex operation: the caller's four interleaved
buffers and the buffers the Argument owns. -/
structure DeviceMemory (R : Type) where
  p_a_grid : ComplexGrid R
  p_b_grid : ComplexGrid R
  p_d_grid : ComplexGrid R
  p_e_grid : ComplexGrid R
  members : Planes R
  deriving DecidableEq, Repr

/-- The scalars of an interleaved buffer in memory order `x0, y0, x1, y1, ...`. -/
def interleave {R : Type} : List (R × R) → List R
  | [] => []
  | p :: rest => p.1 :: p.2 :: interleave rest

/-- Scalars in memory order read as interleaved pairs. -/
def deinterleave {R : Type} : List R → List (R × R)
  | x :: y :: rest => (x, y) :: deinterleave rest
  | _ => []

/-- The scalars behind a device address; `none` when nothing is allocated there. -/
def DeviceMemory.load {R : Type} (mem : DeviceMemory R) : DevicePtr → Option (List R)
  | DevicePtr.grid GridId.a_grid => mem.p_a_grid.map interleave
  | DevicePtr.grid GridId.b_grid => mem.p_b_grid.map interleave
  | DevicePtr.grid GridId.d_grid => mem.p_d_grid.map interleave
  | DevicePtr.grid GridId.e_grid => mem.p_e_grid.map interleave
  | DevicePtr.member id => mem.members.get id

/-- Writing scalars through a device address. -/
def DeviceMemory.store {R : Type} (mem : DeviceMemory R) (p : DevicePtr) (v : List R) :
    DeviceMemory R :=
  match p with
  | DevicePtr.grid GridId.a_grid => { mem with p_a_grid := some (deinterleave v) }
  | DevicePtr.grid GridId.b_grid => { mem with p_b_grid := some (deinterleave v) }
  | DevicePtr.grid GridId.d_grid => { mem with p_d_grid := some (deinterleave v) }
  | DevicePtr.grid GridId.e_grid => { mem with p_e_grid := some (deinterleave v) }
  | DevicePtr.member id => { mem with members := mem.members.set id (some v) }

/-- The operand addresses of one real run. -/
structure DevicePointers where
  p_a : Option DevicePtr
  p_b : Option DevicePtr
  p_ds : List (Option DevicePtr)
  p_e : Option DevicePtr
  deriving DecidableEq, Repr

/-- The addresses a real sub-argument holds: `allocArgs` passes `member.get()`, the
address of the member's own allocation, for each operand. -/
def DecompArg.devicePointers {R : Type} (arg : DecompArg R) : DevicePointers :=
  { p_a := arg.p_a.map DevicePtr.member
    p_b := arg.p_b.map DevicePtr.member
    p_ds := arg.p_ds.map (Option.map DevicePtr.member)
    p_e := arg.p_e.map DevicePtr.member }

/-- One run of the real operation on device memory, reading and writing through
the given addresses: `E = cde_op(a_op(A) * b_op(B), D)`. Reading or writing
through a null pointer is a fault (`none`). -/
def DecompOp.RunAt {R : Type} [CommRing R] (op : DecompOp R) (arg : DecompArg R)
    (ptrs : DevicePointers) (mem : DeviceMemory R) : Option (DeviceMemory R × Nat) :=
  match ptrs.p_a.bind mem.load, ptrs.p_b.bind mem.load, ptrs.p_e with
  | some a, some b, some e =>
    if (mem.load e).isNone then none
    else
      match arg.cde_element_op with
      | CDEElementwiseOperation.scale s =>
        some (mem.store e ((op.contract arg.shape a b).map (fun x => s.scale_ * x)),
          op.elapsed arg)
      | CDEElementwiseOperation.bilinear bl =>
        match (ptrs.p_ds.headD none).bind mem.load with
        | some d =>
          some (mem.store e (List.zipWith (fun x0 x1 => bl.alpha_ * x0 + bl.beta_ * x1)
            (op.contract arg.shape a b) d), op.elapsed arg)
        | none => none
  | _, _, _ => none

/-- One run of the real operation on a sub-argument, on device memory. -/
def DecompOp.RunOnDevice {R : Type} [CommRing R] (op : DecompOp R) (arg : DecompArg R)
    (mem : DeviceMemory R) : Option (DeviceMemory R × Nat) :=
  op.RunAt arg arg.devicePointers mem

/-- The method `Invoker::Run` of the bilinear form on device memory: the four real
runs in order, starting from `mem`; the result is the memory afterwards and `r3`. -/
def BilinearComplex.Invoker.RunOnDevice {R : Type} [CommRing R] (mInvoker : DecompOp R)
    (arg : BilinearComplex.Argument R) (mem : DeviceMemory R) :
    Option (DeviceMemory R × Nat) :=
  (arg.arg 0).bind fun a0 =>
  (mInvoker.RunOnDevice a0 mem).bind fun s0 =>
  (arg.arg 1).bind fun a1 =>
  (mInvoker.RunOnDevice a1 s0.1).bind fun s1 =>
  (arg.arg 2).bind fun a2 =>
  (mInvoker.RunOnDevice a2 s1.1).bind fun s2 =>
  (arg.arg 3).bind fun a3 =>
  (mInvoker.RunOnDevice a3 s2.1).bind fun s3 =>
  some (s3.1, s3.2)

/-- The method `Invoker::Run` of the scale form on device memory: the scale run and
the three bilinear runs in order, starting from `mem`. -/
def ScaleComplex.Invoker.RunOnDevice {R : Type} [CommRing R] (mInvoker : DecompOp R)
    (arg : ScaleComplex.Argument R) (mem : DeviceMemory R) :
    Option (DeviceMemory R × Nat) :=
  arg.mScaleArgs.bind fun a0 =>
  (mInvoker.RunOnDevice a0 mem).bind fun s0 =>
  (arg.mBilinearArgs.get? 0).bind fun a1 =>
  (mInvoker.RunOnDevice a1 s0.1).bind fun s1 =>
  (arg.mBilinearArgs.get? 1).bind fun a2 =>
  (mInvoker.RunOnDevice a2 s1.1).bind fun s2 =>
  (arg.mBilinearArgs.get? 2).bind fun a3 =>
  (mInvoker.RunOnDevice a3 s2.1).bind fun s3 =>
  some (s3.1, s3.2)

/-! ## Workspace negotiation: lemmas -/

theorem workspaceLoop_nil (pref : hiptensorWorksizePreference_t) (call : InitArgsCall)
    (ws : Nat) : workspaceLoop pref call ws [] = ws := rfl

theorem workspaceLoop_cons (pref : hiptensorWorksizePreference_t) (call : InitArgsCall)
    (ws : Nat) (s : ContractionSolution) (rest : List ContractionSolution) :
    workspaceLoop pref call ws (s :: rest)
      = workspaceLoop pref call (workspaceStep pref call ws s) rest := rfl

/-- Outside `MIN` one iteration takes the maximum with a supported candidate's size. -/
theorem workspaceStep_of_ne_min (pref : hiptensorWorksizePreference_t)
    (hp : pref ≠ HIPTENSOR_WORKSPACE_MIN) (call : InitArgsCall) (ws : Nat)
    (s : ContractionSolution) :
    workspaceStep pref call ws s
      = if s.initArgs call then max ws (s.workspaceSize call) else ws := by
  unfold workspaceStep
  by_cases h : s.initArgs call = true
  · by_cases h0 : ws = 0
    · simp [h, h0]
    · simp [h, h0, hp]
  · simp [h]

/-- The running value under `MIN` never exceeds the running value under another preference. -/
theorem workspaceStep_min_le (pref : hiptensorWorksizePreference_t)
    (hp : pref ≠ HIPTENSOR_WORKSPACE_MIN) (call : InitArgsCall) (s t : Nat) (hst : s ≤ t)
    (c : ContractionSolution) :
    workspaceStep HIPTENSOR_WORKSPACE_MIN call s c ≤ workspaceStep pref call t c := by
  rw [workspaceStep_of_ne_min pref hp]
  unfold workspaceStep
  by_cases h : c.initArgs call = true
  · by_cases h0 : s = 0
    · simp [h, h0]
    · simp only [h, h0, if_true, if_false]
      exact le_trans (min_le_left _ _) (le_trans hst (le_max_left _ _))
  · simp [h, hst]

theorem workspaceLoop_min_le (pref : hiptensorWorksizePreference_t)
    (hp : pref ≠ HIPTENSOR_WORKSPACE_MIN) (call : InitArgsCall)
    (cands : List ContractionSolution) :
    ∀ s t : Nat, s ≤ t →
      workspaceLoop HIPTENSOR_WORKSPACE_MIN call s cands ≤ workspaceLoop pref call t cands := by
  induction cands with
  | nil => intro s t hst; simpa [workspaceLoop_nil] using hst
  | cons c rest ih =>
    intro s t hst
    rw [workspaceLoop_cons, workspaceLoop_cons]
    exact ih _ _ (workspaceStep_min_le pref hp call s t hst c)

/-- Two preferences other than `MIN` run the same loop. -/
theorem workspaceLoop_eq_of_ne_min (p q : hiptensorWorksizePreference_t)
    (hp : p ≠ HIPTENSOR_WORKSPACE_MIN) (hq : q ≠ HIPTENSOR_WORKSPACE_MIN)
    (call : InitArgsCall) (cands : List ContractionSolution) :
    ∀ ws : Nat, workspaceLoop p call ws cands = workspaceLoop q call ws cands := by
  induction cands with
  | nil => intro ws; rfl
  | cons c rest ih =>
    intro ws
    rw [workspaceLoop_cons, workspaceLoop_cons, workspaceStep_of_ne_min p hp,
      workspaceStep_of_ne_min q hq]
    exact ih _

theorem workspaceLoop_ge_start (pref : hiptensorWorksizePreference_t)
    (hp : pref ≠ HIPTENSOR_WORKSPACE_MIN) (call : InitArgsCall)
    (cands : List ContractionSolution) :
    ∀ ws : Nat, ws ≤ workspaceLoop pref call ws cands := by
  induction cands with
  | nil => intro ws; exact le_refl _
  | cons c rest ih =>
    intro ws
    rw [workspaceLoop_cons]
    refine le_trans ?_ (ih _)
    rw [workspaceStep_of_ne_min pref hp]
    by_cases h : c.initArgs call = true
    · simp [h]
    · simp [h]

/-- Outside `MIN` the result bounds the size of every supported candidate. -/
theorem workspaceLoop_ge_supported (pref : hiptensorWorksizePreference_t)
    (hp : pref ≠ HIPTENSOR_WORKSPACE_MIN) (call : InitArgsCall)
    (cands : List ContractionSolution) :
    ∀ ws : Nat, ∀ s ∈ cands, s.initArgs call = true →
      s.workspaceSize call ≤ workspaceLoop pref call ws cands := by
  induction cands with
  | nil => intro ws s hs; simp at hs
  | cons c rest ih =>
    intro ws s hs hsup
    rw [workspaceLoop_cons]
    rcases List.mem_cons.mp hs with h | h
    · subst h
      refine le_trans ?_ (workspaceLoop_ge_start pref hp call rest _)
      rw [workspaceStep_of_ne_min pref hp]
      simp [hsup]
    · exact ih _ s h hsup

/-- The loop leaves its start value untouched when no candidate is supported. -/
theorem workspaceLoop_none_supported (pref : hiptensorWorksizePreference_t)
    (call : InitArgsCall) (cands : List ContractionSolution)
    (hnone : ∀ s ∈ cands, s.initArgs call = false) :
    ∀ ws : Nat, workspaceLoop pref call ws cands = ws := by
  induction cands with
  | nil => intro ws; rfl
  | cons c rest ih =>
    intro ws
    rw [workspaceLoop_cons]
    have hc : c.initArgs call = false := hnone c (List.mem_cons_self _ _)
    have hstep : workspaceStep pref call ws c = ws := by simp [workspaceStep, hc]
    rw [hstep]
    exact ih (fun s hs => hnone s (List.mem_cons_of_mem _ hs)) ws

/-- A running value that is the size of a supported candidate of `all` stays one. -/
theorem workspaceLoop_attained_of_attained (pref : hiptensorWorksizePreference_t)
    (call : InitArgsCall) (all : List ContractionSolution) (cands : List ContractionSolution)
    (hsub : ∀ s ∈ cands, s ∈ all) :
    ∀ ws : Nat, (∃ s ∈ all, s.initArgs call = true ∧ s.workspaceSize call = ws) →
      ∃ s ∈ all, s.initArgs call = true
        ∧ s.workspaceSize call = workspaceLoop pref call ws cands := by
  induction cands with
  | nil => intro ws h; simpa [workspaceLoop_nil] using h
  | cons c rest ih =>
    intro ws h
    rw [workspaceLoop_cons]
    apply ih (fun s hs => hsub s (List.mem_cons_of_mem _ hs))
    by_cases hc : c.initArgs call = true
    · have hcall : c ∈ all := hsub c (List.mem_cons_self _ _)
      unfold workspaceStep
      by_cases h0 : ws = 0
      · exact ⟨c, hcall, hc, by simp [hc, h0]⟩
      · by_cases hp : pref = HIPTENSOR_WORKSPACE_MIN
        · rcases le_total ws (c.workspaceSize call) with hle | hle
          · obtain ⟨s, hs, hsup, hsz⟩ := h
            exact ⟨s, hs, hsup, by simp [hc, h0, hp, hsz, min_eq_left hle]⟩
          · exact ⟨c, hcall, hc, by simp [hc, h0, hp, min_eq_right hle]⟩
        · rcases le_total ws (c.workspaceSize call) with hle | hle
          · exact ⟨c, hcall, hc, by simp [hc, h0, hp, max_eq_right hle]⟩
          · obtain ⟨s, hs, hsup, hsz⟩ := h
            exact ⟨s, hs, hsup, by simp [hc, h0, hp, hsz, max_eq_left hle]⟩
    · have hstep : workspaceStep pref call ws c = ws := by simp [workspaceStep, hc]
      rw [hstep]
      exact h

/-- Started from 0 with a supported candidate present, the loop ends on the size
of a supported candidate. -/
theorem workspaceLoop_attained (pref : hiptensorWorksizePreference_t)
    (call : InitArgsCall) (all : List ContractionSolution) (cands : List ContractionSolution)
    (hsub : ∀ s ∈ cands, s ∈ all) (hex : ∃ s ∈ cands, s.initArgs call = true) :
    ∃ s ∈ all, s.initArgs call = true
      ∧ s.workspaceSize call = workspaceLoop pref call 0 cands := by
  induction cands with
  | nil => obtain ⟨s, hs, _⟩ := hex; simp at hs
  | cons c rest ih =>
    rw [workspaceLoop_cons]
    by_cases hc : c.initArgs call = true
    · apply workspaceLoop_attained_of_attained pref call all rest
        (fun s hs => hsub s (List.mem_cons_of_mem _ hs))
      exact ⟨c, hsub c (List.mem_cons_self _ _), hc, by simp [workspaceStep, hc]⟩
    · have hstep : workspaceStep pref call 0 c = 0 := by simp [workspaceStep, hc]
      rw [hstep]
      apply ih (fun s hs => hsub s (List.mem_cons_of_mem _ hs))
      obtain ⟨s, hs, hsup⟩ := hex
      rcases List.mem_cons.mp hs with h | h
      · subst h; exact absurd hsup hc
      · exact ⟨s, h, hsup⟩

/-! ## Complex decomposition: lemmas -/

/-- No constructor call of the bilinear form allocates `mB_real`. -/
theorem bilinearComplex_ctor_mB_real {R : Type} [CommRing R]
    (a b d e : ComplexGrid R) (shape : DecompShape) (cde : Bilinear R) :
    (BilinearComplex.Argument.ctor a b d e shape cde).mB_real = none := by
  simp [BilinearComplex.Argument.ctor, Planes.null]

/-- No constructor call of the scale form allocates `mB_real`. -/
theorem scaleComplex_ctor_mB_real {R : Type} [CommRing R]
    (a b e : ComplexGrid R) (shape : DecompShape) (cde : Scale R) :
    (ScaleComplex.Argument.ctor a b e shape cde).mB_real = none := by
  simp [ScaleComplex.Argument.ctor, Planes.null]

/-- Under `MIN`, from a non-zero running value and with every supported candidate
of non-zero size, the loop stays non-zero, does not grow, and ends below every
supported candidate's size. -/
theorem workspaceLoop_min_of_pos (call : InitArgsCall) (cands : List ContractionSolution)
    (hnz : ∀ s ∈ cands, s.initArgs call = true → s.workspaceSize call ≠ 0) :
    ∀ ws : Nat, ws ≠ 0 →
      workspaceLoop HIPTENSOR_WORKSPACE_MIN call ws cands ≠ 0
      ∧ workspaceLoop HIPTENSOR_WORKSPACE_MIN call ws cands ≤ ws
      ∧ ∀ s ∈ cands, s.initArgs call = true →
          workspaceLoop HIPTENSOR_WORKSPACE_MIN call ws cands ≤ s.workspaceSize call := by
  induction cands with
  | nil => intro ws hws; exact ⟨hws, le_refl _, fun s hs => by simp at hs⟩
  | cons c rest ih =>
    intro ws hws
    rw [workspaceLoop_cons]
    have hrest : ∀ s ∈ rest, s.initArgs call = true → s.workspaceSize call ≠ 0 :=
      fun s hs => hnz s (List.mem_cons_of_mem _ hs)
    by_cases hc : c.initArgs call = true
    · have hcz : c.workspaceSize call ≠ 0 := hnz c (List.mem_cons_self _ _) hc
      have hstep : workspaceStep HIPTENSOR_WORKSPACE_MIN call ws c
          = min ws (c.workspaceSize call) := by simp [workspaceStep, hc, hws]
      have hpos : min ws (c.workspaceSize call) ≠ 0 := by
        rcases le_total ws (c.workspaceSize call) with hle | hle
        · rw [min_eq_left hle]; exact hws
        · rw [min_eq_right hle]; exact hcz
      rw [hstep]
      obtain ⟨h1, h2, h3⟩ := ih hrest _ hpos
      refine ⟨h1, le_trans h2 (min_le_left _ _), ?_⟩
      intro s hs hsup
      rcases List.mem_cons.mp hs with h | h
      · subst h; exact le_trans h2 (min_le_right _ _)
      · exact h3 s h hsup
    · have hstep : workspaceStep HIPTENSOR_WORKSPACE_MIN call ws c = ws := by
        simp [workspaceStep, hc]
      rw [hstep]
      obtain ⟨h1, h2, h3⟩ := ih hrest ws hws
      refine ⟨h1, h2, ?_⟩
      intro s hs hsup
      rcases List.mem_cons.mp hs with h | h
      · subst h; exact absurd hsup hc
      · exact h3 s h hsup

/-- Under `MIN`, started from 0 and with every supported candidate of non-zero
size, the loop ends below every supported candidate's size. -/
theorem workspaceLoop_min_le_supported (call : InitArgsCall)
    (cands : List ContractionSolution)
    (hnz : ∀ s ∈ cands, s.initArgs call = true → s.workspaceSize call ≠ 0) :
    ∀ s ∈ cands, s.initArgs call = true →
      workspaceLoop HIPTENSOR_WORKSPACE_MIN call 0 cands ≤ s.workspaceSize call := by
  induction cands with
  | nil => intro s hs; simp at hs
  | cons c rest ih =>
    intro s hs hsup
    rw [workspaceLoop_cons]
    have hrest : ∀ s ∈ rest, s.initArgs call = true → s.workspaceSize call ≠ 0 :=
      fun s hs => hnz s (List.mem_cons_of_mem _ hs)
    by_cases hc : c.initArgs call = true
    · have hcz : c.workspaceSize call ≠ 0 := hnz c (List.mem_cons_self _ _) hc
      have hstep : workspaceStep HIPTENSOR_WORKSPACE_MIN call 0 c = c.workspaceSize call := by
        simp [workspaceStep, hc]
      rw [hstep]
      obtain ⟨_, h2, h3⟩ := workspaceLoop_min_of_pos call rest hrest _ hcz
      rcases List.mem_cons.mp hs with h | h
      · subst h; exact h2
      · exact h3 s h hsup
    · have hstep : workspaceStep HIPTENSOR_WORKSPACE_MIN call 0 c = 0 := by
        simp [workspaceStep, hc]
      rw [hstep]
      rcases List.mem_cons.mp hs with h | h
      · subst h; exact absurd hsup hc
      · exact ih hrest s h hsup

/-- A real run whose B pointer is null faults. -/
theorem decompOp_run_null_b {R : Type} [CommRing R] (op : DecompOp R) (arg : DecompArg R)
    (mem : Planes R) (hb : arg.p_b = none) : op.Run arg mem = none := by
  unfold DecompOp.Run
  rw [hb]
  cases h : arg.p_a.bind mem.get <;> simp

/-- The first sub-argument of the bilinear form is bound to the null `mB_real`, so
`Invoker::Run` on a constructed argument faults in its first real run. -/
theorem bilinearComplex_run_ctor {R : Type} [CommRing R] (op : DecompOp R)
    (a b d e : ComplexGrid R) (shape : DecompShape) (cde : Bilinear R) :
    BilinearComplex.Invoker.Run op (BilinearComplex.Argument.ctor a b d e shape cde) = none := by
  have h0 : (BilinearComplex.Argument.ctor a b d e shape cde).arg 0
      = some (BilinearComplex.allocArgs shape
          (BilinearComplex.Argument.ctor a b d e shape cde).toPlanes
          PlaneId.E_real PlaneId.A_real PlaneId.B_real PlaneId.D_real cde) := rfl
  unfold BilinearComplex.Invoker.Run
  rw [h0]
  simp only [Option.some_bind]
  rw [decompOp_run_null_b]
  · rfl
  · simp [BilinearComplex.allocArgs, Planes.ptr, Planes.get, bilinearComplex_ctor_mB_real]

/-- The scale sub-argument is bound to the null `mB_real`, so `Invoker::Run` on a
constructed argument faults in its first real run. -/
theorem scaleComplex_run_ctor {R : Type} [CommRing R] (op : DecompOp R)
    (a b e : ComplexGrid R) (shape : DecompShape) (cde : Scale R) :
    ScaleComplex.Invoker.Run op (ScaleComplex.Argument.ctor a b e shape cde) = none := by
  have h0 : (ScaleComplex.Argument.ctor a b e shape cde).mScaleArgs
      = some (ScaleComplex.allocScaleArgs shape
          (ScaleComplex.Argument.ctor a b e shape cde).toPlanes
          PlaneId.E_real PlaneId.A_real PlaneId.B_real cde) := rfl
  unfold ScaleComplex.Invoker.Run
  rw [h0]
  simp only [Option.some_bind]
  rw [decompOp_run_null_b]
  · rfl
  · simp [ScaleComplex.allocScaleArgs, Planes.ptr, Planes.get, scaleComplex_ctor_mB_real]

/-! ## Workspace negotiation: properties -/

/-- C1: for every descriptor and candidate list, the three workspace queries succeed
and the written sizes satisfy `size(MIN) <= size(RECOMMENDED) <= size(MAX)`. -/
theorem getWorkspaceSize_min_le_recommended_le_max (locals : ProbeLocals)
    (handle : hiptensorHandle_t) (desc : hiptensorContractionDescriptor_t)
    (find : hiptensorContractionFind_t) (v : Nat) :
    ∃ sMin sRec sMax : Nat,
      hiptensorContractionGetWorkspaceSize locals (some handle) (some desc) (some find)
          HIPTENSOR_WORKSPACE_MIN (some v) = (HIPTENSOR_STATUS_SUCCESS, some sMin)
      ∧ hiptensorContractionGetWorkspaceSize locals (some handle) (some desc) (some find)
          HIPTENSOR_WORKSPACE_RECOMMENDED (some v) = (HIPTENSOR_STATUS_SUCCESS, some sRec)
      ∧ hiptensorContractionGetWorkspaceSize locals (some handle) (some desc) (some find)
          HIPTENSOR_WORKSPACE_MAX (some v) = (HIPTENSOR_STATUS_SUCCESS, some sMax)
      ∧ sMin ≤ sRec ∧ sRec ≤ sMax := by
  refine ⟨_, _, _, rfl, rfl, rfl, ?_, ?_⟩
  · exact workspaceLoop_min_le HIPTENSOR_WORKSPACE_RECOMMENDED (by decide) _ _ 0 0 (le_refl 0)
  · exact le_of_eq (workspaceLoop_eq_of_ne_min HIPTENSOR_WORKSPACE_RECOMMENDED
      HIPTENSOR_WORKSPACE_MAX (by decide) (by decide) _ _ 0)

/-- C2 (counterexample): with supported candidates of sizes 5, 0, 7 in this order the
`MIN` query writes 7, although the candidate of size 5 is supported, non-zero and
smaller. -/
theorem getWorkspaceSize_min_after_zero_size_candidate :
    hiptensorContractionGetWorkspaceSize sampleLocals (some ⟨0⟩) (some sampleDesc)
        (some ⟨-1, [constSolution true 5, constSolution true 0, constSolution true 7]⟩)
        HIPTENSOR_WORKSPACE_MIN (some 0) = (HIPTENSOR_STATUS_SUCCESS, some 7)
    ∧ (constSolution true 5).initArgs (probeCall sampleDesc sampleLocals) = true
    ∧ (constSolution true 5).workspaceSize (probeCall sampleDesc sampleLocals) ≠ 0
    ∧ (constSolution true 5).workspaceSize (probeCall sampleDesc sampleLocals) < 7 := by
  refine ⟨rfl, rfl, by decide, by decide⟩

/-- C2 (amended): when at least one candidate is supported and every supported
candidate reports a non-zero workspace size, the `MIN` query succeeds and writes
the smallest workspace size among the supported candidates. -/
theorem getWorkspaceSize_min_is_smallest (locals : ProbeLocals)
    (handle : hiptensorHandle_t) (desc : hiptensorContractionDescriptor_t)
    (find : hiptensorContractionFind_t) (v : Nat)
    (hex : ∃ s ∈ find.mCandidates, s.initArgs (probeCall desc locals) = true)
    (hnz : ∀ s ∈ find.mCandidates, s.initArgs (probeCall desc locals) = true →
      s.workspaceSize (probeCall desc locals) ≠ 0) :
    ∃ W : Nat,
      hiptensorContractionGetWorkspaceSize locals (some handle) (some desc) (some find)
          HIPTENSOR_WORKSPACE_MIN (some v) = (HIPTENSOR_STATUS_SUCCESS, some W)
      ∧ (∃ s ∈ find.mCandidates, s.initArgs (probeCall desc locals) = true
          ∧ s.workspaceSize (probeCall desc locals) = W)
      ∧ (∀ s ∈ find.mCandidates, s.initArgs (probeCall desc locals) = true →
          W ≤ s.workspaceSize (probeCall desc locals)) := by
  refine ⟨_, rfl, ?_, ?_⟩
  · exact workspaceLoop_attained HIPTENSOR_WORKSPACE_MIN _ find.mCandidates
      find.mCandidates (fun _ h => h) hex
  · exact workspaceLoop_min_le_supported _ _ hnz

/-- Witness of C2 (amended) on candidates unsupported/2, supported/7, supported/5. -/
theorem getWorkspaceSize_min_is_smallest_witness :
    (∃ s ∈ [constSolution false 2, constSolution true 7, constSolution true 5],
        s.initArgs (probeCall sampleDesc sampleLocals) = true)
    ∧ (∀ s ∈ [constSolution false 2, constSolution true 7, constSolution true 5],
        s.initArgs (probeCall sampleDesc sampleLocals) = true →
        s.workspaceSize (probeCall sampleDesc sampleLocals) ≠ 0)
    ∧ ∃ W : Nat,
      hiptensorContractionGetWorkspaceSize sampleLocals (some ⟨0⟩) (some sampleDesc)
          (some ⟨-1, [constSolution false 2, constSolution true 7, constSolution true 5]⟩)
          HIPTENSOR_WORKSPACE_MIN (some 0) = (HIPTENSOR_STATUS_SUCCESS, some W)
      ∧ (∃ s ∈ [constSolution false 2, constSolution true 7, constSolution true 5],
          s.initArgs (probeCall sampleDesc sampleLocals) = true
          ∧ s.workspaceSize (probeCall sampleDesc sampleLocals) = W)
      ∧ (∀ s ∈ [constSolution false 2, constSolution true 7, constSolution true 5],
          s.initArgs (probeCall sampleDesc sampleLocals) = true →
          W ≤ s.workspaceSize (probeCall sampleDesc sampleLocals)) :=
  have hex : ∃ s ∈ [constSolution false 2, constSolution true 7, constSolution true 5],
      s.initArgs (probeCall sampleDesc sampleLocals) = true :=
    ⟨constSolution true 7, List.mem_cons_of_mem _ (List.mem_cons_self _ _), rfl⟩
  have hnz : ∀ s ∈ [constSolution false 2, constSolution true 7, constSolution true 5],
      s.initArgs (probeCall sampleDesc sampleLocals) = true →
      s.workspaceSize (probeCall sampleDesc sampleLocals) ≠ 0 := by
    intro s hs hsup
    simp only [List.mem_cons, List.mem_singleton, List.not_mem_nil, or_false] at hs
    rcases hs with h | h | h
    · subst h; simp [constSolution] at hsup
    · subst h; simp [constSolution]
    · subst h; simp [constSolution]
  ⟨hex, hnz,
    getWorkspaceSize_min_is_smallest sampleLocals ⟨0⟩ sampleDesc
      ⟨-1, [constSolution false 2, constSolution true 7, constSolution true 5]⟩ 0 hex hnz⟩

/-- C3: the `MAX` query succeeds and writes the largest workspace size among the
candidates whose argument initialisation succeeds: the written size bounds the
size of every supported candidate, and it is the size of a supported candidate,
or 0 when no candidate is supported. -/
theorem getWorkspaceSize_max_is_largest (locals : ProbeLocals)
    (handle : hiptensorHandle_t) (desc : hiptensorContractionDescriptor_t)
    (find : hiptensorContractionFind_t) (v : Nat) :
    ∃ W : Nat,
      hiptensorContractionGetWorkspaceSize locals (some handle) (some desc) (some find)
          HIPTENSOR_WORKSPACE_MAX (some v) = (HIPTENSOR_STATUS_SUCCESS, some W)
      ∧ (∀ s ∈ find.mCandidates, s.initArgs (probeCall desc locals) = true →
          s.workspaceSize (probeCall desc locals) ≤ W)
      ∧ ((∃ s ∈ find.mCandidates, s.initArgs (probeCall desc locals) = true
            ∧ s.workspaceSize (probeCall desc locals) = W)
          ∨ ((∀ s ∈ find.mCandidates, s.initArgs (probeCall desc locals) = false) ∧ W = 0)) := by
  refine ⟨_, rfl, ?_, ?_⟩
  · exact workspaceLoop_ge_supported HIPTENSOR_WORKSPACE_MAX (by decide) _ _ 0
  · by_cases hex : ∃ s ∈ find.mCandidates, s.initArgs (probeCall desc locals) = true
    · exact Or.inl (workspaceLoop_attained HIPTENSOR_WORKSPACE_MAX _ find.mCandidates
        find.mCandidates (fun _ h => h) hex)
    · right
      have hnone : ∀ s ∈ find.mCandidates, s.initArgs (probeCall desc locals) = false := by
        intro s hs
        by_contra hne
        exact hex ⟨s, hs, by simpa using hne⟩
      exact ⟨hnone, workspaceLoop_none_supported _ _ _ hnone 0⟩

/-- C4: when at least one candidate is supported, the `MIN` query succeeds and the
written size is at least the workspace size of some supported candidate. -/
theorem getWorkspaceSize_min_admits_a_candidate (locals : ProbeLocals)
    (handle : hiptensorHandle_t) (desc : hiptensorContractionDescriptor_t)
    (find : hiptensorContractionFind_t) (v : Nat)
    (hex : ∃ s ∈ find.mCandidates, s.initArgs (probeCall desc locals) = true) :
    ∃ W : Nat,
      hiptensorContractionGetWorkspaceSize locals (some handle) (some desc) (some find)
          HIPTENSOR_WORKSPACE_MIN (some v) = (HIPTENSOR_STATUS_SUCCESS, some W)
      ∧ ∃ s ∈ find.mCandidates, s.initArgs (probeCall desc locals) = true
          ∧ s.workspaceSize (probeCall desc locals) ≤ W := by
  refine ⟨_, rfl, ?_⟩
  obtain ⟨s, hs, hsup, hsz⟩ := workspaceLoop_attained HIPTENSOR_WORKSPACE_MIN
    (probeCall desc locals) find.mCandidates find.mCandidates (fun _ h => h) hex
  exact ⟨s, hs, hsup, le_of_eq hsz⟩

/-- Witness of C4 on candidates unsupported/9, supported/5, supported/3. -/
theorem getWorkspaceSize_min_admits_a_candidate_witness :
    (∃ s ∈ [constSolution false 9, constSolution true 5, constSolution true 3],
        s.initArgs (probeCall sampleDesc sampleLocals) = true)
    ∧ ∃ W : Nat,
      hiptensorContractionGetWorkspaceSize sampleLocals (some ⟨0⟩) (some sampleDesc)
          (some ⟨-1, [constSolution false 9, constSolution true 5, constSolution true 3]⟩)
          HIPTENSOR_WORKSPACE_MIN (some 0) = (HIPTENSOR_STATUS_SUCCESS, some W)
      ∧ ∃ s ∈ [constSolution false 9, constSolution true 5, constSolution true 3],
          s.initArgs (probeCall sampleDesc sampleLocals) = true
          ∧ s.workspaceSize (probeCall sampleDesc sampleLocals) ≤ W :=
  ⟨⟨constSolution true 5, List.mem_cons_of_mem _ (List.mem_cons_self _ _), rfl⟩,
    getWorkspaceSize_min_admits_a_candidate sampleLocals ⟨0⟩ sampleDesc
      ⟨-1, [constSolution false 9, constSolution true 5, constSolution true 3]⟩ 0
      ⟨constSolution true 5, List.mem_cons_of_mem _ (List.mem_cons_self _ _), rfl⟩⟩

/-! ## Execution: properties -/

/-- C5: let `W` be the size written by the `RECOMMENDED` workspace query for a
descriptor and a find, and let the plan bind that descriptor to a candidate of the
find whose support and workspace size depend only on the shape and which supports
the descriptor's shape. Then `hiptensorContraction` with `workspaceSize = W` never
returns `INSUFFICIENT_WORKSPACE`, and with non-null alpha, A, B, D on the handle's
device it returns `SUCCESS`. -/
theorem contraction_recommended_workspace_suffices (locals : ProbeLocals)
    (h : hiptensorHandle_t) (desc : hiptensorContractionDescriptor_t)
    (find : hiptensorContractionFind_t) (v W : Nat) (st : hiptensorStatus_t)
    (hW : hiptensorContractionGetWorkspaceSize locals (some h) (some desc) (some find)
      HIPTENSOR_WORKSPACE_RECOMMENDED (some v) = (st, some W))
    (sol : ContractionSolution) (hmem : sol ∈ find.mCandidates)
    (hshape : ∀ c c2 : InitArgsCall, c.shape = c2.shape →
      sol.initArgs c = sol.initArgs c2 ∧ sol.workspaceSize c = sol.workspaceSize c2)
    (hsupp : sol.initArgs (probeCall desc locals) = true)
    (currentDevice : HipDevice) (handle : Option hiptensorHandle_t)
    (alpha A B beta C D workspace : VoidPtr) (stream : Nat) :
    (hiptensorContraction currentDevice handle (some ⟨desc, some sol⟩)
        alpha A B beta C D workspace W stream).1 ≠ HIPTENSOR_STATUS_INSUFFICIENT_WORKSPACE
    ∧ (∀ hd : hiptensorHandle_t, handle = some hd →
        currentDevice.getDeviceId = hd.deviceId →
        alpha ≠ none → A ≠ none → B ≠ none → D ≠ none →
        (hiptensorContraction currentDevice handle (some ⟨desc, some sol⟩)
          alpha A B beta C D workspace W stream).1 = HIPTENSOR_STATUS_SUCCESS) := by
  have hWeq : W = workspaceLoop HIPTENSOR_WORKSPACE_RECOMMENDED (probeCall desc locals) 0
      find.mCandidates := by
    simp only [hiptensorContractionGetWorkspaceSize, Prod.mk.injEq, Option.some.injEq] at hW
    exact hW.2.symm
  have hsh : (contractionCall desc alpha A B beta C D workspace).shape
      = (probeCall desc locals).shape := rfl
  have hinit : sol.initArgs (contractionCall desc alpha A B beta C D workspace) = true := by
    rw [(hshape _ _ hsh).1]; exact hsupp
  have hle : sol.workspaceSize (contractionCall desc alpha A B beta C D workspace) ≤ W := by
    rw [(hshape _ _ hsh).2, hWeq]
    exact workspaceLoop_ge_supported HIPTENSOR_WORKSPACE_RECOMMENDED (by decide) _ _ 0 sol
      hmem hsupp
  have hnot : ¬ sol.workspaceSize (contractionCall desc alpha A B beta C D workspace) > W :=
    not_lt.mpr hle
  constructor
  · cases handle with
    | none => simp [hiptensorContraction]
    | some hd =>
      simp only [hiptensorContraction]
      split_ifs <;> simp_all
  · intro hd hhd hdev ha hA hB hD
    subst hhd
    simp [hiptensorContraction, ha, hA, hB, hD, hdev, hinit, hnot]

/-- Witness of C5: candidates of sizes 16 and 64, the plan bound to the first. -/
theorem contraction_recommended_workspace_suffices_witness :
    hiptensorContractionGetWorkspaceSize sampleLocals (some ⟨0⟩) (some sampleDesc)
        (some ⟨-1, [constSolution true 16, constSolution true 64]⟩)
        HIPTENSOR_WORKSPACE_RECOMMENDED (some 0) = (HIPTENSOR_STATUS_SUCCESS, some 64)
    ∧ (hiptensorContraction ⟨0, true⟩ (some ⟨0⟩) (some ⟨sampleDesc, some (constSolution true 16)⟩)
        (some 1) (some 2) (some 3) (some 4) (some 5) (some 6) none 64 0).1
        ≠ HIPTENSOR_STATUS_INSUFFICIENT_WORKSPACE
    ∧ (hiptensorContraction ⟨0, true⟩ (some ⟨0⟩) (some ⟨sampleDesc, some (constSolution true 16)⟩)
        (some 1) (some 2) (some 3) (some 4) (some 5) (some 6) none 64 0).1
        = HIPTENSOR_STATUS_SUCCESS :=
  have key := contraction_recommended_workspace_suffices sampleLocals ⟨0⟩ sampleDesc
    ⟨-1, [constSolution true 16, constSolution true 64]⟩ 0 64 HIPTENSOR_STATUS_SUCCESS rfl
    (constSolution true 16) (List.mem_cons_self _ _) (fun _ _ _ => ⟨rfl, rfl⟩) rfl
    ⟨0, true⟩ (some ⟨0⟩) (some 1) (some 2) (some 3) (some 4) (some 5) (some 6) none 0
  ⟨rfl, key.1, key.2 ⟨0⟩ rfl rfl (by simp) (by simp) (by simp) (by simp)⟩

/-- C6 (counterexample): a call on a device other than the handle's, with a null A
operand, returns `INVALID_VALUE`, not `ARCH_MISMATCH`. -/
theorem contraction_device_mismatch_with_null_operand :
    (⟨1, true⟩ : HipDevice).getDeviceId ≠ (⟨0⟩ : hiptensorHandle_t).deviceId
    ∧ hiptensorContraction ⟨1, true⟩ (some ⟨0⟩)
        (some ⟨sampleDesc, some (constSolution true 0)⟩)
        (some 1) none (some 3) (some 4) (some 5) (some 6) none 0 0
        = (HIPTENSOR_STATUS_INVALID_VALUE, [])
    ∧ HIPTENSOR_STATUS_INVALID_VALUE ≠ HIPTENSOR_STATUS_ARCH_MISMATCH := by
  refine ⟨by decide, rfl, by decide⟩

/-- C6 (amended): every call with non-null handle, plan, alpha, A, B and D, whose
plan has a solution, made while the current device differs from the handle's
device, returns `ARCH_MISMATCH` with an empty trace: no argument object has been
built and no kernel invoked. -/
theorem contraction_arch_mismatch (currentDevice : HipDevice) (h : hiptensorHandle_t)
    (desc : hiptensorContractionDescriptor_t) (sol : ContractionSolution)
    (alpha A B beta C D workspace : VoidPtr) (workspaceSize stream : Nat)
    (hdev : currentDevice.getDeviceId ≠ h.deviceId)
    (ha : alpha ≠ none) (hA : A ≠ none) (hB : B ≠ none) (hD : D ≠ none) :
    hiptensorContraction currentDevice (some h) (some ⟨desc, some sol⟩)
        alpha A B beta C D workspace workspaceSize stream
      = (HIPTENSOR_STATUS_ARCH_MISMATCH, []) := by
  simp [hiptensorContraction, ha, hA, hB, hD, hdev]

/-- Witness of C6 (amended): device 1 against a handle bound to device 0. -/
theorem contraction_arch_mismatch_witness :
    (⟨1, true⟩ : HipDevice).getDeviceId ≠ (⟨0⟩ : hiptensorHandle_t).deviceId
    ∧ hiptensorContraction ⟨1, true⟩ (some ⟨0⟩)
        (some ⟨sampleDesc, some (constSolution true 0)⟩)
        (some 1) (some 2) (some 3) (some 4) (some 5) (some 6) none 0 0
        = (HIPTENSOR_STATUS_ARCH_MISMATCH, []) :=
  ⟨by decide,
    contraction_arch_mismatch ⟨1, true⟩ ⟨0⟩ sampleDesc (constSolution true 0)
      (some 1) (some 2) (some 3) (some 4) (some 5) (some 6) none 0 0
      (by decide) (by simp) (by simp) (by simp) (by simp)⟩

/-- C7 (counterexample): with a supplied workspace of 0 against a solution needing
8, a call on a device other than the handle's returns `ARCH_MISMATCH`, not
`INSUFFICIENT_WORKSPACE`. -/
theorem contraction_small_workspace_on_other_device :
    0 < (constSolution true 8).workspaceSize
        (contractionCall sampleDesc (some 1) (some 2) (some 3) (some 4) (some 5) (some 6) none)
    ∧ hiptensorContraction ⟨1, true⟩ (some ⟨0⟩)
        (some ⟨sampleDesc, some (constSolution true 8)⟩)
        (some 1) (some 2) (some 3) (some 4) (some 5) (some 6) none 0 0
        = (HIPTENSOR_STATUS_ARCH_MISMATCH, [])
    ∧ HIPTENSOR_STATUS_ARCH_MISMATCH ≠ HIPTENSOR_STATUS_INSUFFICIENT_WORKSPACE := by
  refine ⟨by decide, rfl, by decide⟩

/-- C7 (amended): in every call whose plan has a solution and whose supplied
workspaceSize is smaller than the solution's workspaceSize(), the solution is not
invoked; and when handle, alpha, A, B and D are non-null, the current device is the
handle's and argument initialisation succeeds, the call returns
`INSUFFICIENT_WORKSPACE` having only built the argument object. -/
theorem contraction_insufficient_workspace (currentDevice : HipDevice)
    (handle : Option hiptensorHandle_t)
    (desc : hiptensorContractionDescriptor_t) (sol : ContractionSolution)
    (alpha A B beta C D workspace : VoidPtr) (workspaceSize stream : Nat)
    (hws : workspaceSize
      < sol.workspaceSize (contractionCall desc alpha A B beta C D workspace)) :
    (∀ s : Nat, Event.invoke s ∉ (hiptensorContraction currentDevice handle
        (some ⟨desc, some sol⟩) alpha A B beta C D workspace workspaceSize stream).2)
    ∧ (∀ hd : hiptensorHandle_t, handle = some hd →
        currentDevice.getDeviceId = hd.deviceId →
        alpha ≠ none → A ≠ none → B ≠ none → D ≠ none →
        sol.initArgs (contractionCall desc alpha A B beta C D workspace) = true →
        hiptensorContraction currentDevice handle (some ⟨desc, some sol⟩)
            alpha A B beta C D workspace workspaceSize stream
          = (HIPTENSOR_STATUS_INSUFFICIENT_WORKSPACE,
              [Event.initArgs (contractionCall desc alpha A B beta C D workspace)])) := by
  constructor
  · intro s
    cases handle with
    | none => simp [hiptensorContraction]
    | some hd =>
      simp only [hiptensorContraction]
      split_ifs <;> simp_all
  · intro hd hhd hdev ha hA hB hD hinit
    subst hhd
    simp [hiptensorContraction, ha, hA, hB, hD, hdev, hinit, hws]

/-- Witness of C7 (amended): a workspace of 4 against a solution needing 8. -/
theorem contraction_insufficient_workspace_witness :
    4 < (constSolution true 8).workspaceSize
        (contractionCall sampleDesc (some 1) (some 2) (some 3) (some 4) (some 5) (some 6) none)
    ∧ hiptensorContraction ⟨0, true⟩ (some ⟨0⟩)
        (some ⟨sampleDesc, some (constSolution true 8)⟩)
        (some 1) (some 2) (some 3) (some 4) (some 5) (some 6) none 4 0
      = (HIPTENSOR_STATUS_INSUFFICIENT_WORKSPACE,
          [Event.initArgs
            (contractionCall sampleDesc (some 1) (some 2) (some 3) (some 4) (some 5) (some 6)
              none)]) :=
  ⟨by decide,
    (contraction_insufficient_workspace ⟨0, true⟩ (some ⟨0⟩) sampleDesc (constSolution true 8)
      (some 1) (some 2) (some 3) (some 4) (some 5) (some 6) none 4 0 (by decide)).2
      ⟨0⟩ rfl rfl (by simp) (by simp) (by simp) (by simp) rfl⟩

/-! ## Complex decomposition: properties -/

/-- C8 (evaluation of the code): for `A = (1+2i, 3+4i)`, `B = (5+6i, 7+8i)`,
`C = 9+10i`, `alpha = 2`, `beta = 3` the complex reference `alpha*A*B + beta*C` is
`-9 + 166i`. The constructed argument holds B's real parts in `mA_real` and a null
`mB_real`, and running its sub-contractions faults without producing that result. -/
theorem bilinearComplex_sample_run :
    (BilinearComplex.Argument.ctor sampleA sampleB sampleC sampleE dotShape ⟨2, 3⟩).mA_real
        = some [5, 7]
    ∧ (BilinearComplex.Argument.ctor sampleA sampleB sampleC sampleE dotShape ⟨2, 3⟩).mB_real
        = none
    ∧ BilinearComplex.Invoker.Run dotOp
        (BilinearComplex.Argument.ctor sampleA sampleB sampleC sampleE dotShape ⟨2, 3⟩) = none
    ∧ (BilinearComplex.Invoker.Run dotOp
        (BilinearComplex.Argument.ctor sampleA sampleB sampleC sampleE dotShape ⟨2, 3⟩)).map
          (fun r => (r.1.mE_real, r.1.mE_imag)) ≠ some (some [-9], some [166]) := by
  decide

/-- C9 (evaluation of the code): for `A = (1+2i, 3+4i)`, `B = (5+6i, 7+8i)` and
`s = 2`, neither the scale form nor the bilinear form with `alpha = 2`, `beta = 0`
produces E planes (both runs fault on the null `mB_real`); and their accumulating
second sub-contractions differ on the same buffers: the bilinear form overwrites
`E_real = 5` with `-88`, the scale form accumulates to `-83`. -/
theorem scaleComplex_vs_bilinearComplex_sample :
    ScaleComplex.Invoker.Run dotOp
        (ScaleComplex.Argument.ctor sampleA sampleB sampleE dotShapeScale ⟨2⟩) = none
    ∧ BilinearComplex.Invoker.Run dotOp
        (BilinearComplex.Argument.ctor sampleA sampleB sampleC sampleE dotShape ⟨2, 0⟩) = none
    ∧ (((BilinearComplex.Argument.ctor sampleA sampleB sampleC sampleE dotShape ⟨2, 0⟩).arg 1).bind
        (fun a => dotOp.Run a
          (BilinearComplex.Argument.ctor sampleA sampleB sampleC sampleE dotShape
            ⟨2, 0⟩).toPlanes)).map (fun r => r.1.mE_real) = some (some [-88])
    ∧ (((ScaleComplex.Argument.ctor sampleA sampleB sampleE dotShapeScale
          ⟨2⟩).mBilinearArgs.get? 0).bind
        (fun a => dotOp.Run a
          (ScaleComplex.Argument.ctor sampleA sampleB sampleE dotShapeScale ⟨2⟩).toPlanes)).map
          (fun r => r.1.mE_real) = some (some [-83]) := by
  decide

/-- C10 (evaluation of the code): for `A = (1+2i, 3+4i)`, `B = (5+6i, 7+8i)` and
`s = 2` the product `s*A*B` is `-36 + 136i`. The constructed scale argument holds
B's real parts in `mA_real`, a null `mB_real` and a zeroed scratch pair, and running
its sub-contractions faults without producing that result. -/
theorem scaleComplex_sample_run :
    (ScaleComplex.Argument.ctor sampleA sampleB sampleE dotShapeScale ⟨2⟩).mA_real
        = some [5, 7]
    ∧ (ScaleComplex.Argument.ctor sampleA sampleB sampleE dotShapeScale ⟨2⟩).mB_real = none
    ∧ (ScaleComplex.Argument.ctor sampleA sampleB sampleE dotShapeScale ⟨2⟩).mD_real
        = some [0]
    ∧ (ScaleComplex.Argument.ctor sampleA sampleB sampleE dotShapeScale ⟨2⟩).mD_imag
        = some [0]
    ∧ ScaleComplex.Invoker.Run dotOp
        (ScaleComplex.Argument.ctor sampleA sampleB sampleE dotShapeScale ⟨2⟩) = none
    ∧ (ScaleComplex.Invoker.Run dotOp
        (ScaleComplex.Argument.ctor sampleA sampleB sampleE dotShapeScale ⟨2⟩)).map
          (fun r => (r.1.mE_real, r.1.mE_imag)) ≠ some (some [-36], some [136]) := by
  decide

/-- C11 (evaluation of the code): for non-null `A = (1+2i, 3+4i)`, `B = (5+6i, 7+8i)`,
`C = 9+10i`, `E = 5+0i` both constructors leave `mB_real` null and `mA_real` holding
B's real parts `5, 7` (two elements, B's count) instead of A's `1, 3`; and with a null
A and a non-null B the plane `mA_real` is allocated all the same. -/
theorem complexArgument_planes_sample :
    (BilinearComplex.Argument.ctor sampleA sampleB sampleC sampleE dotShape ⟨2, 3⟩).toPlanes
        = ⟨some [5, 7], some [2, 4], none, some [6, 8], some [9], some [10], some [5], some [0]⟩
    ∧ (ScaleComplex.Argument.ctor sampleA sampleB sampleE dotShapeScale ⟨2⟩).toPlanes
        = ⟨some [5, 7], some [2, 4], none, some [6, 8], some [0], some [0], some [5], some [0]⟩
    ∧ (BilinearComplex.Argument.ctor none sampleB sampleC sampleE dotShape ⟨2, 3⟩).toPlanes
        = ⟨some [5, 7], none, none, some [6, 8], some [9], some [10], some [5], some [0]⟩ := by
  decide

/-- C12 (evaluation of the code): with `alpha = 2`, `beta = 3` and `E_real = 5` the
second sub-contraction leaves `E_real = -2*(2*6 + 4*8) + 3*5 = -73`, where the
accumulation `5 - 2*(2*6 + 4*8)` is `-83`; it is `-83` for `beta = 1`. The fourth
sub-contraction is bound to the null `mB_real` and faults. -/
theorem bilinearComplex_accumulating_steps_sample :
    (((BilinearComplex.Argument.ctor sampleA sampleB sampleC sampleE dotShape ⟨2, 3⟩).arg 1).bind
        (fun a => dotOp.Run a
          (BilinearComplex.Argument.ctor sampleA sampleB sampleC sampleE dotShape
            ⟨2, 3⟩).toPlanes)).map (fun r => r.1.mE_real) = some (some [-73])
    ∧ (((BilinearComplex.Argument.ctor sampleA sampleB sampleC sampleE dotShape ⟨2, 1⟩).arg 1).bind
        (fun a => dotOp.Run a
          (BilinearComplex.Argument.ctor sampleA sampleB sampleC sampleE dotShape
            ⟨2, 1⟩).toPlanes)).map (fun r => r.1.mE_real) = some (some [-83])
    ∧ ((BilinearComplex.Argument.ctor sampleA sampleB sampleC sampleE dotShape ⟨2, 3⟩).arg 3).bind
        (fun a => dotOp.Run a
          (BilinearComplex.Argument.ctor sampleA sampleB sampleC sampleE dotShape
            ⟨2, 3⟩).toPlanes) = none := by
  decide

/-! ## Solution registry: lemmas -/

theorem addSolution_mem (s : ContractionSolution) :
    ∀ (l : List ContractionSolution) (y : ContractionSolution),
      y ∈ Query.addSolution l s → y ∈ l ∨ y = s := by
  intro l
  induction l with
  | nil => intro y hy; simp [Query.addSolution] at hy; exact Or.inr hy
  | cons x rest ih =>
    intro y hy
    unfold Query.addSolution at hy
    split_ifs at hy with h1 h2
    · rcases List.mem_cons.mp hy with h | h
      · exact Or.inr h
      · exact Or.inl h
    · exact Or.inl hy
    · rcases List.mem_cons.mp hy with h | h
      · exact Or.inl (h ▸ List.mem_cons_self _ _)
      · rcases ih y h with h3 | h3
        · exact Or.inl (List.mem_cons_of_mem _ h3)
        · exact Or.inr h3

theorem mem_addSolution_of_mem (s : ContractionSolution) :
    ∀ (l : List ContractionSolution) (y : ContractionSolution),
      y ∈ l → y ∈ Query.addSolution l s := by
  intro l
  induction l with
  | nil => intro y hy; simp at hy
  | cons x rest ih =>
    intro y hy
    unfold Query.addSolution
    split_ifs with h1 h2
    · exact List.mem_cons_of_mem _ hy
    · exact hy
    · rcases List.mem_cons.mp hy with h | h
      · exact h ▸ List.mem_cons_self _ _
      · exact List.mem_cons_of_mem _ (ih y h)

theorem addSolution_key_present (s : ContractionSolution) :
    ∀ l : List ContractionSolution, ∃ x ∈ Query.addSolution l s, x.uid = s.uid := by
  intro l
  induction l with
  | nil => exact ⟨s, by simp [Query.addSolution], rfl⟩
  | cons x rest ih =>
    unfold Query.addSolution
    split_ifs with h1 h2
    · exact ⟨s, List.mem_cons_self _ _, rfl⟩
    · exact ⟨x, List.mem_cons_self _ _, h2.symm⟩
    · obtain ⟨y, hy, hyu⟩ := ih
      exact ⟨y, List.mem_cons_of_mem _ hy, hyu⟩

theorem addSolution_sorted (s : ContractionSolution) :
    ∀ l : List ContractionSolution, l.Pairwise (fun a b => a.uid < b.uid) →
      (Query.addSolution l s).Pairwise (fun a b => a.uid < b.uid) := by
  intro l
  induction l with
  | nil => intro _; simp [Query.addSolution]
  | cons x rest ih =>
    intro hl
    have hx : ∀ b ∈ rest, x.uid < b.uid := (List.pairwise_cons.mp hl).1
    have hrest : rest.Pairwise (fun a b => a.uid < b.uid) := (List.pairwise_cons.mp hl).2
    unfold Query.addSolution
    split_ifs with h1 h2
    · refine List.pairwise_cons.mpr ⟨?_, hl⟩
      intro b hb
      rcases List.mem_cons.mp hb with h | h
      · rw [h]; exact h1
      · exact lt_trans h1 (hx b h)
    · exact hl
    · refine List.pairwise_cons.mpr ⟨?_, ih hrest⟩
      intro b hb
      rcases addSolution_mem s rest b hb with h | h
      · exact hx b h
      · rw [h]; omega

theorem foldl_addSolution_sorted (l : List ContractionSolution) :
    ∀ acc : List ContractionSolution, acc.Pairwise (fun a b => a.uid < b.uid) →
      (l.foldl Query.addSolution acc).Pairwise (fun a b => a.uid < b.uid) := by
  induction l with
  | nil => intro acc h; exact h
  | cons s rest ih => intro acc h; exact ih _ (addSolution_sorted s acc h)

theorem foldl_addSolution_mem (l : List ContractionSolution) :
    ∀ (acc : List ContractionSolution) (y : ContractionSolution),
      y ∈ l.foldl Query.addSolution acc → y ∈ acc ∨ y ∈ l := by
  induction l with
  | nil => intro acc y hy; exact Or.inl hy
  | cons s rest ih =>
    intro acc y hy
    rcases ih _ y hy with h | h
    · rcases addSolution_mem s acc y h with h2 | h2
      · exact Or.inl h2
      · exact Or.inr (h2 ▸ List.mem_cons_self _ _)
    · exact Or.inr (List.mem_cons_of_mem _ h)

theorem mem_foldl_addSolution_of_mem (l : List ContractionSolution) :
    ∀ (acc : List ContractionSolution) (y : ContractionSolution),
      y ∈ acc → y ∈ l.foldl Query.addSolution acc := by
  induction l with
  | nil => intro acc y hy; exact hy
  | cons s rest ih => intro acc y hy; exact ih _ y (mem_addSolution_of_mem s acc y hy)

theorem foldl_addSolution_key_present (l : List ContractionSolution) :
    ∀ (acc : List ContractionSolution) (s : ContractionSolution), s ∈ l →
      ∃ x ∈ l.foldl Query.addSolution acc, x.uid = s.uid := by
  induction l with
  | nil => intro acc s hs; simp at hs
  | cons t rest ih =>
    intro acc s hs
    rcases List.mem_cons.mp hs with h | h
    · obtain ⟨x, hx, hxu⟩ := addSolution_key_present t acc
      exact ⟨x, mem_foldl_addSolution_of_mem rest _ x hx, by rw [hxu, h]⟩
    · exact ih _ s h

theorem uid_injective_of_sorted :
    ∀ l : List ContractionSolution, l.Pairwise (fun a b => a.uid < b.uid) →
      ∀ x ∈ l, ∀ y ∈ l, x.uid = y.uid → x = y := by
  intro l
  induction l with
  | nil => intro _ x hx; simp at hx
  | cons a rest ih =>
    intro hl x hx y hy hxy
    have ha : ∀ b ∈ rest, a.uid < b.uid := (List.pairwise_cons.mp hl).1
    have hrest := (List.pairwise_cons.mp hl).2
    rcases List.mem_cons.mp hx with h1 | h1 <;> rcases List.mem_cons.mp hy with h2 | h2
    · rw [h1, h2]
    · have := ha y h2; rw [h1] at hxy; omega
    · have := ha x h1; rw [h2] at hxy; omega
    · exact ih hrest x h1 y h2 hxy

theorem allSolutions_sorted (registry : ContractionSolutionRegistry) :
    registry.allSolutions.solutions.Pairwise (fun a b => a.uid < b.uid) :=
  foldl_addSolution_sorted _ _ List.Pairwise.nil

/-! ## Complex decomposition and execution: support check -/

/-- The bilinear support check is the conjunction over the four sub-arguments. -/
theorem bilinearComplex_isSupported_iff {R : Type} (op : DecompOp R)
    (planes : Planes R) (a0 a1 a2 a3 : DecompArg R) :
    BilinearComplex.IsSupportedArgument op ⟨planes, [a0, a1, a2, a3]⟩ = true
      ↔ ∀ x ∈ [a0, a1, a2, a3], op.IsSupportedArgument x = true := by
  simp [BilinearComplex.IsSupportedArgument, BilinearComplex.Argument.arg, and_assoc]

/-- The scale support check is the conjunction over the four sub-arguments. -/
theorem scaleComplex_isSupported_iff {R : Type} (op : DecompOp R)
    (planes : Planes R) (a0 a1 a2 a3 : DecompArg R) :
    ScaleComplex.IsSupportedArgument op ⟨planes, some a0, [a1, a2, a3]⟩ = true
      ↔ ∀ x ∈ (⟨planes, some a0, [a1, a2, a3]⟩ : ScaleComplex.Argument R).subArgs,
          op.IsSupportedArgument x = true := by
  simp [ScaleComplex.IsSupportedArgument, ScaleComplex.Argument.subArgs, and_assoc]

/-- C13: a constructed complex argument, bilinear or scale, holds four real
sub-arguments and its `IsSupportedArgument` is true exactly when the real
operation's `IsSupportedArgument` is true for all four; when one of them is
unsupported the complex argument is unsupported. A solution whose `initArgs`
reports unsupported is never invoked by `hiptensorContraction`, and a call with
non-null handle, `alpha`, `A`, `B`, `D` on the handle's device whose solution
reports the support check of a complex argument with an unsupported
sub-argument returns `INTERNAL_ERROR`, its trace holding the argument
initialisation only. -/
theorem complex_isSupportedArgument_all_four {R : Type} [CommRing R] (op : DecompOp R)
    (a b d e : ComplexGrid R) (shape : DecompShape) (cdeB : Bilinear R) (cdeS : Scale R)
    (currentDevice : HipDevice) (handle : hiptensorHandle_t)
    (desc : hiptensorContractionDescriptor_t) (sol : ContractionSolution)
    (alpha A B beta C D workspace : VoidPtr) (workspaceSize stream : Nat) :
    (BilinearComplex.Argument.ctor a b d e shape cdeB).mArgs.length = 4
    ∧ (BilinearComplex.IsSupportedArgument op (BilinearComplex.Argument.ctor a b d e shape cdeB)
          = true
        ↔ ∀ x ∈ (BilinearComplex.Argument.ctor a b d e shape cdeB).mArgs,
            op.IsSupportedArgument x = true)
    ∧ (ScaleComplex.Argument.ctor a b e shape cdeS).subArgs.length = 4
    ∧ (ScaleComplex.IsSupportedArgument op (ScaleComplex.Argument.ctor a b e shape cdeS) = true
        ↔ ∀ x ∈ (ScaleComplex.Argument.ctor a b e shape cdeS).subArgs,
            op.IsSupportedArgument x = true)
    ∧ ((∃ x ∈ (BilinearComplex.Argument.ctor a b d e shape cdeB).mArgs,
          op.IsSupportedArgument x = false) →
        BilinearComplex.IsSupportedArgument op
          (BilinearComplex.Argument.ctor a b d e shape cdeB) = false)
    ∧ ((∃ x ∈ (ScaleComplex.Argument.ctor a b e shape cdeS).subArgs,
          op.IsSupportedArgument x = false) →
        ScaleComplex.IsSupportedArgument op
          (ScaleComplex.Argument.ctor a b e shape cdeS) = false)
    ∧ (∀ (h : Option hiptensorHandle_t) (s : Nat),
        sol.initArgs (contractionCall desc alpha A B beta C D workspace) = false →
        Event.invoke s ∉ (hiptensorContraction currentDevice h (some ⟨desc, some sol⟩)
          alpha A B beta C D workspace workspaceSize stream).2)
    ∧ (alpha ≠ none → A ≠ none → B ≠ none → D ≠ none →
        currentDevice.getDeviceId = handle.deviceId →
        ((sol.initArgs (contractionCall desc alpha A B beta C D workspace)
              = BilinearComplex.IsSupportedArgument op
                  (BilinearComplex.Argument.ctor a b d e shape cdeB)
            ∧ ∃ x ∈ (BilinearComplex.Argument.ctor a b d e shape cdeB).mArgs,
                op.IsSupportedArgument x = false)
          ∨ (sol.initArgs (contractionCall desc alpha A B beta C D workspace)
              = ScaleComplex.IsSupportedArgument op
                  (ScaleComplex.Argument.ctor a b e shape cdeS)
            ∧ ∃ x ∈ (ScaleComplex.Argument.ctor a b e shape cdeS).subArgs,
                op.IsSupportedArgument x = false)) →
        hiptensorContraction currentDevice (some handle) (some ⟨desc, some sol⟩)
            alpha A B beta C D workspace workspaceSize stream
          = (HIPTENSOR_STATUS_INTERNAL_ERROR,
              [Event.initArgs (contractionCall desc alpha A B beta C D workspace)])) := by
  have hB : BilinearComplex.IsSupportedArgument op
        (BilinearComplex.Argument.ctor a b d e shape cdeB) = true
      ↔ ∀ x ∈ (BilinearComplex.Argument.ctor a b d e shape cdeB).mArgs,
          op.IsSupportedArgument x = true :=
    bilinearComplex_isSupported_iff op _ _ _ _ _
  have hS : ScaleComplex.IsSupportedArgument op (ScaleComplex.Argument.ctor a b e shape cdeS)
        = true
      ↔ ∀ x ∈ (ScaleComplex.Argument.ctor a b e shape cdeS).subArgs,
          op.IsSupportedArgument x = true :=
    scaleComplex_isSupported_iff op _ _ _ _ _
  have hBf : (∃ x ∈ (BilinearComplex.Argument.ctor a b d e shape cdeB).mArgs,
        op.IsSupportedArgument x = false) →
      BilinearComplex.IsSupportedArgument op
        (BilinearComplex.Argument.ctor a b d e shape cdeB) = false := by
    rintro ⟨x, hx, hxf⟩
    by_contra hne
    have := hB.mp (by simpa using hne) x hx
    simp [hxf] at this
  have hSf : (∃ x ∈ (ScaleComplex.Argument.ctor a b e shape cdeS).subArgs,
        op.IsSupportedArgument x = false) →
      ScaleComplex.IsSupportedArgument op
        (ScaleComplex.Argument.ctor a b e shape cdeS) = false := by
    rintro ⟨x, hx, hxf⟩
    by_contra hne
    have := hS.mp (by simpa using hne) x hx
    simp [hxf] at this
  refine ⟨rfl, hB, rfl, hS, hBf, hSf, ?_, ?_⟩
  · intro h s hun
    cases h with
    | none => simp [hiptensorContraction]
    | some hd =>
      by_cases hg : alpha = none ∨ A = none ∨ B = none ∨ D = none
      · simp [hiptensorContraction, hg]
      · by_cases hdev : currentDevice.getDeviceId = hd.deviceId
        · simp [hiptensorContraction, hg, hdev, hun]
        · simp [hiptensorContraction, hg, hdev]
  · intro ha hA hB2 hD hdev hcase
    have hg : ¬ (alpha = none ∨ A = none ∨ B = none ∨ D = none) := by
      simp [ha, hA, hB2, hD]
    have hun : sol.initArgs (contractionCall desc alpha A B beta C D workspace) = false := by
      rcases hcase with ⟨hsol, hx⟩ | ⟨hsol, hx⟩
      · rw [hsol]; exact hBf hx
      · rw [hsol]; exact hSf hx
    simp [hiptensorContraction, hg, hdev, hun]

/-- Witness of C13: the sample complex bilinear solution over a kernel that rejects
the null B pointer of its first sub-argument. -/
theorem complex_isSupportedArgument_all_four_witness :
    (∃ x ∈ (BilinearComplex.Argument.ctor sampleA sampleB sampleC sampleE dotShape
          ⟨2, 3⟩).mArgs, pickyOp.IsSupportedArgument x = false)
    ∧ BilinearComplex.IsSupportedArgument pickyOp
        (BilinearComplex.Argument.ctor sampleA sampleB sampleC sampleE dotShape ⟨2, 3⟩) = false
    ∧ hiptensorContraction ⟨0, true⟩ (some ⟨0⟩) (some ⟨sampleDesc, some sampleComplexSolution⟩)
        (some 1) (some 2) (some 3) (some 4) (some 5) (some 6) none 0 0
      = (HIPTENSOR_STATUS_INTERNAL_ERROR,
          [Event.initArgs (contractionCall sampleDesc (some 1) (some 2) (some 3) (some 4)
            (some 5) (some 6) none)]) :=
  have hun : ∃ x ∈ (BilinearComplex.Argument.ctor sampleA sampleB sampleC sampleE dotShape
      ⟨2, 3⟩).mArgs, pickyOp.IsSupportedArgument x = false :=
    ⟨_, List.mem_cons_self _ _, rfl⟩
  ⟨hun, by decide,
    (complex_isSupportedArgument_all_four pickyOp sampleA sampleB sampleC sampleE dotShape
      ⟨2, 3⟩ ⟨2⟩ ⟨0, true⟩ ⟨0⟩ sampleDesc sampleComplexSolution
      (some 1) (some 2) (some 3) (some 4) (some 5) (some 6) none 0 0).2.2.2.2.2.2.2
      (by decide) (by decide) (by decide) (by decide) rfl (Or.inl ⟨rfl, hun⟩)⟩

/-! ## Descriptor initialisation: properties -/

/-- C14: with non-null handle, desc, descA, descB and descD the call returns `SUCCESS`;
the written descriptor is tagged `SCALE` when descC or modeC is null and `BILINEAR`
otherwise, and in the `BILINEAR` case its operand slots are descA, descB, descC,
descD and its alignments are the supplied A, B, C, D alignments in that order. -/
theorem initContractionDescriptor_tag_and_slots (handle : hiptensorHandle_t)
    (desc : hiptensorContractionDescriptor_t) (a b d : hiptensorTensorDescriptor_t)
    (descC : Option hiptensorTensorDescriptor_t) (modeA modeB modeC modeD : Option (List Int))
    (alignA alignB alignC alignD : Nat) (typeCompute : hiptensorComputeType_t) :
    ∃ out : hiptensorContractionDescriptor_t,
      hiptensorInitContractionDescriptor (some handle) (some desc) (some a) modeA alignA
          (some b) modeB alignB descC modeC alignC (some d) modeD alignD typeCompute
        = (HIPTENSOR_STATUS_SUCCESS, some out)
      ∧ (descC = none ∨ modeC = none → out.mContractionOpId = ContractionOpId_t.SCALE)
      ∧ (∀ c m, descC = some c → modeC = some m →
          out.mContractionOpId = ContractionOpId_t.BILINEAR
          ∧ out.mTensorDesc = [a, b, c, d]
          ∧ out.mAlignmentRequirements = [alignA, alignB, alignC, alignD]) := by
  cases descC with
  | none => exact ⟨_, rfl, fun _ => rfl, fun c m h => by cases h⟩
  | some c =>
    cases modeC with
    | none => exact ⟨_, rfl, fun _ => rfl, fun c m _ h => by cases h⟩
    | some m =>
      refine ⟨_, rfl, ?_, ?_⟩
      · intro h
        rcases h with h | h <;> cases h
      · intro c2 m2 hc _
        cases hc
        exact ⟨rfl, rfl, rfl⟩

/-- C15 (evaluation of the code): without C operand and with a rank-4 D, the written
descriptor has four slots and four alignments, tag `SCALE`, C dtype `-1` and C
alignment 0, but the C slot's lengths and strides are the two-element vectors
`[4, 0]`: their first entry is the rank of D, not 0. -/
theorem initContractionDescriptor_scale_sentinel_sample :
    hiptensorInitContractionDescriptor (some ⟨0⟩) (some sampleDesc)
        (some sampleTensorDesc) sampleMode 4 (some sampleTensorDesc) sampleMode 4
        none none 0 (some sampleTensorDesc) sampleMode 4
        hiptensorComputeType_t.HIPTENSOR_COMPUTE_32F
      = (HIPTENSOR_STATUS_SUCCESS,
          some ⟨ContractionOpId_t.SCALE, hiptensorComputeType_t.HIPTENSOR_COMPUTE_32F,
            [sampleTensorDesc, sampleTensorDesc, ⟨-1, [4, 0], [4, 0]⟩, sampleTensorDesc],
            [4, 4, 0, 4]⟩) := by
  decide

/-! ## Boundary calls: null arguments -/

/-- C16 (counterexample): `hiptensorContraction` with non-null handle and plan and a
null D returns `INVALID_VALUE`, not `NOT_INITIALIZED`. -/
theorem contraction_null_output_pointer :
    hiptensorContraction ⟨0, true⟩ (some ⟨0⟩) (some ⟨sampleDesc, some (constSolution true 0)⟩)
        (some 1) (some 2) (some 3) (some 4) (some 5) none none 0 0
      = (HIPTENSOR_STATUS_INVALID_VALUE, [])
    ∧ HIPTENSOR_STATUS_INVALID_VALUE ≠ HIPTENSOR_STATUS_NOT_INITIALIZED := by
  refine ⟨rfl, by decide⟩

/-- C16 (amended): `hiptensorInitContractionDescriptor`, `hiptensorInitContractionFind`,
`hiptensorContractionGetWorkspaceSize` and `hiptensorInitContractionPlan` return
`NOT_INITIALIZED` whenever the handle, a descriptor/find argument or the output
pointer (desc, find, workspaceSize, plan) is null, and `hiptensorContraction` does so
whenever its handle or plan is null; the output pointee is then unchanged and no
device work is done. A null D with non-null handle and plan makes
`hiptensorContraction` return `INVALID_VALUE`, also without device work. -/
theorem boundary_calls_not_initialized (registry : ContractionSolutionRegistry)
    (models : SelectionModels) (locals : ProbeLocals) (currentDevice : HipDevice) :
    (∀ handle desc descA modeA alignA descB modeB alignB descC modeC alignC descD modeD alignD
        typeCompute,
        handle = none ∨ desc = none ∨ descA = none ∨ descB = none ∨ descD = none →
        hiptensorInitContractionDescriptor handle desc descA modeA alignA descB modeB alignB
            descC modeC alignC descD modeD alignD typeCompute
          = (HIPTENSOR_STATUS_NOT_INITIALIZED, desc))
    ∧ (∀ handle find algo, handle = none ∨ find = none →
        hiptensorInitContractionFind registry currentDevice handle find algo
          = (HIPTENSOR_STATUS_NOT_INITIALIZED, find))
    ∧ (∀ handle desc find pref workspaceSize,
        handle = none ∨ desc = none ∨ find = none ∨ workspaceSize = none →
        hiptensorContractionGetWorkspaceSize locals handle desc find pref workspaceSize
          = (HIPTENSOR_STATUS_NOT_INITIALIZED, workspaceSize))
    ∧ (∀ handle plan desc find workspaceSize,
        handle = none ∨ plan = none ∨ desc = none ∨ find = none →
        hiptensorInitContractionPlan models currentDevice handle plan desc find workspaceSize
          = (HIPTENSOR_STATUS_NOT_INITIALIZED, plan))
    ∧ (∀ handle plan alpha A B beta C D workspace workspaceSize stream,
        handle = none ∨ plan = none →
        hiptensorContraction currentDevice handle plan alpha A B beta C D workspace
            workspaceSize stream
          = (HIPTENSOR_STATUS_NOT_INITIALIZED, []))
    ∧ (∀ handle plan alpha A B beta C workspace workspaceSize stream,
        hiptensorContraction currentDevice (some handle) (some plan) alpha A B beta C none
            workspace workspaceSize stream
          = (HIPTENSOR_STATUS_INVALID_VALUE, [])) := by
  refine ⟨?_, ?_, ?_, ?_, ?_, ?_⟩
  · intro handle desc descA modeA alignA descB modeB alignB descC modeC alignC descD modeD
      alignD typeCompute h
    cases handle <;> cases desc <;> cases descA <;> cases descB <;> cases descD <;>
      simp_all [hiptensorInitContractionDescriptor]
  · intro handle find algo h
    cases handle <;> cases find <;> simp_all [hiptensorInitContractionFind]
  · intro handle desc find pref workspaceSize h
    cases handle <;> cases desc <;> cases find <;> cases workspaceSize <;>
      simp_all [hiptensorContractionGetWorkspaceSize]
  · intro handle plan desc find workspaceSize h
    cases handle <;> cases plan <;> cases desc <;> cases find <;>
      simp_all [hiptensorInitContractionPlan]
  · intro handle plan alpha A B beta C D workspace workspaceSize stream h
    cases handle <;> cases plan <;> simp_all [hiptensorContraction]
  · intro handle plan alpha A B beta C workspace workspaceSize stream
    simp [hiptensorContraction]

/-! ## Selection request: properties -/

/-- C17: on the handle's device, an algorithm tag other than `DEFAULT`,
`DEFAULT_PATIENT` and `ACTOR_CRITIC` returns `INVALID_VALUE` and leaves find as it
was; `GETT`, `TGETT` and `TTGT` are such tags. -/
theorem initContractionFind_invalid_algorithm (registry : ContractionSolutionRegistry)
    (currentDevice : HipDevice) (handle : hiptensorHandle_t)
    (find : hiptensorContractionFind_t) (algo : Int)
    (hdev : currentDevice.getDeviceId = handle.deviceId)
    (h1 : algo ≠ HIPTENSOR_ALGO_DEFAULT) (h2 : algo ≠ HIPTENSOR_ALGO_DEFAULT_PATIENT)
    (h3 : algo ≠ HIPTENSOR_ALGO_ACTOR_CRITIC) :
    hiptensorInitContractionFind registry currentDevice (some handle) (some find) algo
        = (HIPTENSOR_STATUS_INVALID_VALUE, some find)
    ∧ ∀ tag ∈ [HIPTENSOR_ALGO_GETT, HIPTENSOR_ALGO_TGETT, HIPTENSOR_ALGO_TTGT],
        hiptensorInitContractionFind registry currentDevice (some handle) (some find) tag
          = (HIPTENSOR_STATUS_INVALID_VALUE, some find) := by
  constructor
  · simp [hiptensorInitContractionFind, hdev, h1, h2, h3]
  · intro tag htag
    simp only [List.mem_cons, List.mem_singleton, List.not_mem_nil, or_false] at htag
    rcases htag with h | h | h <;> subst h <;>
      simp [hiptensorInitContractionFind, hdev, HIPTENSOR_ALGO_GETT, HIPTENSOR_ALGO_TGETT,
        HIPTENSOR_ALGO_TTGT, HIPTENSOR_ALGO_DEFAULT, HIPTENSOR_ALGO_DEFAULT_PATIENT,
        HIPTENSOR_ALGO_ACTOR_CRITIC]

/-- Witness of C17: the tag `GETT` against the sample registry. -/
theorem initContractionFind_invalid_algorithm_witness :
    (⟨0, false⟩ : HipDevice).getDeviceId = (⟨0⟩ : hiptensorHandle_t).deviceId
    ∧ HIPTENSOR_ALGO_GETT ≠ HIPTENSOR_ALGO_DEFAULT
    ∧ HIPTENSOR_ALGO_GETT ≠ HIPTENSOR_ALGO_DEFAULT_PATIENT
    ∧ HIPTENSOR_ALGO_GETT ≠ HIPTENSOR_ALGO_ACTOR_CRITIC
    ∧ hiptensorInitContractionFind sampleRegistry ⟨0, false⟩ (some ⟨0⟩)
        (some ⟨HIPTENSOR_ALGO_DEFAULT, [constSolution true 5]⟩) HIPTENSOR_ALGO_GETT
      = (HIPTENSOR_STATUS_INVALID_VALUE,
          some ⟨HIPTENSOR_ALGO_DEFAULT, [constSolution true 5]⟩) :=
  ⟨rfl, by decide, by decide, by decide,
    (initContractionFind_invalid_algorithm sampleRegistry ⟨0, false⟩ ⟨0⟩
      ⟨HIPTENSOR_ALGO_DEFAULT, [constSolution true 5]⟩ HIPTENSOR_ALGO_GETT rfl
      (by decide) (by decide) (by decide)).1⟩

/-- C18: with non-null handle and find, a current device other than the handle's
returns `ARCH_MISMATCH` for every algorithm tag and leaves find as it was. -/
theorem initContractionFind_arch_mismatch (registry : ContractionSolutionRegistry)
    (currentDevice : HipDevice) (handle : hiptensorHandle_t)
    (find : hiptensorContractionFind_t) (algo : Int)
    (hdev : currentDevice.getDeviceId ≠ handle.deviceId) :
    hiptensorInitContractionFind registry currentDevice (some handle) (some find) algo
      = (HIPTENSOR_STATUS_ARCH_MISMATCH, some find) := by
  simp [hiptensorInitContractionFind, hdev]

/-- Witness of C18: device 1 against a handle bound to device 0, accepted tag. -/
theorem initContractionFind_arch_mismatch_witness :
    (⟨1, true⟩ : HipDevice).getDeviceId ≠ (⟨0⟩ : hiptensorHandle_t).deviceId
    ∧ hiptensorInitContractionFind sampleRegistry ⟨1, true⟩ (some ⟨0⟩)
        (some ⟨HIPTENSOR_ALGO_GETT, [constSolution true 5]⟩) HIPTENSOR_ALGO_DEFAULT
      = (HIPTENSOR_STATUS_ARCH_MISMATCH, some ⟨HIPTENSOR_ALGO_GETT, [constSolution true 5]⟩) :=
  ⟨by decide,
    initContractionFind_arch_mismatch sampleRegistry ⟨1, true⟩ ⟨0⟩
      ⟨HIPTENSOR_ALGO_GETT, [constSolution true 5]⟩ HIPTENSOR_ALGO_DEFAULT (by decide)⟩

/-- The query `hiptensorInitContractionFind` builds is sorted by key. -/
theorem findQuery_sorted (registry : ContractionSolutionRegistry) (currentDevice : HipDevice) :
    (findQuery registry currentDevice).solutions.Pairwise (fun a b => a.uid < b.uid) := by
  unfold findQuery
  by_cases hf : currentDevice.supportsF64 = true
  · simp only [hf, Bool.not_true, Bool.false_eq_true, if_false]
    exact allSolutions_sorted registry
  · simp only [Bool.not_eq_true] at hf
    simp only [hf, Bool.not_false, if_true]
    exact foldl_addSolution_sorted _ _ ((allSolutions_sorted registry).filter _)

/-- C19: with non-null arguments, matching device and an accepted algorithm tag, the
call returns `INTERNAL_ERROR` exactly when the (possibly float-filtered) registry
query matches no solution; otherwise it returns `SUCCESS` and find holds the
algorithm tag and the matched solutions in the query's key order, a non-empty list
of length `solutionCount()`. -/
theorem initContractionFind_status (registry : ContractionSolutionRegistry)
    (currentDevice : HipDevice) (handle : hiptensorHandle_t)
    (find : hiptensorContractionFind_t) (algo : Int)
    (hdev : currentDevice.getDeviceId = handle.deviceId)
    (halgo : algo = HIPTENSOR_ALGO_DEFAULT ∨ algo = HIPTENSOR_ALGO_DEFAULT_PATIENT
      ∨ algo = HIPTENSOR_ALGO_ACTOR_CRITIC) :
    ((hiptensorInitContractionFind registry currentDevice (some handle) (some find) algo).1
        = HIPTENSOR_STATUS_INTERNAL_ERROR
      ↔ (findQuery registry currentDevice).solutionCount = 0)
    ∧ ((findQuery registry currentDevice).solutionCount ≠ 0 →
        hiptensorInitContractionFind registry currentDevice (some handle) (some find) algo
          = (HIPTENSOR_STATUS_SUCCESS,
              some ⟨algo, (findQuery registry currentDevice).solutions⟩)
        ∧ (findQuery registry currentDevice).solutions ≠ []
        ∧ (findQuery registry currentDevice).solutions.length
            = (findQuery registry currentDevice).solutionCount
        ∧ (findQuery registry currentDevice).solutions.Pairwise
            (fun a b => a.uid < b.uid)) := by
  by_cases h0 : (findQuery registry currentDevice).solutionCount = 0
  · constructor
    · simp [hiptensorInitContractionFind, hdev, halgo, h0]
    · intro hne; exact absurd h0 hne
  · constructor
    · simp [hiptensorInitContractionFind, hdev, halgo, h0]
    · intro _
      refine ⟨by simp [hiptensorInitContractionFind, hdev, halgo, h0], ?_, rfl,
        findQuery_sorted registry currentDevice⟩
      intro hnil
      apply h0
      simp [Query.solutionCount, hnil]

/-- C20: when the call succeeds on a device without F64 support, the stored
candidates are exactly the registry solutions of signature (F32, F32, F32, F32) or
(F32, F32, none, F32): each candidate is a registry solution with one of the two
signatures, each such registry solution is stored, and no solution or key occurs
twice. On a device with F64 support the candidates are all registry solutions. -/
theorem initContractionFind_candidates (registry : ContractionSolutionRegistry)
    (currentDevice : HipDevice) (handle : hiptensorHandle_t)
    (find : hiptensorContractionFind_t) (algo : Int)
    (hdev : currentDevice.getDeviceId = handle.deviceId)
    (halgo : algo = HIPTENSOR_ALGO_DEFAULT ∨ algo = HIPTENSOR_ALGO_DEFAULT_PATIENT
      ∨ algo = HIPTENSOR_ALGO_ACTOR_CRITIC)
    (hne : (findQuery registry currentDevice).solutionCount ≠ 0) :
    ∃ out : hiptensorContractionFind_t,
      hiptensorInitContractionFind registry currentDevice (some handle) (some find) algo
        = (HIPTENSOR_STATUS_SUCCESS, some out)
      ∧ (currentDevice.supportsF64 = false →
          (∀ c ∈ out.mCandidates, c ∈ registry.allSolutions.solutions
            ∧ (c.hasSignature HIP_R_32F HIP_R_32F HIP_R_32F HIP_R_32F
              ∨ c.hasSignature HIP_R_32F HIP_R_32F NONE_TYPE HIP_R_32F))
          ∧ (∀ s ∈ registry.allSolutions.solutions,
              (s.hasSignature HIP_R_32F HIP_R_32F HIP_R_32F HIP_R_32F
                ∨ s.hasSignature HIP_R_32F HIP_R_32F NONE_TYPE HIP_R_32F) →
              s ∈ out.mCandidates)
          ∧ out.mCandidates.Nodup
          ∧ (out.mCandidates.map (fun c => c.uid)).Nodup)
      ∧ (currentDevice.supportsF64 = true →
          out.mCandidates = registry.allSolutions.solutions) := by
  refine ⟨⟨algo, (findQuery registry currentDevice).solutions⟩,
    ((initContractionFind_status registry currentDevice handle find algo hdev halgo).2 hne).1,
    ?_, ?_⟩
  · intro hf
    have hsorted := findQuery_sorted registry currentDevice
    have hL := allSolutions_sorted registry
    have hq : (findQuery registry currentDevice).solutions
        = ((registry.allSolutions.query HIP_R_32F HIP_R_32F NONE_TYPE
              HIP_R_32F).mAllSolutions).foldl Query.addSolution
            (registry.allSolutions.query HIP_R_32F HIP_R_32F HIP_R_32F
              HIP_R_32F).mAllSolutions := by
      simp [findQuery, hf, Query.or, Query.solutions]
    have hmem : ∀ c ∈ (findQuery registry currentDevice).solutions,
        c ∈ registry.allSolutions.solutions
          ∧ (c.hasSignature HIP_R_32F HIP_R_32F HIP_R_32F HIP_R_32F
            ∨ c.hasSignature HIP_R_32F HIP_R_32F NONE_TYPE HIP_R_32F) := by
      intro c hc
      rw [hq] at hc
      rcases foldl_addSolution_mem _ _ c hc with h | h
      · simp only [Query.query, List.mem_filter, decide_eq_true_eq] at h
        exact ⟨h.1, Or.inl h.2⟩
      · simp only [Query.query, List.mem_filter, decide_eq_true_eq] at h
        exact ⟨h.1, Or.inr h.2⟩
    refine ⟨hmem, ?_, ?_, ?_⟩
    · intro s hs hsig
      show s ∈ (findQuery registry currentDevice).solutions
      rcases hsig with h | h
      · rw [hq]
        apply mem_foldl_addSolution_of_mem
        simp only [Query.query, List.mem_filter, decide_eq_true_eq]
        exact ⟨hs, h⟩
      · have hin : s ∈ (registry.allSolutions.query HIP_R_32F HIP_R_32F NONE_TYPE
            HIP_R_32F).mAllSolutions := by
          simp only [Query.query, List.mem_filter, decide_eq_true_eq]
          exact ⟨hs, h⟩
        obtain ⟨x, hx, hxu⟩ := foldl_addSolution_key_present _
          (registry.allSolutions.query HIP_R_32F HIP_R_32F HIP_R_32F HIP_R_32F).mAllSolutions
          s hin
        rw [← hq] at hx
        have hxs : x = s := uid_injective_of_sorted _ hL x (hmem x hx).1 s hs hxu
        rw [← hxs]; exact hx
    · exact hsorted.imp (fun {a b} hab heq => by rw [heq] at hab; exact lt_irrefl _ hab)
    · rw [List.Nodup, List.pairwise_map]
      exact hsorted.imp (fun {a b} hab => Nat.ne_of_lt hab)
  · intro hf
    simp [findQuery, hf]



/-- Witness of C19: the sample registry on a device without F64 support. -/
theorem initContractionFind_status_witness :
    (⟨0, false⟩ : HipDevice).getDeviceId = (⟨0⟩ : hiptensorHandle_t).deviceId
    ∧ (findQuery sampleRegistry ⟨0, false⟩).solutionCount = 2
    ∧ hiptensorInitContractionFind sampleRegistry ⟨0, false⟩ (some ⟨0⟩)
        (some ⟨HIPTENSOR_ALGO_GETT, []⟩) HIPTENSOR_ALGO_DEFAULT
      = (HIPTENSOR_STATUS_SUCCESS,
          some ⟨HIPTENSOR_ALGO_DEFAULT,
            [catalogSolution 1 HIP_R_32F HIP_R_32F ContractionOpId_t.BILINEAR,
              catalogSolution 2 HIP_R_32F NONE_TYPE ContractionOpId_t.SCALE]⟩) :=
  ⟨rfl, by decide,
    ((initContractionFind_status sampleRegistry ⟨0, false⟩ ⟨0⟩ ⟨HIPTENSOR_ALGO_GETT, []⟩
      HIPTENSOR_ALGO_DEFAULT rfl (Or.inl rfl)).2 (by decide)).1⟩

/-- Witness of C20: the sample registry on a device without F64 support. -/
theorem initContractionFind_candidates_witness :
    (⟨0, false⟩ : HipDevice).getDeviceId = (⟨0⟩ : hiptensorHandle_t).deviceId
    ∧ (findQuery sampleRegistry ⟨0, false⟩).solutionCount ≠ 0
    ∧ ∃ out : hiptensorContractionFind_t,
      hiptensorInitContractionFind sampleRegistry ⟨0, false⟩ (some ⟨0⟩)
          (some ⟨HIPTENSOR_ALGO_GETT, []⟩) HIPTENSOR_ALGO_DEFAULT
        = (HIPTENSOR_STATUS_SUCCESS, some out)
      ∧ ((⟨0, false⟩ : HipDevice).supportsF64 = false →
          (∀ c ∈ out.mCandidates, c ∈ sampleRegistry.allSolutions.solutions
            ∧ (c.hasSignature HIP_R_32F HIP_R_32F HIP_R_32F HIP_R_32F
              ∨ c.hasSignature HIP_R_32F HIP_R_32F NONE_TYPE HIP_R_32F))
          ∧ (∀ s ∈ sampleRegistry.allSolutions.solutions,
              (s.hasSignature HIP_R_32F HIP_R_32F HIP_R_32F HIP_R_32F
                ∨ s.hasSignature HIP_R_32F HIP_R_32F NONE_TYPE HIP_R_32F) →
              s ∈ out.mCandidates)
          ∧ out.mCandidates.Nodup
          ∧ (out.mCandidates.map (fun c => c.uid)).Nodup)
      ∧ ((⟨0, false⟩ : HipDevice).supportsF64 = true →
          out.mCandidates = sampleRegistry.allSolutions.solutions) :=
  ⟨rfl, by decide,
    initContractionFind_candidates sampleRegistry ⟨0, false⟩ ⟨0⟩ ⟨HIPTENSOR_ALGO_GETT, []⟩
      HIPTENSOR_ALGO_DEFAULT rfl (Or.inl rfl) (by decide)⟩

/-! ## Plan creation: properties -/

/-- With non-null arguments on the handle's device, `hiptensorInitContractionPlan`
is decided by the selection it launches. -/
theorem initContractionPlan_eq (models : SelectionModels)
    (currentDevice : HipDevice) (handle : hiptensorHandle_t)
    (plan : hiptensorContractionPlan_t) (desc : hiptensorContractionDescriptor_t)
    (find : hiptensorContractionFind_t) (workspaceSize : Nat)
    (hdev : currentDevice.getDeviceId = handle.deviceId) :
    hiptensorInitContractionPlan models currentDevice (some handle) (some plan)
        (some desc) (some find) workspaceSize
      = if (runSelection models desc find workspaceSize).1 ≠ HIPTENSOR_STATUS_SUCCESS then
          ((runSelection models desc find workspaceSize).1, some plan)
        else
          (HIPTENSOR_STATUS_SUCCESS,
            some ⟨desc, (runSelection models desc find workspaceSize).2⟩) := by
  simp only [hiptensorInitContractionPlan, hdev, ne_eq, not_true_eq_false, if_false,
    runSelection]

/-- C21 (counterexample): for the float bilinear sample descriptor and a find whose
only candidate is a bilinear solution of the double signature `(1, 1, 1, 1)`, that
candidate is handed to the selection model, and a model returning its first
candidate makes it the plan's solution. -/
theorem initContractionPlan_selects_other_signature :
    (planCandidates sampleDesc
        ⟨HIPTENSOR_ALGO_DEFAULT, [catalogSolution 3 1 1 ContractionOpId_t.BILINEAR]⟩).map
        (fun c => (c.uid, c.typeA, c.typeB, c.typeC, c.typeD, c.opId))
      = [(3, 1, 1, 1, 1, 1)]
    ∧ ((sampleDesc.tensorDesc 0).mType, (sampleDesc.tensorDesc 1).mType,
        (sampleDesc.tensorDesc 2).mType, (sampleDesc.tensorDesc 3).mType,
        sampleDesc.mContractionOpId) = (0, 0, 0, 0, 1)
    ∧ (hiptensorInitContractionPlan firstCandidateModels ⟨0, true⟩ (some ⟨0⟩)
        (some ⟨sampleDesc, none⟩) (some sampleDesc)
        (some ⟨HIPTENSOR_ALGO_DEFAULT, [catalogSolution 3 1 1 ContractionOpId_t.BILINEAR]⟩)
        0).1 = HIPTENSOR_STATUS_SUCCESS
    ∧ ((hiptensorInitContractionPlan firstCandidateModels ⟨0, true⟩ (some ⟨0⟩)
        (some ⟨sampleDesc, none⟩) (some sampleDesc)
        (some ⟨HIPTENSOR_ALGO_DEFAULT, [catalogSolution 3 1 1 ContractionOpId_t.BILINEAR]⟩)
        0).2.bind (fun p => p.mSolution)).map (fun c => (c.uid, c.typeA)) = some (3, 1) := by
  decide

/-- C21 (amended): every candidate handed to the selection model is a candidate of
find with the descriptor's operation kind; a candidate of find with another
operation kind is not handed over; and a candidate of find with the descriptor's
operation kind, whose id no other candidate of find carries, is handed over
whatever its dtypes are. The descriptor's operand dtypes are passed to the model
as arguments. On the handle's device the call is decided by the model the tag
routes to, called with these candidates and arguments. -/
theorem initContractionPlan_candidate_filter (models : SelectionModels)
    (currentDevice : HipDevice) (handle : hiptensorHandle_t)
    (plan : hiptensorContractionPlan_t) (desc : hiptensorContractionDescriptor_t)
    (find : hiptensorContractionFind_t) (workspaceSize : Nat) :
    (∀ c ∈ planCandidates desc find,
        c.opId = desc.mContractionOpId ∧ c ∈ find.mCandidates)
    ∧ (∀ c ∈ find.mCandidates, c.opId ≠ desc.mContractionOpId →
        c ∉ planCandidates desc find)
    ∧ (∀ c ∈ find.mCandidates, c.opId = desc.mContractionOpId →
        (∀ c2 ∈ find.mCandidates, c2.uid = c.uid → c2 = c) →
        c ∈ planCandidates desc find)
    ∧ ((selectionArgs desc workspaceSize).ADataType = (desc.tensorDesc 0).mType
      ∧ (selectionArgs desc workspaceSize).BDataType = (desc.tensorDesc 1).mType
      ∧ (selectionArgs desc workspaceSize).DDataType = (desc.tensorDesc 2).mType
      ∧ (selectionArgs desc workspaceSize).EDataType = (desc.tensorDesc 3).mType)
    ∧ (currentDevice.getDeviceId = handle.deviceId →
        (find.mSelectionAlgorithm = HIPTENSOR_ALGO_DEFAULT
            ∨ find.mSelectionAlgorithm = HIPTENSOR_ALGO_DEFAULT_PATIENT →
          hiptensorInitContractionPlan models currentDevice (some handle) (some plan)
              (some desc) (some find) workspaceSize
            = if (models.bruteForceModel (planCandidates desc find)
                  (selectionArgs desc workspaceSize)).1 ≠ HIPTENSOR_STATUS_SUCCESS then
                ((models.bruteForceModel (planCandidates desc find)
                  (selectionArgs desc workspaceSize)).1, some plan)
              else
                (HIPTENSOR_STATUS_SUCCESS,
                  some ⟨desc, (models.bruteForceModel (planCandidates desc find)
                    (selectionArgs desc workspaceSize)).2⟩))
        ∧ (find.mSelectionAlgorithm = HIPTENSOR_ALGO_ACTOR_CRITIC →
          hiptensorInitContractionPlan models currentDevice (some handle) (some plan)
              (some desc) (some find) workspaceSize
            = if (models.actorCriticModel (planCandidates desc find)
                  (selectionArgs desc workspaceSize)).1 ≠ HIPTENSOR_STATUS_SUCCESS then
                ((models.actorCriticModel (planCandidates desc find)
                  (selectionArgs desc workspaceSize)).1, some plan)
              else
                (HIPTENSOR_STATUS_SUCCESS,
                  some ⟨desc, (models.actorCriticModel (planCandidates desc find)
                    (selectionArgs desc workspaceSize)).2⟩))) := by
  have hmem : ∀ c ∈ planCandidates desc find,
      c.opId = desc.mContractionOpId ∧ c ∈ find.mCandidates := by
    intro c hc
    simp only [planCandidates, Query.solutions, Query.queryOp, Query.ofCandidates,
      List.mem_filter, decide_eq_true_eq] at hc
    refine ⟨hc.2, ?_⟩
    rcases foldl_addSolution_mem _ _ c hc.1 with h | h
    · simp at h
    · exact h
  refine ⟨hmem, ?_, ?_, ⟨rfl, rfl, rfl, rfl⟩, ?_⟩
  · intro c _ hne hc
    exact hne (hmem c hc).1
  · intro c hc hop huid
    obtain ⟨x, hx, hxu⟩ := foldl_addSolution_key_present find.mCandidates [] c hc
    have hxm : x ∈ find.mCandidates := by
      rcases foldl_addSolution_mem _ _ x hx with h | h
      · simp at h
      · exact h
    have hxc : x = c := huid x hxm hxu
    rw [hxc] at hx
    simp only [planCandidates, Query.solutions, Query.queryOp, Query.ofCandidates,
      List.mem_filter, decide_eq_true_eq]
    exact ⟨hx, hop⟩
  · intro hdev
    refine ⟨?_, ?_⟩
    · intro halgo
      simp only [hiptensorInitContractionPlan, hdev, ne_eq, not_true_eq_false, if_false,
        halgo, if_true]
    · intro halgo
      have hac : ¬ (HIPTENSOR_ALGO_ACTOR_CRITIC = HIPTENSOR_ALGO_DEFAULT
          ∨ HIPTENSOR_ALGO_ACTOR_CRITIC = HIPTENSOR_ALGO_DEFAULT_PATIENT) := by decide
      simp only [hiptensorInitContractionPlan, hdev, ne_eq, not_true_eq_false, if_false,
        halgo, if_neg hac, if_true]

/-- Witness of C21 (amended): of a scale candidate, a float bilinear candidate and a
double bilinear candidate, the two bilinear ones are handed over for the float
bilinear sample descriptor. -/
theorem initContractionPlan_candidate_filter_witness :
    (planCandidates sampleDesc
        ⟨HIPTENSOR_ALGO_DEFAULT,
          [catalogSolution 2 HIP_R_32F NONE_TYPE ContractionOpId_t.SCALE,
            catalogSolution 3 1 1 ContractionOpId_t.BILINEAR,
            catalogSolution 1 HIP_R_32F HIP_R_32F ContractionOpId_t.BILINEAR]⟩).map
        (fun c => (c.uid, c.typeA, c.opId)) = [(1, 0, 1), (3, 1, 1)]
    ∧ catalogSolution 3 1 1 ContractionOpId_t.BILINEAR
        ∈ planCandidates sampleDesc
          ⟨HIPTENSOR_ALGO_DEFAULT,
            [catalogSolution 2 HIP_R_32F NONE_TYPE ContractionOpId_t.SCALE,
              catalogSolution 3 1 1 ContractionOpId_t.BILINEAR,
              catalogSolution 1 HIP_R_32F HIP_R_32F ContractionOpId_t.BILINEAR]⟩ :=
  ⟨by decide,
    (initContractionPlan_candidate_filter firstCandidateModels ⟨0, true⟩ ⟨0⟩
      ⟨sampleDesc, none⟩ sampleDesc
      ⟨HIPTENSOR_ALGO_DEFAULT,
        [catalogSolution 2 HIP_R_32F NONE_TYPE ContractionOpId_t.SCALE,
          catalogSolution 3 1 1 ContractionOpId_t.BILINEAR,
          catalogSolution 1 HIP_R_32F HIP_R_32F ContractionOpId_t.BILINEAR]⟩ 0).2.2.1
      (catalogSolution 3 1 1 ContractionOpId_t.BILINEAR)
      (by simp) rfl
      (by
        intro c2 hc2 hu
        simp only [List.mem_cons, List.mem_singleton, List.not_mem_nil, or_false] at hc2
        rcases hc2 with h | h | h
        · rw [h] at hu; exact absurd hu (by decide)
        · exact h
        · rw [h] at hu; exact absurd hu (by decide))⟩

/-- C22: for every descriptor, candidate list and workspace size the call with
`HIPTENSOR_ALGO_DEFAULT_PATIENT` returns the same status and plan as with
`HIPTENSOR_ALGO_DEFAULT`: on the handle's device either call is decided by the
brute-force model called with the same filtered candidates and the same
arguments. The call with `HIPTENSOR_ALGO_ACTOR_CRITIC` is decided by the heuristic
model called with these candidates and arguments and does not depend on the
brute-force model; under every other tag the call does not depend on the
heuristic model. -/
theorem initContractionPlan_patient_eq_default (models : SelectionModels)
    (currentDevice : HipDevice) (handle : Option hiptensorHandle_t)
    (plan : Option hiptensorContractionPlan_t)
    (desc : Option hiptensorContractionDescriptor_t)
    (candidates : List ContractionSolution) (workspaceSize : Nat) :
    hiptensorInitContractionPlan models currentDevice handle plan desc
        (some ⟨HIPTENSOR_ALGO_DEFAULT_PATIENT, candidates⟩) workspaceSize
      = hiptensorInitContractionPlan models currentDevice handle plan desc
        (some ⟨HIPTENSOR_ALGO_DEFAULT, candidates⟩) workspaceSize
    ∧ (∀ d : hiptensorContractionDescriptor_t,
        planCandidates d ⟨HIPTENSOR_ALGO_DEFAULT_PATIENT, candidates⟩
          = planCandidates d ⟨HIPTENSOR_ALGO_DEFAULT, candidates⟩
        ∧ planCandidates d ⟨HIPTENSOR_ALGO_ACTOR_CRITIC, candidates⟩
          = planCandidates d ⟨HIPTENSOR_ALGO_DEFAULT, candidates⟩)
    ∧ (∀ (h : hiptensorHandle_t) (p : hiptensorContractionPlan_t)
        (d : hiptensorContractionDescriptor_t),
        currentDevice.getDeviceId = h.deviceId →
        (hiptensorInitContractionPlan models currentDevice (some h) (some p) (some d)
            (some ⟨HIPTENSOR_ALGO_DEFAULT_PATIENT, candidates⟩) workspaceSize
          = if (models.bruteForceModel (planCandidates d ⟨HIPTENSOR_ALGO_DEFAULT, candidates⟩)
                (selectionArgs d workspaceSize)).1 ≠ HIPTENSOR_STATUS_SUCCESS then
              ((models.bruteForceModel (planCandidates d ⟨HIPTENSOR_ALGO_DEFAULT, candidates⟩)
                (selectionArgs d workspaceSize)).1, some p)
            else
              (HIPTENSOR_STATUS_SUCCESS,
                some ⟨d, (models.bruteForceModel
                  (planCandidates d ⟨HIPTENSOR_ALGO_DEFAULT, candidates⟩)
                  (selectionArgs d workspaceSize)).2⟩))
        ∧ (hiptensorInitContractionPlan models currentDevice (some h) (some p) (some d)
            (some ⟨HIPTENSOR_ALGO_DEFAULT, candidates⟩) workspaceSize
          = if (models.bruteForceModel (planCandidates d ⟨HIPTENSOR_ALGO_DEFAULT, candidates⟩)
                (selectionArgs d workspaceSize)).1 ≠ HIPTENSOR_STATUS_SUCCESS then
              ((models.bruteForceModel (planCandidates d ⟨HIPTENSOR_ALGO_DEFAULT, candidates⟩)
                (selectionArgs d workspaceSize)).1, some p)
            else
              (HIPTENSOR_STATUS_SUCCESS,
                some ⟨d, (models.bruteForceModel
                  (planCandidates d ⟨HIPTENSOR_ALGO_DEFAULT, candidates⟩)
                  (selectionArgs d workspaceSize)).2⟩))
        ∧ (hiptensorInitContractionPlan models currentDevice (some h) (some p) (some d)
            (some ⟨HIPTENSOR_ALGO_ACTOR_CRITIC, candidates⟩) workspaceSize
          = if (models.actorCriticModel
                (planCandidates d ⟨HIPTENSOR_ALGO_DEFAULT, candidates⟩)
                (selectionArgs d workspaceSize)).1 ≠ HIPTENSOR_STATUS_SUCCESS then
              ((models.actorCriticModel
                (planCandidates d ⟨HIPTENSOR_ALGO_DEFAULT, candidates⟩)
                (selectionArgs d workspaceSize)).1, some p)
            else
              (HIPTENSOR_STATUS_SUCCESS,
                some ⟨d, (models.actorCriticModel
                  (planCandidates d ⟨HIPTENSOR_ALGO_DEFAULT, candidates⟩)
                  (selectionArgs d workspaceSize)).2⟩)))
    ∧ (∀ (algo : Int) (other : SelectionModels), algo ≠ HIPTENSOR_ALGO_ACTOR_CRITIC →
        other.bruteForceModel = models.bruteForceModel →
        hiptensorInitContractionPlan other currentDevice handle plan desc
            (some ⟨algo, candidates⟩) workspaceSize
          = hiptensorInitContractionPlan models currentDevice handle plan desc
            (some ⟨algo, candidates⟩) workspaceSize)
    ∧ (∀ other : SelectionModels, other.actorCriticModel = models.actorCriticModel →
        hiptensorInitContractionPlan other currentDevice handle plan desc
            (some ⟨HIPTENSOR_ALGO_ACTOR_CRITIC, candidates⟩) workspaceSize
          = hiptensorInitContractionPlan models currentDevice handle plan desc
            (some ⟨HIPTENSOR_ALGO_ACTOR_CRITIC, candidates⟩) workspaceSize) := by
  have hac : ¬ (HIPTENSOR_ALGO_ACTOR_CRITIC = HIPTENSOR_ALGO_DEFAULT
      ∨ HIPTENSOR_ALGO_ACTOR_CRITIC = HIPTENSOR_ALGO_DEFAULT_PATIENT) := by decide
  refine ⟨?_, fun d => ⟨rfl, rfl⟩, ?_, ?_, ?_⟩
  · cases handle <;> cases plan <;> cases desc <;>
      simp [hiptensorInitContractionPlan, planCandidates, HIPTENSOR_ALGO_DEFAULT,
        HIPTENSOR_ALGO_DEFAULT_PATIENT]
  · intro h p d hdev
    refine ⟨?_, ?_, ?_⟩
    · simp [hiptensorInitContractionPlan, hdev, planCandidates]
    · simp [hiptensorInitContractionPlan, hdev]
    · simp only [hiptensorInitContractionPlan, hdev, ne_eq, not_true_eq_false, if_false,
        if_neg hac, if_true]
      rfl
  · intro algo other hne hbf
    cases handle <;> cases plan <;> cases desc <;>
      simp [hiptensorInitContractionPlan, hne, hbf]
  · intro other hacm
    cases handle <;> cases plan <;> cases desc <;>
      simp [hiptensorInitContractionPlan, hac, hacm]

/-- C25: when `hiptensorInitContractionPlan` returns `SUCCESS`, the plan holds the
input descriptor and the winner left by the selection; with any other status the
plan is as before the call. The status is `NOT_INITIALIZED` for a null argument,
`ARCH_MISMATCH` on another device, and otherwise the status of the selection, which
is `INTERNAL_ERROR` when find's algorithm tag matches neither strategy. -/
theorem initContractionPlan_atomic (models : SelectionModels)
    (currentDevice : HipDevice) (handle : Option hiptensorHandle_t)
    (plan : Option hiptensorContractionPlan_t)
    (desc : Option hiptensorContractionDescriptor_t)
    (find : Option hiptensorContractionFind_t) (workspaceSize : Nat) :
    ((hiptensorInitContractionPlan models currentDevice handle plan desc find
          workspaceSize).1 = HIPTENSOR_STATUS_SUCCESS →
        ∃ h p d f, handle = some h ∧ plan = some p ∧ desc = some d ∧ find = some f
          ∧ (runSelection models d f workspaceSize).1 = HIPTENSOR_STATUS_SUCCESS
          ∧ (hiptensorInitContractionPlan models currentDevice handle plan desc find
              workspaceSize).2 = some ⟨d, (runSelection models d f workspaceSize).2⟩)
    ∧ ((hiptensorInitContractionPlan models currentDevice handle plan desc find
          workspaceSize).1 ≠ HIPTENSOR_STATUS_SUCCESS →
        (hiptensorInitContractionPlan models currentDevice handle plan desc find
          workspaceSize).2 = plan)
    ∧ (handle = none ∨ plan = none ∨ desc = none ∨ find = none →
        (hiptensorInitContractionPlan models currentDevice handle plan desc find
          workspaceSize).1 = HIPTENSOR_STATUS_NOT_INITIALIZED)
    ∧ (∀ h p d f, handle = some h → plan = some p → desc = some d → find = some f →
        (currentDevice.getDeviceId ≠ h.deviceId →
          (hiptensorInitContractionPlan models currentDevice handle plan desc find
            workspaceSize).1 = HIPTENSOR_STATUS_ARCH_MISMATCH)
        ∧ (currentDevice.getDeviceId = h.deviceId →
          (hiptensorInitContractionPlan models currentDevice handle plan desc find
            workspaceSize).1 = (runSelection models d f workspaceSize).1)
        ∧ (f.mSelectionAlgorithm ≠ HIPTENSOR_ALGO_DEFAULT →
          f.mSelectionAlgorithm ≠ HIPTENSOR_ALGO_DEFAULT_PATIENT →
          f.mSelectionAlgorithm ≠ HIPTENSOR_ALGO_ACTOR_CRITIC →
          runSelection models d f workspaceSize = (HIPTENSOR_STATUS_INTERNAL_ERROR, none))) := by
  have hneither : ∀ (d : hiptensorContractionDescriptor_t) (f : hiptensorContractionFind_t),
      f.mSelectionAlgorithm ≠ HIPTENSOR_ALGO_DEFAULT →
      f.mSelectionAlgorithm ≠ HIPTENSOR_ALGO_DEFAULT_PATIENT →
      f.mSelectionAlgorithm ≠ HIPTENSOR_ALGO_ACTOR_CRITIC →
      runSelection models d f workspaceSize = (HIPTENSOR_STATUS_INTERNAL_ERROR, none) := by
    intro d f h1 h2 h3
    simp [runSelection, h1, h2, h3]
  cases handle with
  | none => simp [hiptensorInitContractionPlan]
  | some h =>
    cases plan with
    | none => simp [hiptensorInitContractionPlan]
    | some p =>
      cases desc with
      | none => simp [hiptensorInitContractionPlan]
      | some d =>
        cases find with
        | none => simp [hiptensorInitContractionPlan]
        | some f =>
          by_cases hdev : currentDevice.getDeviceId = h.deviceId
          · rw [initContractionPlan_eq models currentDevice h p d f workspaceSize hdev]
            by_cases hs : (runSelection models d f workspaceSize).1 = HIPTENSOR_STATUS_SUCCESS
            · refine ⟨fun _ => ⟨h, p, d, f, rfl, rfl, rfl, rfl, hs, by simp [hs]⟩,
                fun hne => absurd (by simp [hs]) hne, fun hnull => by simp at hnull, ?_⟩
              intro h2 p2 d2 f2 e1 e2 e3 e4
              cases e1; cases e2; cases e3; cases e4
              exact ⟨fun hne => absurd hdev hne, fun _ => by simp [hs], hneither d f⟩
            · refine ⟨fun hsucc => by simp [hs] at hsucc,
                fun _ => by simp [hs], fun hnull => by simp at hnull, ?_⟩
              intro h2 p2 d2 f2 e1 e2 e3 e4
              cases e1; cases e2; cases e3; cases e4
              exact ⟨fun hne => absurd hdev hne, fun _ => by simp [hs], hneither d f⟩
          · have hres : hiptensorInitContractionPlan models currentDevice (some h) (some p)
                (some d) (some f) workspaceSize = (HIPTENSOR_STATUS_ARCH_MISMATCH, some p) := by
              simp [hiptensorInitContractionPlan, hdev]
            rw [hres]
            refine ⟨fun hsucc => by simp at hsucc, fun _ => rfl,
              fun hnull => by simp at hnull, ?_⟩
            intro h2 p2 d2 f2 e1 e2 e3 e4
            cases e1; cases e2; cases e3; cases e4
            exact ⟨fun _ => rfl, fun he => absurd he hdev, hneither d f⟩


/-! ## Execution: order of the checks -/

/-- C24: the status of `hiptensorContraction` is decided by the first failing
check in the order null handle or plan (`NOT_INITIALIZED`), null `alpha`, `A`,
`B` or `D` (`INVALID_VALUE`), plan without a solution (`INTERNAL_ERROR`), device
mismatch (`ARCH_MISMATCH`), argument initialisation reporting unsupported
(`INTERNAL_ERROR`), solution workspace larger than the supplied size
(`INSUFFICIENT_WORKSPACE`), and `SUCCESS` otherwise. The solution is invoked
exactly once, on the caller's stream, when the status is `SUCCESS` and not at
all otherwise; with a null `beta` and a null `C` a call that passes every check
still succeeds. -/
theorem contraction_first_failing_check (currentDevice : HipDevice)
    (handle : Option hiptensorHandle_t) (plan : Option hiptensorContractionPlan_t)
    (alpha A B beta C D workspace : VoidPtr) (workspaceSize stream : Nat) :
    (handle = none ∨ plan = none →
        (hiptensorContraction currentDevice handle plan alpha A B beta C D workspace
          workspaceSize stream).1 = HIPTENSOR_STATUS_NOT_INITIALIZED)
    ∧ (∀ h p, handle = some h → plan = some p →
        (alpha = none ∨ A = none ∨ B = none ∨ D = none →
          (hiptensorContraction currentDevice handle plan alpha A B beta C D workspace
            workspaceSize stream).1 = HIPTENSOR_STATUS_INVALID_VALUE)
        ∧ (alpha ≠ none → A ≠ none → B ≠ none → D ≠ none →
          (p.mSolution = none →
            (hiptensorContraction currentDevice handle plan alpha A B beta C D workspace
              workspaceSize stream).1 = HIPTENSOR_STATUS_INTERNAL_ERROR)
          ∧ (∀ sol, p.mSolution = some sol →
            (currentDevice.getDeviceId ≠ h.deviceId →
              (hiptensorContraction currentDevice handle plan alpha A B beta C D workspace
                workspaceSize stream).1 = HIPTENSOR_STATUS_ARCH_MISMATCH)
            ∧ (currentDevice.getDeviceId = h.deviceId →
              (sol.initArgs (contractionCall p.mContractionDesc alpha A B beta C D workspace)
                  = false →
                (hiptensorContraction currentDevice handle plan alpha A B beta C D workspace
                  workspaceSize stream).1 = HIPTENSOR_STATUS_INTERNAL_ERROR)
              ∧ (sol.initArgs (contractionCall p.mContractionDesc alpha A B beta C D workspace)
                  = true →
                (sol.workspaceSize
                    (contractionCall p.mContractionDesc alpha A B beta C D workspace)
                    > workspaceSize →
                  (hiptensorContraction currentDevice handle plan alpha A B beta C D workspace
                    workspaceSize stream).1 = HIPTENSOR_STATUS_INSUFFICIENT_WORKSPACE)
                ∧ (sol.workspaceSize
                    (contractionCall p.mContractionDesc alpha A B beta C D workspace)
                    ≤ workspaceSize →
                  (hiptensorContraction currentDevice handle plan alpha A B beta C D workspace
                    workspaceSize stream).1 = HIPTENSOR_STATUS_SUCCESS))))))
    ∧ ((hiptensorContraction currentDevice handle plan alpha A B beta C D workspace
          workspaceSize stream).2.count (Event.invoke stream)
        = if (hiptensorContraction currentDevice handle plan alpha A B beta C D workspace
            workspaceSize stream).1 = HIPTENSOR_STATUS_SUCCESS then 1 else 0)
    ∧ (∀ s, Event.invoke s ∈ (hiptensorContraction currentDevice handle plan alpha A B beta C D
          workspace workspaceSize stream).2 → s = stream)
    ∧ (∀ h desc sol, currentDevice.getDeviceId = h.deviceId →
        alpha ≠ none → A ≠ none → B ≠ none → D ≠ none →
        sol.initArgs (contractionCall desc alpha A B none none D workspace) = true →
        sol.workspaceSize (contractionCall desc alpha A B none none D workspace)
          ≤ workspaceSize →
        (hiptensorContraction currentDevice (some h) (some ⟨desc, some sol⟩) alpha A B none none
          D workspace workspaceSize stream).1 = HIPTENSOR_STATUS_SUCCESS) := by
  have hnullBetaC : ∀ h desc sol, currentDevice.getDeviceId = h.deviceId →
      alpha ≠ none → A ≠ none → B ≠ none → D ≠ none →
      sol.initArgs (contractionCall desc alpha A B none none D workspace) = true →
      sol.workspaceSize (contractionCall desc alpha A B none none D workspace)
        ≤ workspaceSize →
      (hiptensorContraction currentDevice (some h) (some ⟨desc, some sol⟩) alpha A B none none
        D workspace workspaceSize stream).1 = HIPTENSOR_STATUS_SUCCESS := by
    intro h desc sol hdev ha hA hB hD hinit hws
    simp [hiptensorContraction, ha, hA, hB, hD, hdev, hinit, not_lt.mpr hws]
  cases handle with
  | none => simpa [hiptensorContraction] using hnullBetaC
  | some h =>
    cases plan with
    | none => simpa [hiptensorContraction] using hnullBetaC
    | some p =>
      refine ⟨fun hnull => by simp at hnull, ?_, ?_, ?_, hnullBetaC⟩
      · intro h2 p2 e1 e2
        cases e1; cases e2
        refine ⟨fun hn => by simp [hiptensorContraction, hn], ?_⟩
        intro ha hA hB hD
        have hg : ¬ (alpha = none ∨ A = none ∨ B = none ∨ D = none) := by
          simp [ha, hA, hB, hD]
        refine ⟨fun hsol => by simp [hiptensorContraction, hg, hsol], ?_⟩
        intro sol hsol
        refine ⟨fun hdev => by simp [hiptensorContraction, hg, hsol, hdev], ?_⟩
        intro hdev
        refine ⟨fun hinit => by simp [hiptensorContraction, hg, hsol, hdev, hinit], ?_⟩
        intro hinit
        refine ⟨fun hws => by simp [hiptensorContraction, hg, hsol, hdev, hinit, hws], ?_⟩
        intro hws
        simp [hiptensorContraction, hg, hsol, hdev, hinit, not_lt.mpr hws]
      · by_cases hg : alpha = none ∨ A = none ∨ B = none ∨ D = none
        · simp [hiptensorContraction, hg]
        · cases hsol : p.mSolution with
          | none => simp [hiptensorContraction, hg, hsol]
          | some sol =>
            by_cases hdev : currentDevice.getDeviceId = h.deviceId
            · by_cases hinit : sol.initArgs
                  (contractionCall p.mContractionDesc alpha A B beta C D workspace) = true
              · by_cases hws : workspaceSize < sol.workspaceSize
                    (contractionCall p.mContractionDesc alpha A B beta C D workspace)
                · simp [hiptensorContraction, hg, hsol, hdev, hinit, hws]
                · simp [hiptensorContraction, hg, hsol, hdev, hinit, hws, List.count_cons]
              · simp [hiptensorContraction, hg, hsol, hdev, hinit]
            · simp [hiptensorContraction, hg, hsol, hdev]
      · intro s
        by_cases hg : alpha = none ∨ A = none ∨ B = none ∨ D = none
        · simp [hiptensorContraction, hg]
        · cases hsol : p.mSolution with
          | none => simp [hiptensorContraction, hg, hsol]
          | some sol =>
            by_cases hdev : currentDevice.getDeviceId = h.deviceId
            · by_cases hinit : sol.initArgs
                  (contractionCall p.mContractionDesc alpha A B beta C D workspace) = true
              · by_cases hws : workspaceSize < sol.workspaceSize
                    (contractionCall p.mContractionDesc alpha A B beta C D workspace)
                · simp [hiptensorContraction, hg, hsol, hdev, hinit, hws]
                · simp [hiptensorContraction, hg, hsol, hdev, hinit, hws]
              · simp [hiptensorContraction, hg, hsol, hdev, hinit]
            · simp [hiptensorContraction, hg, hsol, hdev]


/-! ## Workspace negotiation: status and unsupported candidates -/

/-- Candidates whose argument initialisation fails can be dropped from the loop. -/
theorem workspaceLoop_filter_supported (pref : hiptensorWorksizePreference_t)
    (call : InitArgsCall) (cands : List ContractionSolution) :
    ∀ ws : Nat, workspaceLoop pref call ws cands
      = workspaceLoop pref call ws (cands.filter (fun s => s.initArgs call)) := by
  induction cands with
  | nil => intro ws; rfl
  | cons c rest ih =>
    intro ws
    by_cases hc : c.initArgs call = true
    · have hf : (c :: rest).filter (fun s => s.initArgs call)
          = c :: rest.filter (fun s => s.initArgs call) := by
        simp [List.filter, hc]
      rw [hf, workspaceLoop_cons, workspaceLoop_cons]
      exact ih _
    · have hf : (c :: rest).filter (fun s => s.initArgs call)
          = rest.filter (fun s => s.initArgs call) := by
        simp [List.filter, hc]
      rw [hf, workspaceLoop_cons]
      have hstep : workspaceStep pref call ws c = ws := by
        simp only [Bool.not_eq_true] at hc
        simp [workspaceStep, hc]
      rw [hstep]
      exact ih ws

/-- C30: with non-null handle, descriptor, find and output pointer,
`hiptensorContractionGetWorkspaceSize` returns `HIPTENSOR_STATUS_SUCCESS` for
every preference and every candidate list; the written size is the one obtained
from the candidates whose argument initialisation succeeds alone, and it is 0
when the list is empty or no candidate supports the shape. -/
theorem getWorkspaceSize_always_succeeds (locals : ProbeLocals)
    (handle : hiptensorHandle_t) (desc : hiptensorContractionDescriptor_t)
    (find : hiptensorContractionFind_t) (pref : hiptensorWorksizePreference_t) (v : Nat) :
    ∃ W : Nat,
      hiptensorContractionGetWorkspaceSize locals (some handle) (some desc) (some find) pref
          (some v) = (HIPTENSOR_STATUS_SUCCESS, some W)
      ∧ hiptensorContractionGetWorkspaceSize locals (some handle) (some desc)
          (some ⟨find.mSelectionAlgorithm,
            find.mCandidates.filter (fun s => s.initArgs (probeCall desc locals))⟩) pref
          (some v) = (HIPTENSOR_STATUS_SUCCESS, some W)
      ∧ (find.mCandidates = [] → W = 0)
      ∧ ((∀ s ∈ find.mCandidates, s.initArgs (probeCall desc locals) = false) → W = 0) := by
  refine ⟨_, rfl, ?_, ?_, ?_⟩
  · simp only [hiptensorContractionGetWorkspaceSize]
    rw [← workspaceLoop_filter_supported]
  · intro hnil
    rw [hnil]; rfl
  · intro hnone
    exact workspaceLoop_none_supported pref _ _ hnone 0

/-! ## Tensor descriptor constructors -/

theorem calculateStrides_length (lens : List Nat) :
    (HtTypes.hiptensorCalculateStrides lens).length = lens.length := by
  induction lens with
  | nil => rfl
  | cons x rest ih => simp [HtTypes.hiptensorCalculateStrides, ih]

theorem calculateStrides_get (lens : List Nat) :
    ∀ i : Nat, i < lens.length →
      (HtTypes.hiptensorCalculateStrides lens).get? i
        = some ((lens.drop (i + 1)).prod % 2 ^ 64) := by
  induction lens with
  | nil => intro i hi; simp at hi
  | cons x rest ih =>
    intro i hi
    cases i with
    | zero => simp [HtTypes.hiptensorCalculateStrides]
    | succ j =>
      have hj : j < rest.length := by simpa using hi
      simpa [HtTypes.hiptensorCalculateStrides] using ih j hj

/-- C23, counterexample: the (lengths, strides) constructor called with two
lengths and one stride stores both vectors as given, so the descriptor has two
lengths and one stride. -/
theorem tensorDescriptor_lens_strides_mismatch :
    (HtTypes.hiptensorTensorDescriptor_t.ofLensStrides [2, 3] [1]
        HtTypes.hiptensorDataType_t.HIPTENSOR_R_32F).mLens = [2, 3]
    ∧ (HtTypes.hiptensorTensorDescriptor_t.ofLensStrides [2, 3] [1]
        HtTypes.hiptensorDataType_t.HIPTENSOR_R_32F).mStrides = [1]
    ∧ (HtTypes.hiptensorTensorDescriptor_t.ofLensStrides [2, 3] [1]
        HtTypes.hiptensorDataType_t.HIPTENSOR_R_32F).mStrides.length
      ≠ (HtTypes.hiptensorTensorDescriptor_t.ofLensStrides [2, 3] [1]
        HtTypes.hiptensorDataType_t.HIPTENSOR_R_32F).mLens.length := by
  decide

/-- C23, amended: the lengths-only constructor yields as many strides as
lengths, stride `i` being the product of the lengths after position `i`
(row-major, in `size_t` arithmetic). The (lengths, strides) constructor stores
both input vectors as given, whatever their sizes, so its descriptor has as many
strides as lengths exactly when the two input vectors have the same length. -/
theorem tensorDescriptor_strides_count (lens strides : List Int)
    (t : HtTypes.hiptensorDataType_t) :
    (HtTypes.hiptensorTensorDescriptor_t.ofLens lens t).mLens = lens.map HtTypes.toSizeT
    ∧ (HtTypes.hiptensorTensorDescriptor_t.ofLens lens t).mStrides.length
        = (HtTypes.hiptensorTensorDescriptor_t.ofLens lens t).mLens.length
    ∧ (∀ i : Nat, i < lens.length →
        (HtTypes.hiptensorTensorDescriptor_t.ofLens lens t).mStrides.get? i
          = some ((((HtTypes.hiptensorTensorDescriptor_t.ofLens lens t).mLens).drop
              (i + 1)).prod % 2 ^ 64))
    ∧ (HtTypes.hiptensorTensorDescriptor_t.ofLensStrides lens strides t).mLens
        = lens.map HtTypes.toSizeT
    ∧ (HtTypes.hiptensorTensorDescriptor_t.ofLensStrides lens strides t).mStrides
        = strides.map HtTypes.toSizeT
    ∧ ((HtTypes.hiptensorTensorDescriptor_t.ofLensStrides lens strides t).mStrides.length
          = (HtTypes.hiptensorTensorDescriptor_t.ofLensStrides lens strides t).mLens.length
        ↔ strides.length = lens.length) := by
  refine ⟨rfl, ?_, ?_, rfl, rfl, ?_⟩
  · simp [HtTypes.hiptensorTensorDescriptor_t.ofLens, calculateStrides_length]
  · intro i hi
    simp only [HtTypes.hiptensorTensorDescriptor_t.ofLens]
    exact calculateStrides_get _ i (by simpa using hi)
  · simp [HtTypes.hiptensorTensorDescriptor_t.ofLensStrides]

/-- C23, witness: lengths `[5, 6, 3, 4]` give row-major strides
`[72, 12, 4, 1]`; the two-vector constructor on these inputs has four strides for
four lengths, and on one length with three strides it keeps all three. -/
theorem tensorDescriptor_strides_count_witness :
    (HtTypes.hiptensorTensorDescriptor_t.ofLens [5, 6, 3, 4]
        HtTypes.hiptensorDataType_t.HIPTENSOR_R_32F).mStrides = [72, 12, 4, 1]
    ∧ (HtTypes.hiptensorTensorDescriptor_t.ofLensStrides [2] [1, 2, 3]
        HtTypes.hiptensorDataType_t.HIPTENSOR_R_32F).mStrides = [1, 2, 3]
    ∧ (HtTypes.hiptensorTensorDescriptor_t.ofLensStrides [5, 6, 3, 4] [72, 12, 4, 1]
        HtTypes.hiptensorDataType_t.HIPTENSOR_R_32F).mStrides.length
      = (HtTypes.hiptensorTensorDescriptor_t.ofLensStrides [5, 6, 3, 4] [72, 12, 4, 1]
        HtTypes.hiptensorDataType_t.HIPTENSOR_R_32F).mLens.length :=
  ⟨by decide, by decide,
    (tensorDescriptor_strides_count [5, 6, 3, 4] [72, 12, 4, 1]
      HtTypes.hiptensorDataType_t.HIPTENSOR_R_32F).2.2.2.2.2.mpr rfl⟩

/-! ## Complex decomposition: effects of a run -/

/-- The time a real run returns is the kernel's time for its argument. -/
theorem decompOp_run_elapsed {R : Type} [CommRing R] (op : DecompOp R) (arg : DecompArg R)
    (mem out : Planes R) (t : Nat) (h : op.Run arg mem = some (out, t)) :
    t = op.elapsed arg := by
  unfold DecompOp.Run at h
  split at h
  · split at h
    · exact absurd h (by simp)
    · split at h
      · simp only [Option.some.injEq, Prod.mk.injEq] at h
        exact h.2.symm
      · split at h
        · simp only [Option.some.injEq, Prod.mk.injEq] at h
          exact h.2.symm
        · exact absurd h (by simp)
  · exact absurd h (by simp)

/-- A real run changes the buffer behind its output pointer and nothing else. -/
theorem decompOp_run_frame {R : Type} [CommRing R] (op : DecompOp R) (arg : DecompArg R)
    (mem out : Planes R) (t : Nat) (h : op.Run arg mem = some (out, t)) :
    ∃ e v, arg.p_e = some e ∧ out = mem.set e v := by
  unfold DecompOp.Run at h
  split at h
  · rename_i a b e ha hb he
    split at h
    · exact absurd h (by simp)
    · split at h
      · simp only [Option.some.injEq, Prod.mk.injEq] at h
        exact ⟨e, _, he, h.1.symm⟩
      · split at h
        · simp only [Option.some.injEq, Prod.mk.injEq] at h
          exact ⟨e, _, he, h.1.symm⟩
        · exact absurd h (by simp)
  · exact absurd h (by simp)

theorem planes_get_set {R : Type} (m : Planes R) (e id : PlaneId) (v : DeviceArray R)
    (hne : id ≠ e) : (m.set e v).get id = m.get id := by
  cases e <;> cases id <;> first | rfl | exact absurd rfl hne

theorem planes_ptr_cases {R : Type} (m : Planes R) (id : PlaneId) :
    m.ptr id = none ∨ m.ptr id = some id := by
  unfold Planes.ptr
  split
  · exact Or.inr rfl
  · exact Or.inl rfl

/-- A real run whose output pointer is null, `E_real` or `E_imag` leaves the six
other buffers as they were. -/
theorem decompOp_run_frame_E {R : Type} [CommRing R] (op : DecompOp R) (arg : DecompArg R)
    (mem out : Planes R) (t : Nat) (h : op.Run arg mem = some (out, t))
    (hpe : arg.p_e = none ∨ arg.p_e = some PlaneId.E_real ∨ arg.p_e = some PlaneId.E_imag)
    (id : PlaneId) (h1 : id ≠ PlaneId.E_real) (h2 : id ≠ PlaneId.E_imag) :
    out.get id = mem.get id := by
  obtain ⟨e, v, he, hout⟩ := decompOp_run_frame op arg mem out t h
  rw [hout]
  apply planes_get_set
  rcases hpe with hp | hp | hp
  · rw [hp] at he; exact absurd he (by simp)
  · rw [hp] at he; cases he; exact h1
  · rw [hp] at he; cases he; exact h2

/-- The four real runs behind a successful run of the bilinear form. -/
theorem bilinearComplex_run_steps {R : Type} [CommRing R] (op : DecompOp R)
    (arg : BilinearComplex.Argument R) (out : Planes R) (t : Nat)
    (h : BilinearComplex.Invoker.Run op arg = some (out, t)) :
    ∃ a0 a1 a2 a3 s0 s1 s2,
      arg.mArgs.get? 0 = some a0 ∧ arg.mArgs.get? 1 = some a1
      ∧ arg.mArgs.get? 2 = some a2 ∧ arg.mArgs.get? 3 = some a3
      ∧ op.Run a0 arg.toPlanes = some s0 ∧ op.Run a1 s0.1 = some s1
      ∧ op.Run a2 s1.1 = some s2 ∧ op.Run a3 s2.1 = some (out, t) := by
  unfold BilinearComplex.Invoker.Run BilinearComplex.Argument.arg at h
  obtain ⟨a0, h0, h⟩ := Option.bind_eq_some.mp h
  obtain ⟨s0, hs0, h⟩ := Option.bind_eq_some.mp h
  obtain ⟨a1, h1, h⟩ := Option.bind_eq_some.mp h
  obtain ⟨s1, hs1, h⟩ := Option.bind_eq_some.mp h
  obtain ⟨a2, h2, h⟩ := Option.bind_eq_some.mp h
  obtain ⟨s2, hs2, h⟩ := Option.bind_eq_some.mp h
  obtain ⟨a3, h3, h⟩ := Option.bind_eq_some.mp h
  obtain ⟨s3, hs3, h⟩ := Option.bind_eq_some.mp h
  simp only [Option.some.injEq] at h
  rw [← h]
  exact ⟨a0, a1, a2, a3, s0, s1, s2, h0, h1, h2, h3, hs0, hs1, hs2, hs3⟩

/-- The four real runs behind a successful run of the scale form. -/
theorem scaleComplex_run_steps {R : Type} [CommRing R] (op : DecompOp R)
    (arg : ScaleComplex.Argument R) (out : Planes R) (t : Nat)
    (h : ScaleComplex.Invoker.Run op arg = some (out, t)) :
    ∃ a0 a1 a2 a3 s0 s1 s2,
      arg.mScaleArgs = some a0 ∧ arg.mBilinearArgs.get? 0 = some a1
      ∧ arg.mBilinearArgs.get? 1 = some a2 ∧ arg.mBilinearArgs.get? 2 = some a3
      ∧ op.Run a0 arg.toPlanes = some s0 ∧ op.Run a1 s0.1 = some s1
      ∧ op.Run a2 s1.1 = some s2 ∧ op.Run a3 s2.1 = some (out, t) := by
  unfold ScaleComplex.Invoker.Run at h
  obtain ⟨a0, h0, h⟩ := Option.bind_eq_some.mp h
  obtain ⟨s0, hs0, h⟩ := Option.bind_eq_some.mp h
  obtain ⟨a1, h1, h⟩ := Option.bind_eq_some.mp h
  obtain ⟨s1, hs1, h⟩ := Option.bind_eq_some.mp h
  obtain ⟨a2, h2, h⟩ := Option.bind_eq_some.mp h
  obtain ⟨s2, hs2, h⟩ := Option.bind_eq_some.mp h
  obtain ⟨a3, h3, h⟩ := Option.bind_eq_some.mp h
  obtain ⟨s3, hs3, h⟩ := Option.bind_eq_some.mp h
  simp only [Option.some.injEq] at h
  rw [← h]
  exact ⟨a0, a1, a2, a3, s0, s1, s2, h0, h1, h2, h3, hs0, hs1, hs2, hs3⟩

/-- C29: whatever `Invoker::Run` of the complex bilinear or complex scale operation
returns, its time is the time the real operation reports for the fourth
sub-argument alone; and over allocated buffers the run of the constructor's table
returns, for every real kernel, the time of the fourth sub-argument. -/
theorem complex_run_time_is_last {R : Type} [CommRing R] (op : DecompOp R)
    (barg : BilinearComplex.Argument R) (sarg : ScaleComplex.Argument R)
    (shape : DecompShape) (ar ai br bi dr di er ei : List R)
    (bcde : Bilinear R) (scde : Scale R) :
    (BilinearComplex.Invoker.Run op barg).map Prod.snd
        = (BilinearComplex.Invoker.Run op barg).bind
            (fun _ => (barg.arg 3).map op.elapsed)
    ∧ (ScaleComplex.Invoker.Run op sarg).map Prod.snd
        = (ScaleComplex.Invoker.Run op sarg).bind
            (fun _ => (sarg.mBilinearArgs.get? 2).map op.elapsed)
    ∧ (BilinearComplex.Invoker.Run op
          (BilinearComplex.Argument.ofPlanes shape
            ⟨some ar, some ai, some br, some bi, some dr, some di, some er, some ei⟩
            bcde)).map Prod.snd
        = some (op.elapsed (BilinearComplex.allocArgs shape
            ⟨some ar, some ai, some br, some bi, some dr, some di, some er, some ei⟩
            PlaneId.E_imag PlaneId.A_imag PlaneId.B_real PlaneId.E_imag bcde))
    ∧ (ScaleComplex.Invoker.Run op
          (ScaleComplex.Argument.ofPlanes shape
            ⟨some ar, some ai, some br, some bi, some dr, some di, some er, some ei⟩
            scde)).map Prod.snd
        = some (op.elapsed (ScaleComplex.allocBilinearArgs shape
            ⟨some ar, some ai, some br, some bi, some dr, some di, some er, some ei⟩
            PlaneId.E_imag PlaneId.A_imag PlaneId.B_real PlaneId.E_imag
            ⟨scde.scale_, 1⟩)) := by
  refine ⟨?_, ?_, rfl, rfl⟩
  · cases h : BilinearComplex.Invoker.Run op barg with
    | none => rfl
    | some r =>
      obtain ⟨out, t⟩ := r
      obtain ⟨_, _, _, a3, _, _, s2, _, _, _, h3, _, _, _, hr⟩ :=
        bilinearComplex_run_steps op barg out t h
      have h3b : barg.arg 3 = some a3 := h3
      simp only [Option.map_some', Option.some_bind, h3b]
      rw [decompOp_run_elapsed op a3 s2.1 out t hr]
  · cases h : ScaleComplex.Invoker.Run op sarg with
    | none => rfl
    | some r =>
      obtain ⟨out, t⟩ := r
      obtain ⟨_, _, _, a3, _, _, s2, _, _, _, h3, _, _, _, hr⟩ :=
        scaleComplex_run_steps op sarg out t h
      simp only [Option.map_some', Option.some_bind, h3]
      rw [decompOp_run_elapsed op a3 s2.1 out t hr]

/-- C29, witness: with a kernel whose four runs report 10, 20, 30 and 40, both
forms report 40. -/
theorem complex_run_time_is_last_witness :
    (BilinearComplex.Argument.ofPlanes dotShape splitPlanes (⟨1, 1⟩ : Bilinear Int)).mArgs.map
        timedOp.elapsed = [10, 20, 30, 40]
    ∧ (ScaleComplex.Argument.ofPlanes dotShapeScale splitPlanes (⟨1⟩ : Scale Int)).subArgs.map
        timedOp.elapsed = [10, 20, 30, 40]
    ∧ BilinearComplex.Invoker.Run timedOp
        (BilinearComplex.Argument.ofPlanes dotShape splitPlanes ⟨1, 1⟩)
      = some (⟨some [1, 3], some [2, 4], some [5, 7], some [6, 8], some [9], some [0],
          some [-9], some [68]⟩, 40)
    ∧ ScaleComplex.Invoker.Run timedOp
        (ScaleComplex.Argument.ofPlanes dotShapeScale splitPlanes ⟨1⟩)
      = some (⟨some [1, 3], some [2, 4], some [5, 7], some [6, 8], some [9], some [0],
          some [-18], some [68]⟩, 40)
    ∧ (BilinearComplex.Invoker.Run timedOp
          (BilinearComplex.Argument.ofPlanes dotShape
            ⟨some [1, 3], some [2, 4], some [5, 7], some [6, 8], some [9], some [0],
              some [5], some [0]⟩ ⟨1, 1⟩)).map Prod.snd
        = some (timedOp.elapsed (BilinearComplex.allocArgs dotShape
            ⟨some [1, 3], some [2, 4], some [5, 7], some [6, 8], some [9], some [0],
              some [5], some [0]⟩
            PlaneId.E_imag PlaneId.A_imag PlaneId.B_real PlaneId.E_imag ⟨1, 1⟩)) :=
  ⟨by decide, by decide, by decide, by decide,
    (complex_run_time_is_last timedOp
      (BilinearComplex.Argument.ofPlanes dotShape splitPlanes ⟨1, 1⟩)
      (ScaleComplex.Argument.ofPlanes dotShapeScale splitPlanes ⟨1⟩)
      dotShape [1, 3] [2, 4] [5, 7] [6, 8] [9] [0] [5] [0] ⟨1, 1⟩ ⟨1⟩).2.2.1⟩

/-! ## Complex decomposition: the bilinear table -/

/-- C26: the complex bilinear constructor builds exactly the four-entry table
`ofPlanes` over its own buffers; every entry carries the original lengths and
strides, the entries are bound in index order to the raw pointers of
(out `E_real`; in `A_real`, `B_real`, `D_real`), (out `E_real`; in `A_imag`,
`B_imag`, `E_real`), (out `E_imag`; in `A_real`, `B_imag`, `D_imag`) and
(out `E_imag`; in `A_imag`, `B_real`, `E_imag`), only entry 1 has its alpha
multiplied by `-1`, and `Invoker::Run` is the real runs of entries 0, 1, 2, 3
in that order, each on the buffers the previous one left. -/
theorem bilinearComplex_sub_arguments {R : Type} [CommRing R] (op : DecompOp R)
    (a b d e : ComplexGrid R) (shape : DecompShape) (cde : Bilinear R) (m : Planes R) :
    BilinearComplex.Argument.ctor a b d e shape cde
        = BilinearComplex.Argument.ofPlanes shape
            (BilinearComplex.Argument.ctor a b d e shape cde).toPlanes cde
    ∧ (BilinearComplex.Argument.ctor a b d e shape cde).mArgs.length = 4
    ∧ (BilinearComplex.Argument.ofPlanes shape m cde).mArgs.length = 4
    ∧ (∀ x ∈ (BilinearComplex.Argument.ofPlanes shape m cde).mArgs, x.shape = shape)
    ∧ (BilinearComplex.Argument.ofPlanes shape m cde).mArgs.map
          (fun x => (x.p_e, x.p_a, x.p_b, x.p_ds))
        = [ (m.ptr PlaneId.E_real, m.ptr PlaneId.A_real, m.ptr PlaneId.B_real,
              [m.ptr PlaneId.D_real]),
            (m.ptr PlaneId.E_real, m.ptr PlaneId.A_imag, m.ptr PlaneId.B_imag,
              [m.ptr PlaneId.E_real]),
            (m.ptr PlaneId.E_imag, m.ptr PlaneId.A_real, m.ptr PlaneId.B_imag,
              [m.ptr PlaneId.D_imag]),
            (m.ptr PlaneId.E_imag, m.ptr PlaneId.A_imag, m.ptr PlaneId.B_real,
              [m.ptr PlaneId.E_imag]) ]
    ∧ (BilinearComplex.Argument.ofPlanes shape m cde).mArgs.map (fun x => x.cde_element_op)
        = [ CDEElementwiseOperation.bilinear cde,
            CDEElementwiseOperation.bilinear ⟨cde.alpha_ * -1, cde.beta_⟩,
            CDEElementwiseOperation.bilinear cde,
            CDEElementwiseOperation.bilinear cde ]
    ∧ BilinearComplex.Invoker.Run op (BilinearComplex.Argument.ofPlanes shape m cde)
        = (op.Run (BilinearComplex.allocArgs shape m PlaneId.E_real PlaneId.A_real
              PlaneId.B_real PlaneId.D_real cde) m).bind fun s0 =>
          (op.Run (BilinearComplex.allocArgs shape m PlaneId.E_real PlaneId.A_imag
              PlaneId.B_imag PlaneId.E_real ⟨cde.alpha_ * -1, cde.beta_⟩) s0.1).bind fun s1 =>
          (op.Run (BilinearComplex.allocArgs shape m PlaneId.E_imag PlaneId.A_real
              PlaneId.B_imag PlaneId.D_imag cde) s1.1).bind fun s2 =>
          (op.Run (BilinearComplex.allocArgs shape m PlaneId.E_imag PlaneId.A_imag
              PlaneId.B_real PlaneId.E_imag cde) s2.1).bind fun s3 =>
          some (s3.1, s3.2) := by
  refine ⟨rfl, rfl, rfl, ?_, rfl, rfl, rfl⟩
  intro x hx
  simp only [BilinearComplex.Argument.ofPlanes, List.mem_cons, List.mem_singleton,
    List.not_mem_nil, or_false] at hx
  rcases hx with h | h | h | h <;> rw [h] <;> rfl

/-! ## Complex decomposition: what a run writes -/

/-- A real run on device memory is the real run on the Argument's buffers; the
caller's buffers are carried along unchanged. -/
theorem decompOp_runOnDevice_eq {R : Type} [CommRing R] (op : DecompOp R) (arg : DecompArg R)
    (a b d e : ComplexGrid R) (m : Planes R) :
    op.RunOnDevice arg ⟨a, b, d, e, m⟩
      = (op.Run arg m).map (fun r => (⟨a, b, d, e, r.1⟩, r.2)) := by
  obtain ⟨pa, pb, pds, pe, shape, cde⟩ := arg
  unfold DecompOp.RunOnDevice DecompOp.RunAt DecompOp.Run DecompArg.devicePointers
  cases pa with
  | none => simp
  | some ida =>
    cases pb with
    | none => cases h : m.get ida <;> simp [DeviceMemory.load, h]
    | some idb =>
      cases pe with
      | none => cases h1 : m.get ida <;> cases h2 : m.get idb <;> simp [DeviceMemory.load, h1, h2]
      | some ide =>
        cases h1 : m.get ida <;> cases h2 : m.get idb <;> cases h3 : m.get ide <;>
          cases cde <;> simp [DeviceMemory.load, DeviceMemory.store, h1, h2, h3]
        rcases pds with _ | ⟨_ | idd, rest⟩
        · simp
        · simp
        · cases h4 : m.get idd <;> simp [h4]

/-- The run of the bilinear form on device memory is its run on the Argument's
buffers; the caller's buffers are carried along unchanged. -/
theorem bilinearComplex_runOnDevice_eq {R : Type} [CommRing R] (op : DecompOp R)
    (arg : BilinearComplex.Argument R) (a b d e : ComplexGrid R) :
    BilinearComplex.Invoker.RunOnDevice op arg ⟨a, b, d, e, arg.toPlanes⟩
      = (BilinearComplex.Invoker.Run op arg).map (fun r => (⟨a, b, d, e, r.1⟩, r.2)) := by
  cases h0 : arg.mArgs.get? 0 with
  | none =>
    simp only [Option.some_bind, Option.none_bind, Option.map_some', Option.map_none',
      BilinearComplex.Invoker.RunOnDevice, BilinearComplex.Invoker.Run,
      BilinearComplex.Argument.arg, decompOp_runOnDevice_eq, h0]
  | some a0 =>
    cases r0 : op.Run a0 arg.toPlanes with
    | none =>
      simp only [Option.some_bind, Option.none_bind, Option.map_some', Option.map_none',
        BilinearComplex.Invoker.RunOnDevice, BilinearComplex.Invoker.Run,
        BilinearComplex.Argument.arg, decompOp_runOnDevice_eq, h0, r0]
    | some s0 =>
      obtain ⟨p0, t0⟩ := s0
      cases h1 : arg.mArgs.get? 1 with
      | none =>
        simp only [Option.some_bind, Option.none_bind, Option.map_some', Option.map_none',
          BilinearComplex.Invoker.RunOnDevice, BilinearComplex.Invoker.Run,
          BilinearComplex.Argument.arg, decompOp_runOnDevice_eq, h0, h1, r0]
      | some a1 =>
        cases r1 : op.Run a1 p0 with
        | none =>
          simp only [Option.some_bind, Option.none_bind, Option.map_some', Option.map_none',
            BilinearComplex.Invoker.RunOnDevice, BilinearComplex.Invoker.Run,
            BilinearComplex.Argument.arg, decompOp_runOnDevice_eq, h0, h1, r0, r1]
        | some s1 =>
          obtain ⟨p1, t1⟩ := s1
          cases h2 : arg.mArgs.get? 2 with
          | none =>
            simp only [Option.some_bind, Option.none_bind, Option.map_some', Option.map_none',
              BilinearComplex.Invoker.RunOnDevice, BilinearComplex.Invoker.Run,
              BilinearComplex.Argument.arg, decompOp_runOnDevice_eq, h0, h1, h2, r0, r1]
          | some a2 =>
            cases r2 : op.Run a2 p1 with
            | none =>
              simp only [Option.some_bind, Option.none_bind, Option.map_some', Option.map_none',
                BilinearComplex.Invoker.RunOnDevice, BilinearComplex.Invoker.Run,
                BilinearComplex.Argument.arg, decompOp_runOnDevice_eq, h0, h1, h2, r0, r1, r2]
            | some s2 =>
              obtain ⟨p2, t2⟩ := s2
              cases h3 : arg.mArgs.get? 3 with
              | none =>
                simp only [Option.some_bind, Option.none_bind, Option.map_some',
                  Option.map_none', BilinearComplex.Invoker.RunOnDevice,
                  BilinearComplex.Invoker.Run, BilinearComplex.Argument.arg,
                  decompOp_runOnDevice_eq, h0, h1, h2, h3, r0, r1, r2]
              | some a3 =>
                cases r3 : op.Run a3 p2 with
                | none =>
                  simp only [Option.some_bind, Option.none_bind, Option.map_some',
                    Option.map_none', BilinearComplex.Invoker.RunOnDevice,
                    BilinearComplex.Invoker.Run, BilinearComplex.Argument.arg,
                    decompOp_runOnDevice_eq, h0, h1, h2, h3, r0, r1, r2, r3]
                | some s3 =>
                  simp only [Option.some_bind, Option.none_bind, Option.map_some',
                    Option.map_none', BilinearComplex.Invoker.RunOnDevice,
                    BilinearComplex.Invoker.Run, BilinearComplex.Argument.arg,
                    decompOp_runOnDevice_eq, h0, h1, h2, h3, r0, r1, r2, r3]

/-- The run of the scale form on device memory is its run on the Argument's
buffers; the caller's buffers are carried along unchanged. -/
theorem scaleComplex_runOnDevice_eq {R : Type} [CommRing R] (op : DecompOp R)
    (arg : ScaleComplex.Argument R) (a b d e : ComplexGrid R) :
    ScaleComplex.Invoker.RunOnDevice op arg ⟨a, b, d, e, arg.toPlanes⟩
      = (ScaleComplex.Invoker.Run op arg).map (fun r => (⟨a, b, d, e, r.1⟩, r.2)) := by
  cases h0 : arg.mScaleArgs with
  | none =>
    simp only [Option.some_bind, Option.none_bind, Option.map_some', Option.map_none',
      ScaleComplex.Invoker.RunOnDevice, ScaleComplex.Invoker.Run, decompOp_runOnDevice_eq, h0]
  | some a0 =>
    cases r0 : op.Run a0 arg.toPlanes with
    | none =>
      simp only [Option.some_bind, Option.none_bind, Option.map_some', Option.map_none',
        ScaleComplex.Invoker.RunOnDevice, ScaleComplex.Invoker.Run, decompOp_runOnDevice_eq, h0,
        r0]
    | some s0 =>
      obtain ⟨p0, t0⟩ := s0
      cases h1 : arg.mBilinearArgs.get? 0 with
      | none =>
        simp only [Option.some_bind, Option.none_bind, Option.map_some', Option.map_none',
          ScaleComplex.Invoker.RunOnDevice, ScaleComplex.Invoker.Run, decompOp_runOnDevice_eq,
          h0, h1, r0]
      | some a1 =>
        cases r1 : op.Run a1 p0 with
        | none =>
          simp only [Option.some_bind, Option.none_bind, Option.map_some', Option.map_none',
            ScaleComplex.Invoker.RunOnDevice, ScaleComplex.Invoker.Run, decompOp_runOnDevice_eq,
            h0, h1, r0, r1]
        | some s1 =>
          obtain ⟨p1, t1⟩ := s1
          cases h2 : arg.mBilinearArgs.get? 1 with
          | none =>
            simp only [Option.some_bind, Option.none_bind, Option.map_some', Option.map_none',
              ScaleComplex.Invoker.RunOnDevice, ScaleComplex.Invoker.Run,
              decompOp_runOnDevice_eq, h0, h1, h2, r0, r1]
          | some a2 =>
            cases r2 : op.Run a2 p1 with
            | none =>
              simp only [Option.some_bind, Option.none_bind, Option.map_some', Option.map_none',
                ScaleComplex.Invoker.RunOnDevice, ScaleComplex.Invoker.Run,
                decompOp_runOnDevice_eq, h0, h1, h2, r0, r1, r2]
            | some s2 =>
              obtain ⟨p2, t2⟩ := s2
              cases h3 : arg.mBilinearArgs.get? 2 with
              | none =>
                simp only [Option.some_bind, Option.none_bind, Option.map_some',
                  Option.map_none', ScaleComplex.Invoker.RunOnDevice, ScaleComplex.Invoker.Run,
                  decompOp_runOnDevice_eq, h0, h1, h2, h3, r0, r1, r2]
              | some a3 =>
                cases r3 : op.Run a3 p2 with
                | none =>
                  simp only [Option.some_bind, Option.none_bind, Option.map_some',
                    Option.map_none', ScaleComplex.Invoker.RunOnDevice, ScaleComplex.Invoker.Run,
                    decompOp_runOnDevice_eq, h0, h1, h2, h3, r0, r1, r2, r3]
                | some s3 =>
                  simp only [Option.some_bind, Option.none_bind, Option.map_some',
                    Option.map_none', ScaleComplex.Invoker.RunOnDevice, ScaleComplex.Invoker.Run,
                    decompOp_runOnDevice_eq, h0, h1, h2, h3, r0, r1, r2, r3]

/-- A completed run of the bilinear table leaves the six buffers other than
`E_real` and `E_imag` as they were. -/
theorem bilinearComplex_run_frame {R : Type} [CommRing R] (op : DecompOp R)
    (shape : DecompShape) (m : Planes R) (cde : Bilinear R) (out : Planes R) (t : Nat)
    (h : BilinearComplex.Invoker.Run op (BilinearComplex.Argument.ofPlanes shape m cde)
      = some (out, t))
    (id : PlaneId) (h1 : id ≠ PlaneId.E_real) (h2 : id ≠ PlaneId.E_imag) :
    out.get id = m.get id := by
  have hr : m.ptr PlaneId.E_real = none
      ∨ m.ptr PlaneId.E_real = some PlaneId.E_real
      ∨ m.ptr PlaneId.E_real = some PlaneId.E_imag :=
    (planes_ptr_cases m PlaneId.E_real).elim Or.inl (fun h => Or.inr (Or.inl h))
  have hi : m.ptr PlaneId.E_imag = none
      ∨ m.ptr PlaneId.E_imag = some PlaneId.E_real
      ∨ m.ptr PlaneId.E_imag = some PlaneId.E_imag :=
    (planes_ptr_cases m PlaneId.E_imag).elim Or.inl (fun h => Or.inr (Or.inr h))
  obtain ⟨a0, a1, a2, a3, s0, s1, s2, e0, e1, e2, e3, r0, r1, r2, r3⟩ :=
    bilinearComplex_run_steps op _ out t h
  simp only [BilinearComplex.Argument.ofPlanes, List.get?_cons_zero, List.get?_cons_succ,
    Option.some.injEq] at e0 e1 e2 e3
  subst e0 e1 e2 e3
  obtain ⟨p0, t0⟩ := s0
  obtain ⟨p1, t1⟩ := s1
  obtain ⟨p2, t2⟩ := s2
  rw [decompOp_run_frame_E op _ _ _ _ r3 hi id h1 h2,
    decompOp_run_frame_E op _ _ _ _ r2 hi id h1 h2,
    decompOp_run_frame_E op _ _ _ _ r1 hr id h1 h2,
    decompOp_run_frame_E op _ _ _ _ r0 hr id h1 h2]
  rfl

/-- A completed run of the scale table leaves the six buffers other than `E_real`
and `E_imag` as they were. -/
theorem scaleComplex_run_frame {R : Type} [CommRing R] (op : DecompOp R)
    (shape : DecompShape) (m : Planes R) (cde : Scale R) (out : Planes R) (t : Nat)
    (h : ScaleComplex.Invoker.Run op (ScaleComplex.Argument.ofPlanes shape m cde)
      = some (out, t))
    (id : PlaneId) (h1 : id ≠ PlaneId.E_real) (h2 : id ≠ PlaneId.E_imag) :
    out.get id = m.get id := by
  have hr : m.ptr PlaneId.E_real = none
      ∨ m.ptr PlaneId.E_real = some PlaneId.E_real
      ∨ m.ptr PlaneId.E_real = some PlaneId.E_imag :=
    (planes_ptr_cases m PlaneId.E_real).elim Or.inl (fun h => Or.inr (Or.inl h))
  have hi : m.ptr PlaneId.E_imag = none
      ∨ m.ptr PlaneId.E_imag = some PlaneId.E_real
      ∨ m.ptr PlaneId.E_imag = some PlaneId.E_imag :=
    (planes_ptr_cases m PlaneId.E_imag).elim Or.inl (fun h => Or.inr (Or.inr h))
  obtain ⟨a0, a1, a2, a3, s0, s1, s2, e0, e1, e2, e3, r0, r1, r2, r3⟩ :=
    scaleComplex_run_steps op _ out t h
  simp only [ScaleComplex.Argument.ofPlanes, List.get?_cons_zero, List.get?_cons_succ,
    Option.some.injEq] at e0 e1 e2 e3
  subst e0 e1 e2 e3
  obtain ⟨p0, t0⟩ := s0
  obtain ⟨p1, t1⟩ := s1
  obtain ⟨p2, t2⟩ := s2
  rw [decompOp_run_frame_E op _ _ _ _ r3 hi id h1 h2,
    decompOp_run_frame_E op _ _ _ _ r2 hi id h1 h2,
    decompOp_run_frame_E op _ _ _ _ r1 hr id h1 h2,
    decompOp_run_frame_E op _ _ _ _ r0 hr id h1 h2]
  rfl

/-- C28: on device memory holding the caller's interleaved buffers `a`, `b`, `d`,
`e` next to the Argument's own buffers, `Invoker::Run` of the complex bilinear and
of the complex scale operation is, for every Argument, its run on the Argument's
buffers with the caller's four buffers left as they were. Whenever the run of the
constructor's table completes, the caller's buffers and the six buffers other than
`E_real` and `E_imag` are unchanged; over allocated buffers it does complete,
changing `E_real` and `E_imag` only. The output addresses of the four real
sub-arguments are the members `E_real`, `E_real`, `E_imag`, `E_imag`; on an
Argument built by the constructor the first real run faults before anything is
stored. -/
theorem complex_run_writes_only_E {R : Type} [CommRing R] (op : DecompOp R)
    (a b d e : ComplexGrid R) (shape : DecompShape) (bcde : Bilinear R) (scde : Scale R)
    (barg : BilinearComplex.Argument R) (sarg : ScaleComplex.Argument R)
    (m : Planes R) (ar ai br bi dr di er ei : List R) :
    BilinearComplex.Invoker.RunOnDevice op barg ⟨a, b, d, e, barg.toPlanes⟩
        = (BilinearComplex.Invoker.Run op barg).map (fun r => (⟨a, b, d, e, r.1⟩, r.2))
    ∧ ScaleComplex.Invoker.RunOnDevice op sarg ⟨a, b, d, e, sarg.toPlanes⟩
        = (ScaleComplex.Invoker.Run op sarg).map (fun r => (⟨a, b, d, e, r.1⟩, r.2))
    ∧ (∀ r, BilinearComplex.Invoker.RunOnDevice op
          (BilinearComplex.Argument.ofPlanes shape m bcde) ⟨a, b, d, e, m⟩ = some r →
        r.1.p_a_grid = a ∧ r.1.p_b_grid = b ∧ r.1.p_d_grid = d ∧ r.1.p_e_grid = e
        ∧ ∀ id, id ≠ PlaneId.E_real → id ≠ PlaneId.E_imag →
            r.1.members.get id = m.get id)
    ∧ (∀ r, ScaleComplex.Invoker.RunOnDevice op
          (ScaleComplex.Argument.ofPlanes shape m scde) ⟨a, b, d, e, m⟩ = some r →
        r.1.p_a_grid = a ∧ r.1.p_b_grid = b ∧ r.1.p_d_grid = d ∧ r.1.p_e_grid = e
        ∧ ∀ id, id ≠ PlaneId.E_real → id ≠ PlaneId.E_imag →
            r.1.members.get id = m.get id)
    ∧ (∃ er2 ei2 t, BilinearComplex.Invoker.RunOnDevice op
          (BilinearComplex.Argument.ofPlanes shape
            ⟨some ar, some ai, some br, some bi, some dr, some di, some er, some ei⟩ bcde)
          ⟨a, b, d, e,
            ⟨some ar, some ai, some br, some bi, some dr, some di, some er, some ei⟩⟩
        = some (⟨a, b, d, e,
            ⟨some ar, some ai, some br, some bi, some dr, some di, some er2, some ei2⟩⟩, t))
    ∧ (∃ er2 ei2 t, ScaleComplex.Invoker.RunOnDevice op
          (ScaleComplex.Argument.ofPlanes shape
            ⟨some ar, some ai, some br, some bi, some dr, some di, some er, some ei⟩ scde)
          ⟨a, b, d, e,
            ⟨some ar, some ai, some br, some bi, some dr, some di, some er, some ei⟩⟩
        = some (⟨a, b, d, e,
            ⟨some ar, some ai, some br, some bi, some dr, some di, some er2, some ei2⟩⟩, t))
    ∧ (BilinearComplex.Argument.ofPlanes shape m bcde).mArgs.map
          (fun x => x.devicePointers.p_e)
        = [(m.ptr PlaneId.E_real).map DevicePtr.member,
            (m.ptr PlaneId.E_real).map DevicePtr.member,
            (m.ptr PlaneId.E_imag).map DevicePtr.member,
            (m.ptr PlaneId.E_imag).map DevicePtr.member]
    ∧ (ScaleComplex.Argument.ofPlanes shape m scde).subArgs.map
          (fun x => x.devicePointers.p_e)
        = [(m.ptr PlaneId.E_real).map DevicePtr.member,
            (m.ptr PlaneId.E_real).map DevicePtr.member,
            (m.ptr PlaneId.E_imag).map DevicePtr.member,
            (m.ptr PlaneId.E_imag).map DevicePtr.member]
    ∧ BilinearComplex.Invoker.RunOnDevice op (BilinearComplex.Argument.ctor a b d e shape bcde)
        ⟨a, b, d, e, (BilinearComplex.Argument.ctor a b d e shape bcde).toPlanes⟩ = none
    ∧ ScaleComplex.Invoker.RunOnDevice op (ScaleComplex.Argument.ctor a b e shape scde)
        ⟨a, b, d, e, (ScaleComplex.Argument.ctor a b e shape scde).toPlanes⟩ = none := by
  refine ⟨bilinearComplex_runOnDevice_eq op barg a b d e,
    scaleComplex_runOnDevice_eq op sarg a b d e, ?_, ?_, ⟨_, _, _, rfl⟩, ⟨_, _, _, rfl⟩,
    rfl, rfl, ?_, ?_⟩
  · intro r hr
    have heq := bilinearComplex_runOnDevice_eq op
      (BilinearComplex.Argument.ofPlanes shape m bcde) a b d e
    have hm : (BilinearComplex.Argument.ofPlanes shape m bcde).toPlanes = m := rfl
    rw [hm, hr] at heq
    cases hrun : BilinearComplex.Invoker.Run op
        (BilinearComplex.Argument.ofPlanes shape m bcde) with
    | none => rw [hrun] at heq; simp at heq
    | some q =>
      obtain ⟨out, t⟩ := q
      rw [hrun] at heq
      simp only [Option.map_some', Option.some.injEq] at heq
      rw [heq]
      exact ⟨rfl, rfl, rfl, rfl,
        fun id h1 h2 => bilinearComplex_run_frame op shape m bcde out t hrun id h1 h2⟩
  · intro r hr
    have heq := scaleComplex_runOnDevice_eq op
      (ScaleComplex.Argument.ofPlanes shape m scde) a b d e
    have hm : (ScaleComplex.Argument.ofPlanes shape m scde).toPlanes = m := rfl
    rw [hm, hr] at heq
    cases hrun : ScaleComplex.Invoker.Run op
        (ScaleComplex.Argument.ofPlanes shape m scde) with
    | none => rw [hrun] at heq; simp at heq
    | some q =>
      obtain ⟨out, t⟩ := q
      rw [hrun] at heq
      simp only [Option.map_some', Option.some.injEq] at heq
      rw [heq]
      exact ⟨rfl, rfl, rfl, rfl,
        fun id h1 h2 => scaleComplex_run_frame op shape m scde out t hrun id h1 h2⟩
  · rw [bilinearComplex_runOnDevice_eq, bilinearComplex_run_ctor]
    rfl
  · rw [scaleComplex_runOnDevice_eq, scaleComplex_run_ctor]
    rfl

/-- C28, witness: on the split sample operands, next to the caller's sample
buffers, both forms run to the end and change `E_real` and `E_imag` only. -/
theorem complex_run_writes_only_E_witness :
    BilinearComplex.Invoker.RunOnDevice dotOp
        (BilinearComplex.Argument.ofPlanes dotShape splitPlanes ⟨1, 1⟩)
        ⟨sampleA, sampleB, sampleC, sampleE, splitPlanes⟩
      = some (⟨sampleA, sampleB, sampleC, sampleE,
          ⟨some [1, 3], some [2, 4], some [5, 7], some [6, 8], some [9], some [0],
            some [-9], some [68]⟩⟩, 1)
    ∧ ScaleComplex.Invoker.RunOnDevice dotOp
        (ScaleComplex.Argument.ofPlanes dotShapeScale splitPlanes ⟨1⟩)
        ⟨sampleA, sampleB, sampleC, sampleE, splitPlanes⟩
      = some (⟨sampleA, sampleB, sampleC, sampleE,
          ⟨some [1, 3], some [2, 4], some [5, 7], some [6, 8], some [9], some [0],
            some [-18], some [68]⟩⟩, 1)
    ∧ BilinearComplex.Invoker.RunOnDevice dotOp
        (BilinearComplex.Argument.ofPlanes dotShape splitPlanes ⟨1, 1⟩)
        ⟨sampleA, sampleB, sampleC, sampleE,
          (BilinearComplex.Argument.ofPlanes dotShape splitPlanes
            (⟨1, 1⟩ : Bilinear Int)).toPlanes⟩
      = (BilinearComplex.Invoker.Run dotOp
          (BilinearComplex.Argument.ofPlanes dotShape splitPlanes ⟨1, 1⟩)).map
          (fun r => (⟨sampleA, sampleB, sampleC, sampleE, r.1⟩, r.2)) :=
  ⟨by decide, by decide,
    (complex_run_writes_only_E dotOp sampleA sampleB sampleC sampleE dotShape ⟨1, 1⟩ ⟨1⟩
      (BilinearComplex.Argument.ofPlanes dotShape splitPlanes ⟨1, 1⟩)
      (ScaleComplex.Argument.ofPlanes dotShapeScale splitPlanes ⟨1⟩)
      splitPlanes [1, 3] [2, 4] [5, 7] [6, 8] [9] [0] [5] [0]).1⟩

/-! ## Complex decomposition: the scale table as a complex product -/

theorem zipWith_neg_scaled {R : Type} [CommRing R] (s : R) :
    ∀ xs ys : List R,
      List.zipWith (fun x0 x1 => s * -1 * x0 + 1 * x1) ys (xs.map (fun x => s * x))
        = List.zipWith (fun x y => s * (x - y)) xs ys := by
  intro xs
  induction xs with
  | nil => intro ys; cases ys <;> rfl
  | cons x xs ih =>
    intro ys
    cases ys with
    | nil => rfl
    | cons y ys =>
      simp only [List.map_cons, List.zipWith_cons_cons, ih ys]
      congr 1
      ring

theorem zipWith_add_scaled {R : Type} [CommRing R] (s : R) :
    ∀ xs ys : List R,
      List.zipWith (fun x0 x1 => s * x0 + 1 * x1) ys (xs.map (fun x => s * x))
        = List.zipWith (fun x y => s * (x + y)) xs ys := by
  intro xs
  induction xs with
  | nil => intro ys; cases ys <;> rfl
  | cons x xs ih =>
    intro ys
    cases ys with
    | nil => rfl
    | cons y ys =>
      simp only [List.map_cons, List.zipWith_cons_cons, ih ys]
      congr 1
      ring

theorem zipWith_zero_plane {R : Type} [CommRing R] (s : R) :
    ∀ (ys : List R) (n : Nat), ys.length ≤ n →
      List.zipWith (fun x0 x1 => s * x0 + 1 * x1) ys (List.replicate n 0)
        = ys.map (fun x => s * x) := by
  intro ys
  induction ys with
  | nil => intro n _; rfl
  | cons y ys ih =>
    intro n hn
    cases n with
    | zero => simp at hn
    | succ k =>
      have hk : ys.length ≤ k := by simpa using hn
      simp only [List.replicate_succ, List.zipWith_cons_cons, List.map_cons, ih k hk]
      congr 1
      ring

/-- C27: with `A_real`, `A_imag`, `B_real`, `B_imag` holding the parts of A and
B and a zero `D_imag` plane covering the output, the scale run followed by the
three bilinear runs with coefficients `(-s, 1)`, `(s, 1)`, `(s, 1)` leaves
`E_real = s * (Ar*Br - Ai*Bi)` and `E_imag = s * (Ar*Bi + Ai*Br)` in any
commutative ring, the other buffers unchanged; the constructor builds this table
over its own buffers and allocates `D_imag` as zeros. -/
theorem scaleComplex_run_is_complex_product {R : Type} [CommRing R] (op : DecompOp R)
    (shape : DecompShape) (ar ai br bi er ei : List R) (dr : DeviceArray R) (n : Nat) (s : R)
    (a b e : ComplexGrid R)
    (hn : (op.contract (ScaleComplex.bilinearShape shape) ar bi).length ≤ n) :
    (ScaleComplex.Invoker.Run op
        (ScaleComplex.Argument.ofPlanes shape
          ⟨some ar, some ai, some br, some bi, dr, some (List.replicate n 0), some er, some ei⟩
          ⟨s⟩)).map Prod.fst
      = some ⟨some ar, some ai, some br, some bi, dr, some (List.replicate n 0),
          some (List.zipWith (fun x y => s * (x - y)) (op.contract shape ar br)
            (op.contract (ScaleComplex.bilinearShape shape) ai bi)),
          some (List.zipWith (fun x y => s * (x + y))
            (op.contract (ScaleComplex.bilinearShape shape) ar bi)
            (op.contract (ScaleComplex.bilinearShape shape) ai br))⟩
    ∧ ScaleComplex.Argument.ctor a b e shape ⟨s⟩
        = ScaleComplex.Argument.ofPlanes shape
            (ScaleComplex.Argument.ctor a b e shape ⟨s⟩).toPlanes ⟨s⟩
    ∧ (ScaleComplex.Argument.ctor a b e shape ⟨s⟩).mD_imag
        = some (List.replicate (elementSpaceFromLengthsAndStrides shape.e_ms_ns_lengths
            shape.e_ms_ns_strides).toNat 0)
    ∧ (ScaleComplex.Argument.ofPlanes shape
          (ScaleComplex.Argument.ctor a b e shape ⟨s⟩).toPlanes ⟨s⟩).subArgs.map
            (fun x => x.cde_element_op)
        = [ CDEElementwiseOperation.scale ⟨s⟩,
            CDEElementwiseOperation.bilinear ⟨s * -1, 1⟩,
            CDEElementwiseOperation.bilinear ⟨s, 1⟩,
            CDEElementwiseOperation.bilinear ⟨s, 1⟩ ] := by
  refine ⟨?_, rfl, rfl, rfl⟩
  simp only [ScaleComplex.Invoker.Run, ScaleComplex.Argument.ofPlanes,
    ScaleComplex.allocScaleArgs, ScaleComplex.allocBilinearArgs, ScaleComplex.bilinearShape,
    DecompOp.Run, Planes.ptr, Planes.get, Planes.set, Option.isSome_some, if_true,
    Option.some_bind, List.get?_cons_zero, List.get?_cons_succ, Option.isNone_some,
    List.headD_cons, Option.map_some', Bool.false_eq_true, if_false]
  have hzero := zipWith_zero_plane s _ n hn
  simp only [ScaleComplex.bilinearShape] at hzero
  rw [zipWith_neg_scaled, hzero, zipWith_add_scaled]

/-- C27, witness: for `A = (1+2i, 3+4i)`, `B = (5+6i, 7+8i)` and `s = 2` the run
leaves `E = -36 + 136i`, which is `2 * (A . B)`. -/
theorem scaleComplex_run_is_complex_product_witness :
    (dotOp.contract (ScaleComplex.bilinearShape dotShapeScale) [1, 3] [6, 8]).length ≤ 1
    ∧ (ScaleComplex.Invoker.Run dotOp
        (ScaleComplex.Argument.ofPlanes dotShapeScale
          ⟨some [1, 3], some [2, 4], some [5, 7], some [6, 8], some [9],
            some (List.replicate 1 0), some [5], some [0]⟩ ⟨2⟩)).map Prod.fst
      = some ⟨some [1, 3], some [2, 4], some [5, 7], some [6, 8], some [9], some [0],
          some [-36], some [136]⟩
    ∧ (ScaleComplex.Invoker.Run dotOp
        (ScaleComplex.Argument.ofPlanes dotShapeScale
          ⟨some [1, 3], some [2, 4], some [5, 7], some [6, 8], some [9],
            some (List.replicate 1 0), some [5], some [0]⟩ ⟨2⟩)).map Prod.fst
      = some ⟨some [1, 3], some [2, 4], some [5, 7], some [6, 8], some [9],
          some (List.replicate 1 0),
          some (List.zipWith (fun x y => 2 * (x - y))
            (dotOp.contract dotShapeScale [1, 3] [5, 7])
            (dotOp.contract (ScaleComplex.bilinearShape dotShapeScale) [2, 4] [6, 8])),
          some (List.zipWith (fun x y => 2 * (x + y))
            (dotOp.contract (ScaleComplex.bilinearShape dotShapeScale) [1, 3] [6, 8])
            (dotOp.contract (ScaleComplex.bilinearShape dotShapeScale) [2, 4] [5, 7]))⟩ :=
  ⟨by decide, by decide,
    (scaleComplex_run_is_complex_product dotOp dotShapeScale [1, 3] [2, 4] [5, 7] [6, 8] [5] [0]
      (some [9]) 1 2 sampleA sampleB sampleE (by decide)).1⟩

end HipTensor
